import Mathlib

/-!
OpenLock lockdown browser: navigation filter, SEB request hashes, Config Key,
RNCryptor envelope and process guard.

A shallow embedding of the parts of the OpenLock sources that the verified
properties are about, followed by the theorems.

Modelling conventions.

* A `QByteArray` is a list of octets (`List Nat`, every element meant to be below 256).
* A `QString` is a Lean `String`; characters outside the Basic Multilingual Plane
  (surrogate pairs in Qt) are outside the model.  Letter case is folded on the
  ASCII range, like `Char.toLower`.
* A `QUrl` is the record of its components; `QUrl.toString` assembles them the
  way Qt prints a URL.
* `QCryptographicHash::hash(_, Sha256)` and `QMessageAuthenticationCode` (also
  OpenSSL's `HMAC(EVP_sha256(), ..)`) are SHA-256 (FIPS 180-4) and HMAC (RFC 2104),
  written out below.  PBKDF2 and AES, which `decryptRNCryptorV3` takes from OpenSSL,
  are parameters, and so is `std::sort`, whose order among keys that compare
  equal is unspecified.
* Operating-system calls (`getpid`, `kill`, `usleep`, the `/proc` listing) are the
  fields of a record `Posix`; every call to `kill` is appended to a log.
-/

namespace openlock

/-! ## Qt value types -/

abbrev QByteArray := List Nat

namespace QString

/-- `QString::toLower`. -/
def toLower (s : String) : String := ⟨s.data.map Char.toLower⟩

/-- `QString::isEmpty`. -/
def isEmpty (s : String) : Bool := s.data.isEmpty

/-- Whether `sub` occurs in `s` as a contiguous run of characters. -/
def occursIn (sub s : List Char) : Bool := s.tails.any (fun t => sub.isPrefixOf t)

/-- `QString::contains(sub, cs)`; `caseSensitive = false` is `Qt::CaseInsensitive`. -/
def contains (s sub : String) (caseSensitive : Bool) : Bool :=
  if caseSensitive then occursIn sub.data s.data
  else occursIn (toLower sub).data (toLower s).data

/-- UTF-8 encoding of one character. -/
def utf8OfChar (c : Char) : QByteArray :=
  let v := c.val.toNat
  if v < 0x80 then [v]
  else if v < 0x800 then [0xC0 + v / 64, 0x80 + v % 64]
  else if v < 0x10000 then [0xE0 + v / 4096, 0x80 + (v / 64) % 64, 0x80 + v % 64]
  else [0xF0 + v / 262144, 0x80 + (v / 4096) % 64, 0x80 + (v / 64) % 64, 0x80 + v % 64]

/-- `QString::toUtf8`. -/
def toUtf8 (s : String) : QByteArray := s.data.flatMap utf8OfChar

/-- `QString::length`: the number of UTF-16 code units. -/
def length (s : String) : Nat :=
  (s.data.map (fun c => if c.val.toNat < 0x10000 then 1 else 2)).sum

end QString

/-- One lowercase hexadecimal digit, as its ASCII code. -/
def hexDigit (n : Nat) : Nat := if n < 10 then 48 + n else 87 + n

/-- `QByteArray::toHex`: two lowercase hexadecimal digits per octet. -/
def toHex : QByteArray → QByteArray
  | [] => []
  | b :: rest => hexDigit (b / 16 % 16) :: hexDigit (b % 16) :: toHex rest

/-- The ASCII codes of `0`..`9` and `a`..`f`. -/
def isLowerHexChar (c : Nat) : Bool := (48 ≤ c && c ≤ 57) || (97 ≤ c && c ≤ 102)

/-- A `QUrl`, held as its components.  `query` and `fragment` are `none` when the
URL has none (`hasQuery()`, `hasFragment()` false). -/
structure QUrl where
  scheme : String := ""
  userInfo : String := ""
  host : String := ""
  port : Option String := none
  path : String := ""
  query : Option String := none
  fragment : Option String := none
  deriving DecidableEq, Repr

namespace QUrl

/-- `QUrl::authority()`: `userinfo@host:port`, each part only when present. -/
def authority (u : QUrl) : String :=
  (if u.userInfo = "" then "" else u.userInfo ++ "@") ++ u.host ++
    (match u.port with | none => "" | some p => ":" ++ p)

/-- `QUrl::toString()`. -/
def toString (u : QUrl) : String :=
  (if u.scheme = "" then "" else u.scheme ++ ":") ++
  (if u.authority = "" then
      (if u.scheme = "file" ∧ "/".data.isPrefixOf u.path.data then "//" else "")
    else "//" ++ u.authority) ++
  u.path ++
  (match u.query with | none => "" | some q => "?" ++ q) ++
  (match u.fragment with | none => "" | some f => "#" ++ f)

/-- `QUrl::setFragment`; `none` stands for the null `QString()`, which removes the
fragment. -/
def setFragment (u : QUrl) (f : Option String) : QUrl := { u with fragment := f }

end QUrl

/-! ## Regular expressions built from URL globs

`NavigationFilter` only ever compiles the patterns `globToUrlRegex` produces.
These use four forms of PCRE: an unescaped letter, digit or underscore, a
backslash followed by the character it quotes, `.` and `.*`.  `compile` reads
exactly these forms and `hasMatch` searches the subject for a match starting
anywhere, as `QRegularExpression::match(..).hasMatch()` does. -/

/-- `QRegularExpression::escape` for a one-character string: everything but
`[a-zA-Z0-9_]` gets a backslash, NUL becomes `\0`. -/
def escapeChar (c : Char) : List Char :=
  if c.val.toNat = 0 then ['\\', '0']
  else if c.isAlphanum ∨ c = '_' then [c]
  else ['\\', c]

inductive RxTok where
  | lit (c : Char)
  | dot
  | dotStar
  deriving DecidableEq, Repr

def isOctalDigit (c : Char) : Bool := 48 ≤ c.toNat && c.toNat ≤ 55

def octalValue (c : Char) : Nat := c.toNat - 48

/-- Reads a pattern text made of the four forms into tokens; `none` for any other
text.  After `\0`, PCRE reads up to two further octal digits into the character
code. -/
def compile : List Char → Option (List RxTok)
  | [] => some []
  | '\\' :: '0' :: d1 :: d2 :: rest =>
      if isOctalDigit d1 ∧ isOctalDigit d2 then
        (compile rest).map (RxTok.lit (Char.ofNat (octalValue d1 * 8 + octalValue d2)) :: ·)
      else if isOctalDigit d1 then
        (compile (d2 :: rest)).map (RxTok.lit (Char.ofNat (octalValue d1)) :: ·)
      else (compile (d1 :: d2 :: rest)).map (RxTok.lit (Char.ofNat 0) :: ·)
  | '\\' :: '0' :: d1 :: rest =>
      if isOctalDigit d1 then
        (compile rest).map (RxTok.lit (Char.ofNat (octalValue d1)) :: ·)
      else (compile (d1 :: rest)).map (RxTok.lit (Char.ofNat 0) :: ·)
  | '\\' :: '0' :: rest => (compile rest).map (RxTok.lit (Char.ofNat 0) :: ·)
  | '\\' :: c :: rest =>
      if c.isAlphanum then none else (compile rest).map (RxTok.lit c :: ·)
  | '.' :: '*' :: rest => (compile rest).map (RxTok.dotStar :: ·)
  | '.' :: rest => (compile rest).map (RxTok.dot :: ·)
  | c :: rest =>
      if c.isAlphanum ∨ c = '_' then (compile rest).map (RxTok.lit c :: ·) else none

/-- The subjects `.*` can leave to the rest of the pattern: `.` does not match a
newline. -/
def starTails : List Char → List (List Char)
  | [] => [[]]
  | x :: xs => if x = '\n' then [x :: xs] else (x :: xs) :: starTails xs

/-- Whether the token sequence matches a beginning of the subject.  With
`caseInsensitive`, a character of the pattern matches a character of the subject
when the two have the same ASCII lower-case form.  PCRE2 in UTF mode also takes the
case variants of letters beyond ASCII for one another, so this is the answer of the
library for patterns and subjects of ASCII characters; statements that depend on
the case of other letters carry that restriction. -/
def matchHere (caseInsensitive : Bool) : List RxTok → List Char → Bool
  | [], _ => true
  | .lit c :: ts, x :: xs =>
      (if caseInsensitive then c.toLower == x.toLower else c == x) &&
        matchHere caseInsensitive ts xs
  | .lit _ :: _, [] => false
  | .dot :: ts, x :: xs => x != '\n' && matchHere caseInsensitive ts xs
  | .dot :: _, [] => false
  | .dotStar :: ts, s => (starTails s).any (matchHere caseInsensitive ts)

/-- A `QRegularExpression`: the pattern text and whether `CaseInsensitiveOption` is
set. -/
structure QRegularExpression where
  pattern : String
  caseInsensitive : Bool
  deriving DecidableEq, Repr

/-- `pattern.match(subject).hasMatch()`; a pattern that does not compile matches
nothing. -/
def QRegularExpression.hasMatch (re : QRegularExpression) (subject : String) : Bool :=
  match compile re.pattern.data with
  | none => false
  | some toks => subject.data.tails.any (matchHere re.caseInsensitive toks)

/-! ## browser/NavigationFilter -/

inductive FilterResult where
  | Allowed
  | Blocked
  | AllowedSSO
  deriving DecidableEq, Repr

structure NavigationFilter where
  m_allowedPatterns : List QRegularExpression := []
  m_blockedPatterns : List QRegularExpression := []
  m_ssoDomains : List String := []
  deriving DecidableEq, Repr

namespace NavigationFilter

/-- The filter as its constructor leaves it. -/
def new : NavigationFilter :=
  { m_ssoDomains := [
      "login.microsoftonline.com",
      "accounts.google.com",
      "auth.google.com",
      "shibboleth",
      "idp.",
      "cas.",
      "login.",
      "auth.",
      "sso.",
      "adfs.",
      "okta.com",
      "onelogin.com",
      "ping."] }

def globToUrlRegex (glob : String) : String :=
  ⟨glob.data.flatMap (fun c =>
      if c = '*' then ['.', '*']
      else if c = '?' then ['.']
      else escapeChar c)⟩

def addAllowedPattern (f : NavigationFilter) (pattern : String) : NavigationFilter :=
  { f with m_allowedPatterns := f.m_allowedPatterns ++ [⟨globToUrlRegex pattern, true⟩] }

def addBlockedPattern (f : NavigationFilter) (pattern : String) : NavigationFilter :=
  { f with m_blockedPatterns := f.m_blockedPatterns ++ [⟨globToUrlRegex pattern, true⟩] }

def addSSODomain (f : NavigationFilter) (domain : String) : NavigationFilter :=
  { f with m_ssoDomains := f.m_ssoDomains ++ [domain] }

def setAllowedPatterns (f : NavigationFilter) (patterns : List String) : NavigationFilter :=
  patterns.foldl addAllowedPattern { f with m_allowedPatterns := [] }

def setBlockedPatterns (f : NavigationFilter) (patterns : List String) : NavigationFilter :=
  patterns.foldl addBlockedPattern { f with m_blockedPatterns := [] }

def setSSODomains (f : NavigationFilter) (domains : List String) : NavigationFilter :=
  { f with m_ssoDomains := domains }

def matchesPattern (url : QUrl) (patterns : List QRegularExpression) : Bool :=
  patterns.any (fun pattern => pattern.hasMatch url.toString)

def isSSODomain (f : NavigationFilter) (url : QUrl) : Bool :=
  f.m_ssoDomains.any (fun ssoDomain => QString.contains (QString.toLower url.host) ssoDomain false)

def isBlockedScheme (url : QUrl) : Bool :=
  let scheme := QString.toLower url.scheme
  scheme = "file" || scheme = "about" || scheme = "chrome" ||
  scheme = "data" || scheme = "javascript" || scheme = "view-source" ||
  scheme = "ftp"

def checkUrl (f : NavigationFilter) (url : QUrl) : FilterResult :=
  if isBlockedScheme url then FilterResult.Blocked
  else if f.isSSODomain url then FilterResult.AllowedSSO
  else if matchesPattern url f.m_blockedPatterns then FilterResult.Blocked
  else if !f.m_allowedPatterns.isEmpty then
    (if matchesPattern url f.m_allowedPatterns then FilterResult.Allowed
     else FilterResult.Blocked)
  else FilterResult.Allowed

end NavigationFilter

/-! ## SHA-256 and HMAC-SHA-256

`QCryptographicHash::hash(data, QCryptographicHash::Sha256)`,
`QMessageAuthenticationCode(QCryptographicHash::Sha256, key)` and OpenSSL's
`HMAC(EVP_sha256(), ..)`, over 32-bit words held as natural numbers. -/

namespace Sha256

/-- The round constants: the first 32 bits of the fractional parts of the cube roots
of the first 64 primes (the first one is 428a2f98 in hexadecimal). -/
def K : List Nat := [
  1116352408, 1899447441, 3049323471, 3921009573, 961987163, 1508970993,
  2453635748, 2870763221, 3624381080, 310598401, 607225278, 1426881987,
  1925078388, 2162078206, 2614888103, 3248222580, 3835390401, 4022224774,
  264347078, 604807628, 770255983, 1249150122, 1555081692, 1996064986,
  2554220882, 2821834349, 2952996808, 3210313671, 3336571891, 3584528711,
  113926993, 338241895, 666307205, 773529912, 1294757372, 1396182291,
  1695183700, 1986661051, 2177026350, 2456956037, 2730485921, 2820302411,
  3259730800, 3345764771, 3516065817, 3600352804, 4094571909, 275423344,
  430227734, 506948616, 659060556, 883997877, 958139571, 1322822218,
  1537002063, 1747873779, 1955562222, 2024104815, 2227730452, 2361852424,
  2428436474, 2756734187, 3204031479, 3329325298]

def rotr (x n : Nat) : Nat := ((x >>> n) ||| (x <<< (32 - n))) % 2 ^ 32

def add32 (a b : Nat) : Nat := (a + b) % 2 ^ 32

def not32 (a : Nat) : Nat := 2 ^ 32 - 1 - a

/-- The eight working variables, also the chaining value. -/
structure State where
  a : Nat
  b : Nat
  c : Nat
  d : Nat
  e : Nat
  f : Nat
  g : Nat
  h : Nat

/-- The initial chaining value: the first 32 bits of the fractional parts of the
square roots of the first 8 primes (the first one is 6a09e667 in hexadecimal). -/
def H0 : State :=
  ⟨1779033703, 3144134277, 1013904242, 2773480762,
   1359893119, 2600822924, 528734635, 1541459225⟩

/-- One round; `kw` is the round constant plus the schedule word. -/
def round (s : State) (kw : Nat) : State :=
  let S1 := rotr s.e 6 ^^^ rotr s.e 11 ^^^ rotr s.e 25
  let ch := (s.e &&& s.f) ^^^ (not32 s.e &&& s.g)
  let t1 := (s.h + S1 + ch + kw) % 2 ^ 32
  let S0 := rotr s.a 2 ^^^ rotr s.a 13 ^^^ rotr s.a 22
  let maj := (s.a &&& s.b) ^^^ (s.a &&& s.c) ^^^ (s.b &&& s.c)
  let t2 := (S0 + maj) % 2 ^ 32
  ⟨add32 t1 t2, s.a, s.b, s.c, add32 s.d t1, s.e, s.f, s.g⟩

/-- Extends the message schedule by `n` words; the schedule is kept newest word
first. -/
def extend : Nat → List Nat → List Nat
  | 0, ws => ws
  | n + 1, ws =>
    let w2 := ws.getD 1 0
    let w7 := ws.getD 6 0
    let w15 := ws.getD 14 0
    let w16 := ws.getD 15 0
    let s0 := rotr w15 7 ^^^ rotr w15 18 ^^^ (w15 >>> 3)
    let s1 := rotr w2 17 ^^^ rotr w2 19 ^^^ (w2 >>> 10)
    extend n (((w16 + s0 + w7 + s1) % 2 ^ 32) :: ws)

/-- Big-endian 32-bit words of a block. -/
def wordsOf : List Nat → List Nat
  | a :: b :: c :: d :: rest => (a * 2 ^ 24 + b * 2 ^ 16 + c * 2 ^ 8 + d) :: wordsOf rest
  | _ => []

def compress (s : State) (block : List Nat) : State :=
  let w := (extend 48 (wordsOf block).reverse).reverse
  let r := (List.zipWith (fun k w => (k + w) % 2 ^ 32) K w).foldl round s
  ⟨add32 s.a r.a, add32 s.b r.b, add32 s.c r.c, add32 s.d r.d,
   add32 s.e r.e, add32 s.f r.f, add32 s.g r.g, add32 s.h r.h⟩

/-- The `k` low octets of `n`, most significant first. -/
def bigEndian (n : Nat) : Nat → List Nat
  | 0 => []
  | k + 1 => ((n >>> (8 * k)) % 256) :: bigEndian n k

/-- Padding: a one bit, zeros, and the bit length in 64 bits. -/
def pad (m : List Nat) : List Nat :=
  m ++ [0x80] ++ List.replicate ((119 - m.length % 64) % 64) 0 ++ bigEndian (8 * m.length) 8

def blocks : Nat → List Nat → State → State
  | 0, _, s => s
  | n + 1, m, s => blocks n (m.drop 64) (compress s (m.take 64))

end Sha256

/-- SHA-256 of an octet sequence: 32 octets. -/
def sha256 (m : QByteArray) : QByteArray :=
  let p := Sha256.pad m
  let s := Sha256.blocks (p.length / 64) p Sha256.H0
  Sha256.bigEndian s.a 4 ++ Sha256.bigEndian s.b 4 ++ Sha256.bigEndian s.c 4 ++
  Sha256.bigEndian s.d 4 ++ Sha256.bigEndian s.e 4 ++ Sha256.bigEndian s.f 4 ++
  Sha256.bigEndian s.g 4 ++ Sha256.bigEndian s.h 4

/-- HMAC-SHA-256 with a 64-octet block: a longer key is hashed first, a shorter
one is filled up with zeros. -/
def hmacSha256 (key msg : QByteArray) : QByteArray :=
  let k0 := if key.length > 64 then sha256 key else key
  let k := k0 ++ List.replicate (64 - k0.length) 0
  sha256 (k.map (· ^^^ 0x5c) ++ sha256 (k.map (· ^^^ 0x36) ++ msg))

/-! ## protocol/BrowserExamKey -/

structure BrowserExamKey where
  m_examKeySalt : QByteArray := []
  m_configPlistXml : QByteArray := []
  m_binaryFilesHash : QByteArray := []

namespace BrowserExamKey

def stripFragment (url : QUrl) : QUrl := url.setFragment none

def computeRawKey (k : BrowserExamKey) : QByteArray :=
  let message :=
    if k.m_binaryFilesHash.isEmpty then k.m_configPlistXml
    else k.m_configPlistXml ++ toHex k.m_binaryFilesHash
  hmacSha256 k.m_examKeySalt message

def computeRequestHash (k : BrowserExamKey) (requestUrl : QUrl) : QByteArray :=
  let rawBek := k.computeRawKey
  let cleanUrl := stripFragment requestUrl
  let combined := QString.toUtf8 cleanUrl.toString ++ toHex rawBek
  toHex (sha256 combined)

end BrowserExamKey

/-! ## QVariant and QVariantMap -/

/-- A `QVariant`, by the cases `variantToJson` tells apart.  A double is held as
the text `QString::number(d, 'g', 15)` prints for it, a date as its
`toString(Qt::ISODate)` text, and a value of any other type as its `toString()`
text (empty for an invalid variant).  In `map` the entries stand in the order
`QMap` keeps them. -/
inductive QVariant where
  | bool (b : Bool)
  | int (i : Int)
  | double (g15 : String)
  | string (s : String)
  | byteArray (b : QByteArray)
  | dateTime (isoDate : String)
  | map (m : List (String × QVariant))
  | list (l : List QVariant)
  | other (text : String)

abbrev QVariantMap := List (String × QVariant)

/-- Lexicographic order on sequences of character codes. -/
def lexLess : List Nat → List Nat → Bool
  | _, [] => false
  | [], _ :: _ => true
  | a :: as, b :: bs => decide (a < b) || (a == b && lexLess as bs)

/-- `operator<` on `QString`, the order `QMap` keeps its keys in. -/
def QString.less (a b : String) : Bool :=
  lexLess (a.data.map Char.toNat) (b.data.map Char.toNat)

namespace QMap

/-- `QMap::insert`: entries are kept in ascending key order, and a key already
there gets the new value. -/
def insert {β : Type} (key : String) (value : β) : List (String × β) → List (String × β)
  | [] => [(key, value)]
  | (k, v) :: rest =>
      if QString.less key k then (key, value) :: (k, v) :: rest
      else if key = k then (key, value) :: rest
      else (k, v) :: insert key value rest

/-- `QMap::remove`. -/
def remove {β : Type} (key : String) (m : List (String × β)) : List (String × β) :=
  m.filter (fun e => e.1 ≠ key)

/-- `QMap::keys`: the keys in ascending order. -/
def keys {β : Type} (m : List (String × β)) : List String := m.map Prod.fst

/-- `QMap::value(key, defaultValue)`, which is also what `operator[]` reads. -/
def value {β : Type} (m : List (String × β)) (key : String) (defaultValue : β) : β :=
  match m with
  | [] => defaultValue
  | (k, v) :: rest => if k = key then v else value rest key defaultValue

/-- The map a sequence of `insert` calls builds, first entry first. -/
def ofEntries {β : Type} (entries : List (String × β)) : List (String × β) :=
  entries.foldl (fun m e => insert e.1 e.2 m) []

end QMap

mutual
/-- The settings tree a loader builds from entries presented in any order: every
mapping, at every depth, is filled by `QMap::insert` in the order presented. -/
def QVariant.load : QVariant → QVariant
  | .map m => .map (QMap.ofEntries (QVariant.loadEntries m))
  | .list l => .list (QVariant.loadList l)
  | .bool b => .bool b
  | .int i => .int i
  | .double d => .double d
  | .string s => .string s
  | .byteArray b => .byteArray b
  | .dateTime t => .dateTime t
  | .other t => .other t
def QVariant.loadEntries : List (String × QVariant) → List (String × QVariant)
  | [] => []
  | (k, v) :: rest => (k, QVariant.load v) :: QVariant.loadEntries rest
def QVariant.loadList : List QVariant → List QVariant
  | [] => []
  | v :: rest => QVariant.load v :: QVariant.loadList rest
end

/-- The top-level `QVariantMap` built from presented entries. -/
def QVariantMap.load (presented : List (String × QVariant)) : QVariantMap :=
  QMap.ofEntries (QVariant.loadEntries presented)

mutual
/-- No mapping of the tree presents a key twice. -/
def QVariant.distinctKeys : QVariant → Prop
  | .map m => (m.map Prod.fst).Nodup ∧ QVariant.distinctKeysEntries m
  | .list l => QVariant.distinctKeysList l
  | _ => True
def QVariant.distinctKeysEntries : List (String × QVariant) → Prop
  | [] => True
  | (_, v) :: rest => QVariant.distinctKeys v ∧ QVariant.distinctKeysEntries rest
def QVariant.distinctKeysList : List QVariant → Prop
  | [] => True
  | v :: rest => QVariant.distinctKeys v ∧ QVariant.distinctKeysList rest
end

mutual
/-- `QVariant.reordered a b`: `b` presents the same settings as `a`, with the entries
of any of its mappings, at any depth, in another order. -/
def QVariant.reordered : QVariant → QVariant → Prop
  | .map m, b => ∃ m1 m2, QVariant.reorderedEntries m m1 ∧ m1.Perm m2 ∧ b = .map m2
  | .list l, b => ∃ l1, QVariant.reorderedList l l1 ∧ b = .list l1
  | .bool x, b => b = .bool x
  | .int x, b => b = .int x
  | .double x, b => b = .double x
  | .string x, b => b = .string x
  | .byteArray x, b => b = .byteArray x
  | .dateTime x, b => b = .dateTime x
  | .other x, b => b = .other x
def QVariant.reorderedEntries : List (String × QVariant) → List (String × QVariant) → Prop
  | [], m1 => m1 = []
  | (k, v) :: rest, m1 =>
      ∃ v1 rest1, QVariant.reordered v v1 ∧ QVariant.reorderedEntries rest rest1 ∧
        m1 = (k, v1) :: rest1
def QVariant.reorderedList : List QVariant → List QVariant → Prop
  | [], l1 => l1 = []
  | v :: rest, l1 =>
      ∃ v1 rest1, QVariant.reordered v v1 ∧ QVariant.reorderedList rest rest1 ∧
        l1 = v1 :: rest1
end

/-! ## protocol/ConfigKeyGenerator -/

/-- The comparator `settingsToSebJson` hands to `std::sort`:
`a.compare(b, Qt::CaseInsensitive) < 0`. -/
def QString.lessCaseInsensitive (a b : String) : Bool :=
  lexLess ((QString.toLower a).data.map Char.toNat) ((QString.toLower b).data.map Char.toNat)

/-- What C++ promises of `std::sort` with that comparator: the result is a
rearrangement of the input in which no key is less than one before it.  The order
among keys the comparator does not tell apart is not promised. -/
def IsStdSort (sort : List String → List String) : Prop :=
  (∀ keys, (sort keys).Perm keys) ∧
  (∀ keys, (sort keys).Pairwise (fun a b => QString.lessCaseInsensitive b a = false))

/-- One sorting function, by insertion. -/
def insertKey (key : String) : List String → List String
  | [] => [key]
  | k :: rest =>
      if QString.lessCaseInsensitive key k then key :: k :: rest else k :: insertKey key rest

def insertionSortKeys : List String → List String
  | [] => []
  | key :: rest => insertKey key (insertionSortKeys rest)

def decimalDigits : Nat → Nat → List Char
  | 0, _ => []
  | fuel + 1, n =>
      (if n < 10 then [] else decimalDigits fuel (n / 10)) ++ [Char.ofNat (48 + n % 10)]

/-- `QString::number(qlonglong)`. -/
def QString.number : Int → String
  | .ofNat n => ⟨decimalDigits (n + 1) n⟩
  | .negSucc n => ⟨'-' :: decimalDigits (n + 2) (n + 1)⟩

def base64Char (n : Nat) : Char :=
  if n < 26 then Char.ofNat (65 + n)
  else if n < 52 then Char.ofNat (97 + (n - 26))
  else if n < 62 then Char.ofNat (48 + (n - 52))
  else if n = 62 then '+' else '/'

/-- `QByteArray::toBase64()`. -/
def toBase64 : QByteArray → List Char
  | a :: b :: c :: rest =>
      base64Char (a / 4 % 64) :: base64Char (a % 4 * 16 + b / 16 % 16) ::
        base64Char (b % 16 * 4 + c / 64 % 4) :: base64Char (c % 64) :: toBase64 rest
  | [a, b] =>
      [base64Char (a / 4 % 64), base64Char (a % 4 * 16 + b / 16 % 16),
        base64Char (b % 16 * 4), '=']
  | [a] => [base64Char (a / 4 % 64), base64Char (a % 4 * 16), '=', '=']
  | [] => []

structure ConfigKeyGenerator where
  m_configData : QByteArray := []
  m_settingsMap : QVariantMap := []

namespace ConfigKeyGenerator

/-- The loop of `settingsToSebJson` over the sorted keys; `rendered` maps a key to
the text `variantToJson(settings[key])`, and a key with no entry reads a
default-constructed variant, whose text is `""` in quotes. -/
def emitEntries (rendered : List (String × String)) : Bool → List String → String
  | _, [] => ""
  | first, key :: rest =>
      (if first then "" else ",") ++ "\"" ++ key ++ "\":" ++
        QMap.value rendered key "\"\"" ++ emitEntries rendered false rest

def sebJsonObject (sort : List String → List String) (keys : List String)
    (rendered : List (String × String)) : String :=
  "\x7b" ++ emitEntries rendered true (sort keys) ++ "\x7d"

mutual
def variantToJson (sort : List String → List String) : QVariant → String
  | .bool b => if b then "true" else "false"
  | .int i => QString.number i
  | .double s =>
      if !QString.contains s "." true && !QString.contains s "e" true &&
          !QString.contains s "E" true then s ++ ".0"
      else s
  | .string s => "\"" ++ s ++ "\""
  | .byteArray b => "\"" ++ String.mk (toBase64 b) ++ "\""
  | .dateTime isoDate => "\"" ++ isoDate ++ "\""
  | .map m => sebJsonObject sort (QMap.keys m) (valuesToJson sort m)
  | .list l => "[" ++ listToJson sort true l ++ "]"
  | .other text => "\"" ++ text ++ "\""
/-- The text of every value of a mapping, under its key. -/
def valuesToJson (sort : List String → List String) :
    List (String × QVariant) → List (String × String)
  | [] => []
  | (k, v) :: rest => (k, variantToJson sort v) :: valuesToJson sort rest
def listToJson (sort : List String → List String) : Bool → List QVariant → String
  | _, [] => ""
  | first, v :: rest =>
      (if first then "" else ",") ++ variantToJson sort v ++ listToJson sort false rest
end

def settingsToSebJson (sort : List String → List String) (settings : QVariantMap) : String :=
  sebJsonObject sort (QMap.keys settings) (valuesToJson sort settings)

def computeRawKey (sort : List String → List String) (g : ConfigKeyGenerator) : QByteArray :=
  if g.m_settingsMap.isEmpty then sha256 g.m_configData
  else
    let cleanSettings := QMap.remove "originatorVersion" g.m_settingsMap
    let json := settingsToSebJson sort cleanSettings
    sha256 (QString.toUtf8 json)

def stripFragment (url : QUrl) : QUrl := url.setFragment none

def computeRequestHash (sort : List String → List String) (g : ConfigKeyGenerator)
    (requestUrl : QUrl) : QByteArray :=
  let rawKey := g.computeRawKey sort
  let cleanUrl := stripFragment requestUrl
  let combined := QString.toUtf8 cleanUrl.toString ++ toHex rawKey
  toHex (sha256 combined)

end ConfigKeyGenerator

/-! ## protocol/SEBProtocol and protocol/SEBRequestInterceptor -/

structure SEBProtocol where
  m_examKey : BrowserExamKey := {}
  m_configKey : ConfigKeyGenerator := {}

namespace SEBProtocol

def computeRequestHash (p : SEBProtocol) (requestUrl : QUrl) : QByteArray :=
  p.m_examKey.computeRequestHash requestUrl

def computeConfigKeyHash (sort : List String → List String) (p : SEBProtocol)
    (requestUrl : QUrl) : QByteArray :=
  p.m_configKey.computeRequestHash sort requestUrl

def requestHashHeaderName : String := "X-SafeExamBrowser-RequestHash"

def configKeyHeaderName : String := "X-SafeExamBrowser-ConfigKeyHash"

end SEBProtocol

/-- A `QWebEngineUrlRequestInfo`: the request URL, whether `block(true)` was called,
and the extra headers set on it. -/
structure QWebEngineUrlRequestInfo where
  requestUrl : QUrl
  blocked : Bool := false
  headers : List (QByteArray × QByteArray) := []

namespace QWebEngineUrlRequestInfo

def block (info : QWebEngineUrlRequestInfo) (shouldBlock : Bool) : QWebEngineUrlRequestInfo :=
  { info with blocked := shouldBlock }

/-- `setHttpHeader`: a header already set under that name is replaced. -/
def setHttpHeader (info : QWebEngineUrlRequestInfo) (name value : QByteArray) :
    QWebEngineUrlRequestInfo :=
  { info with headers := info.headers.filter (fun h => h.1 ≠ name) ++ [(name, value)] }

/-- The value set under a header name, if any. -/
def httpHeader (info : QWebEngineUrlRequestInfo) (name : QByteArray) : Option QByteArray :=
  (info.headers.find? (fun h => h.1 = name)).map Prod.snd

end QWebEngineUrlRequestInfo

structure SEBRequestInterceptor where
  m_protocol : Option SEBProtocol := none
  m_navFilter : Option NavigationFilter := none

namespace SEBRequestInterceptor

def isBlockedScheme (scheme : String) : Bool :=
  ["file", "about", "chrome", "chrome-devtools",
   "data", "blob", "javascript", "ftp", "view-source"].contains scheme

def interceptRequest (sort : List String → List String) (i : SEBRequestInterceptor)
    (info : QWebEngineUrlRequestInfo) : QWebEngineUrlRequestInfo :=
  let url := info.requestUrl
  let scheme := QString.toLower url.scheme
  if isBlockedScheme scheme then info.block true
  else if scheme ≠ "http" ∧ scheme ≠ "https" then info.block true
  else if (match i.m_navFilter with
      | some navFilter => decide (navFilter.checkUrl url = FilterResult.Blocked)
      | none => false) then info.block true
  else
    match i.m_protocol with
    | none => info
    | some protocol =>
        let requestHash := protocol.computeRequestHash url
        let info1 :=
          if !requestHash.isEmpty then
            info.setHttpHeader (QString.toUtf8 SEBProtocol.requestHashHeaderName) requestHash
          else info
        let configKeyHash := protocol.computeConfigKeyHash sort url
        if !configKeyHash.isEmpty then
          info1.setHttpHeader (QString.toUtf8 SEBProtocol.configKeyHeaderName) configKeyHash
        else info1

end SEBRequestInterceptor

/-! ## protocol/SEBConfigParser: RNCryptor v3 -/

/-- The two OpenSSL primitives `decryptRNCryptorV3` calls besides HMAC.
`pbkdf2HmacSha1 pass salt iterations keyLength` is `PKCS5_PBKDF2_HMAC` with
`EVP_sha1()`, and `aes256CbcDecrypt key iv ciphertext` is the
`EVP_DecryptInit_ex` / `EVP_DecryptUpdate` / `EVP_DecryptFinal_ex` sequence with
`EVP_aes_256_cbc()`; `none` is a call that reports failure. -/
structure OpenSSL where
  pbkdf2HmacSha1 : QByteArray → QByteArray → Nat → Nat → Option QByteArray
  aes256CbcDecrypt : QByteArray → QByteArray → QByteArray → Option QByteArray

/-- Conversion to a 32-bit `int`. -/
def toInt32 (n : Int) : Int := (n + 2 ^ 31) % 2 ^ 32 - 2 ^ 31

/-- How a call of `decryptRNCryptorV3` ends: with the plaintext, or at one of its
`return {}` statements, named after the warning logged there. -/
inductive RNCryptorOutcome where
  | decrypted (plaintext : QByteArray)
  | dataTooSmall
  | unsupportedVersion
  | notPasswordBased
  | noCiphertext
  | encryptionKeyDerivationFailed
  | hmacKeyDerivationFailed
  | hmacVerificationFailed
  | decryptionFailed
  deriving DecidableEq, Repr

namespace SEBConfigParser

def kHeaderSize : Nat := 2
def kSaltSize : Nat := 8
def kIVSize : Nat := 16
def kHMACSize : Nat := 32
def kMinSize : Nat := kHeaderSize + kSaltSize + kSaltSize + kIVSize + kHMACSize

/-- `memcmp(a, b, n) != 0`. -/
def memcmpDiffers (a b : QByteArray) (n : Nat) : Bool := a.take n != b.take n

/-- The body of `decryptRNCryptorV3`, telling apart the places where it returns. -/
def decryptRNCryptorV3Outcome (ssl : OpenSSL) (data : QByteArray) (password : String) :
    RNCryptorOutcome :=
  if data.length < kMinSize then .dataTooSmall
  else
    let version := data.getD 0 0
    let options := data.getD 1 0
    if version ≠ 0x03 ∧ version ≠ 0x02 then .unsupportedVersion
    else if options ≠ 0x01 then .notPasswordBased
    else
      let encSalt := (data.drop kHeaderSize).take kSaltSize
      let hmacSalt := (data.drop (kHeaderSize + kSaltSize)).take kSaltSize
      let iv := (data.drop (kHeaderSize + kSaltSize + kSaltSize)).take kIVSize
      let pos := kHeaderSize + kSaltSize + kSaltSize + kIVSize
      let ciphertextLen : Int := toInt32 ((data.length : Int) - pos - kHMACSize)
      if ciphertextLen ≤ 0 then .noCiphertext
      else
        let ciphertext := (data.drop pos).take ciphertextLen.toNat
        let expectedHmac := data.drop (pos + ciphertextLen.toNat)
        let passwordBytes := QString.toUtf8 password
        let passLen :=
          if version = 0x02 then QString.length password else passwordBytes.length
        match ssl.pbkdf2HmacSha1 (passwordBytes.take passLen) encSalt 10000 32 with
        | none => .encryptionKeyDerivationFailed
        | some encKey =>
          match ssl.pbkdf2HmacSha1 (passwordBytes.take passLen) hmacSalt 10000 32 with
          | none => .hmacKeyDerivationFailed
          | some hmacKey =>
            let computedHmac := hmacSha256 hmacKey (data.take (data.length - kHMACSize))
            if memcmpDiffers computedHmac expectedHmac kHMACSize then .hmacVerificationFailed
            else
              match ssl.aes256CbcDecrypt encKey iv ciphertext with
              | none => .decryptionFailed
              | some decrypted => .decrypted decrypted

/-- `SEBConfigParser::decryptRNCryptorV3`: the plaintext, or the empty array. -/
def decryptRNCryptorV3 (ssl : OpenSSL) (data : QByteArray) (password : String) : QByteArray :=
  match decryptRNCryptorV3Outcome ssl data password with
  | .decrypted plaintext => plaintext
  | _ => []

end SEBConfigParser

/-! ## guard/ProcessBlocklist and guard/ProcessGuard -/

structure ProcessInfo where
  pid : Int := 0
  name : String := ""
  cmdline : String := ""
  exe : String := ""
  uid : Int := -1
  deriving DecidableEq, Repr

/-- A `ProcessBlocklist`; `m_blockedNames` is a set, held as a list. -/
structure ProcessBlocklist where
  m_blockedNames : List String := []
  m_patterns : List QRegularExpression := []

namespace ProcessBlocklist

def add (b : ProcessBlocklist) (name : String) : ProcessBlocklist :=
  if b.m_blockedNames.contains (QString.toLower name) then b
  else { b with m_blockedNames := b.m_blockedNames ++ [QString.toLower name] }

def remove (b : ProcessBlocklist) (name : String) : ProcessBlocklist :=
  { b with m_blockedNames := b.m_blockedNames.filter (fun n => n ≠ QString.toLower name) }

/-- `exe.mid(exe.lastIndexOf('/') + 1)`: what follows the last slash, all of `exe`
when there is none. -/
def afterLastSlash (exe : String) : String :=
  ⟨(exe.data.reverse.takeWhile (fun c => c ≠ '/')).reverse⟩

/-- `ProcessBlocklist::isBlocked`.  The patterns of a blocklist are arbitrary regular
expressions, so the matcher of the regular expression library is the parameter
`pcre`. -/
def isBlocked (pcre : QRegularExpression → String → Bool) (b : ProcessBlocklist)
    (name cmdline exe : String) : Bool :=
  let lowerName := QString.toLower name
  if b.m_blockedNames.contains lowerName then true
  else if !QString.isEmpty exe &&
      b.m_blockedNames.contains (QString.toLower (afterLastSlash exe)) then true
  else b.m_patterns.any (fun pattern => pcre pattern cmdline || pcre pattern exe)

end ProcessBlocklist

/-- The operating system as the process guard sees it.  `σ` is the state of the
system; `kill` returns the result of the call and the state after it, and
`enumerateProcesses` is the list `ProcessGuard::enumerateProcesses` reads from
`/proc`. -/
structure Posix (σ : Type) where
  getpid : Int
  kill : σ → Int → Int → Int × σ
  usleep : σ → Nat → σ
  enumerateProcesses : σ → List ProcessInfo

def SIGTERM : Int := 15
def SIGKILL : Int := 9

/-- What the guard does that can be observed from outside. -/
inductive GuardEvent where
  | killCalled (pid : Int) (sig : Int)
  | blockedProcessFound (proc : ProcessInfo)
  | blockedProcessKilled (proc : ProcessInfo)
  deriving DecidableEq, Repr

/-- The system state together with the log of what the guard did so far. -/
structure World (σ : Type) where
  os : σ
  log : List GuardEvent := []

structure ProcessGuard where
  m_blocklist : ProcessBlocklist := {}
  m_allowlist : List String := []
  m_monitoring : Bool := false

namespace ProcessGuard

def addToBlocklist (g : ProcessGuard) (processName : String) : ProcessGuard :=
  { g with m_blocklist := g.m_blocklist.add processName }

def addToAllowlist (g : ProcessGuard) (processName : String) : ProcessGuard :=
  { g with m_allowlist := g.m_allowlist ++ [QString.toLower processName] }

def isBlocked {σ : Type} (sys : Posix σ) (pcre : QRegularExpression → String → Bool)
    (g : ProcessGuard) (proc : ProcessInfo) : Bool :=
  if proc.pid = sys.getpid then false
  else if g.m_allowlist.contains (QString.toLower proc.name) then false
  else g.m_blocklist.isBlocked pcre proc.name proc.cmdline proc.exe

def scanForBlockedProcesses {σ : Type} (sys : Posix σ)
    (pcre : QRegularExpression → String → Bool) (g : ProcessGuard) (os : σ) :
    List ProcessInfo :=
  (sys.enumerateProcesses os).filter (fun proc => g.isBlocked sys pcre proc)

/-- `::kill(pid, sig)`, logged. -/
def callKill {σ : Type} (sys : Posix σ) (w : World σ) (pid sig : Int) : Int × World σ :=
  let r := sys.kill w.os pid sig
  (r.1, { os := r.2, log := w.log ++ [GuardEvent.killCalled pid sig] })

def killProcess {σ : Type} (sys : Posix σ) (w : World σ) (pid : Int) : Bool × World σ :=
  if pid ≤ 0 then (false, w)
  else
    let r1 := callKill sys w pid SIGTERM
    if r1.1 = 0 then
      let w1 : World σ := { r1.2 with os := sys.usleep r1.2.os 500000 }
      let r2 := callKill sys w1 pid 0
      if r2.1 = 0 then
        let r3 := callKill sys r2.2 pid SIGKILL
        (true, r3.2)
      else (true, r2.2)
    else (false, r1.2)

/-- The body of the loop of `performScan`, for one process of the listing. -/
def performScanStep {σ : Type} (sys : Posix σ) (pcre : QRegularExpression → String → Bool)
    (g : ProcessGuard) (w : World σ) (proc : ProcessInfo) : World σ :=
  if g.isBlocked sys pcre proc then
    let w1 : World σ := { w with log := w.log ++ [GuardEvent.blockedProcessFound proc] }
    let r := killProcess sys w1 proc.pid
    if r.1 then { r.2 with log := r.2.log ++ [GuardEvent.blockedProcessKilled proc] }
    else r.2
  else w

def performScan {σ : Type} (sys : Posix σ) (pcre : QRegularExpression → String → Bool)
    (g : ProcessGuard) (w : World σ) : World σ :=
  (sys.enumerateProcesses w.os).foldl (performScanStep sys pcre g) w

end ProcessGuard

/-! ## More of QString, QTextStream and QProcess -/

/-- `QChar::isSpace`: tab, line feed, vertical tab, form feed, carriage return, the
space and the other Unicode separators. -/
def QChar.isSpace (c : Char) : Bool :=
  let v := c.toNat
  (9 ≤ v && v ≤ 13) || v = 32 || v = 0x85 || v = 0xA0 || v = 0x1680 ||
  (0x2000 ≤ v && v ≤ 0x200A) || v = 0x2028 || v = 0x2029 || v = 0x202F ||
  v = 0x205F || v = 0x3000

/-- `QString::trimmed` (on ASCII text also `QByteArray::trimmed`): without the white
space at both ends. -/
def QString.trimmed (s : String) : String :=
  ⟨((s.data.dropWhile QChar.isSpace).reverse.dropWhile QChar.isSpace).reverse⟩

/-- `QString::startsWith`. -/
def QString.startsWith (s start : String) : Bool := start.data.isPrefixOf s.data

/-- `QString::left(n)`. -/
def QString.left (s : String) (n : Nat) : String := ⟨s.data.take n⟩

/-- The lines of a text as `QTextStream::readLine` hands them out: cut at line
feeds, without a carriage return before the line feed.  `current` holds the line
being read, last character first. -/
def QTextStream.linesFrom : List Char → List Char → List String
  | [], current => if current.isEmpty then [] else [⟨current.reverse⟩]
  | '\n' :: rest, current =>
      (match current with
        | '\r' :: line => String.mk line.reverse
        | line => String.mk line.reverse) :: QTextStream.linesFrom rest []
  | c :: rest, current => QTextStream.linesFrom rest (c :: current)

def QTextStream.lines (content : String) : List String :=
  QTextStream.linesFrom content.data []

/-- `QTextStream(&file).readLine()` on a freshly opened file: the first line, empty
when the file is empty. -/
def QTextStream.readLine (content : String) : String :=
  (QTextStream.lines content).headD ""

/-- What a `QProcess` has to show after `start` and `waitForFinished(timeout)`.
The process did not start (`exitCode` is what `exitCode()` then holds, which depends
on the Qt version), or it is still running when the wait ends, or it has finished. -/
inductive QProcessRun where
  | failedToStart (exitCode : Int)
  | timedOut (standardOutput : String)
  | finished (exitCode : Int) (standardOutput : String)
  deriving DecidableEq, Repr

namespace QProcessRun

/-- `QProcess::exitCode()`: the exit code of the last process that finished; `start`
sets it to 0, and there it stays while the process runs. -/
def exitCode : QProcessRun → Int
  | failedToStart code => code
  | timedOut _ => 0
  | finished code _ => code

/-- `QProcess::readAllStandardOutput()`. -/
def readAllStandardOutput : QProcessRun → String
  | failedToStart _ => ""
  | timedOut output => output
  | finished _ output => output

end QProcessRun

/-! ## integrity/VMDetector -/

structure VMDetectionResult where
  detected : Bool := false
  hypervisorName : String := ""
  confidenceScore : Int := 0
  deriving DecidableEq, Repr

/-- The surfaces of the operating system and the hardware that the seven probes
read.  `readFile path` is the content of the file, `none` when it cannot be opened;
`cpuid leaf` is the four registers `eax, ebx, ecx, edx`, `none` when `__get_cpuid`
returns 0; `x86_64` tells whether the build is for that architecture. -/
structure VMSurface where
  systemdDetectVirt : QProcessRun
  x86_64 : Bool
  cpuid : Nat → Option (Nat × Nat × Nat × Nat)
  readFile : String → Option String
  hardwareAddresses : List String

namespace VMDetector

def checkSystemdDetectVirt (s : VMSurface) (result : VMDetectionResult) :
    Bool × VMDetectionResult :=
  let proc := s.systemdDetectVirt
  let output := QString.trimmed proc.readAllStandardOutput
  if proc.exitCode = 0 ∧ output ≠ "none" then
    (true, { result with hypervisorName := output })
  else (false, result)

/-- The four octets of a 32-bit register as `memcpy` lays them out on x86. -/
def registerOctets (r : Nat) : List Nat :=
  [r % 256, r / 256 % 256, r / 65536 % 256, r / 16777216 % 256]

/-- `QString::fromLatin1(vendor)` for the 12 octets copied from `ebx`, `ecx`, `edx`:
the text up to the first zero octet. -/
def vendorString (ebx ecx edx : Nat) : String :=
  ⟨((registerOctets ebx ++ registerOctets ecx ++ registerOctets edx).takeWhile
      (fun b => b ≠ 0)).map Char.ofNat⟩

def checkCPUID (s : VMSurface) (result : VMDetectionResult) : Bool × VMDetectionResult :=
  if s.x86_64 then
    match s.cpuid 1 with
    | some (_, _, ecx, _) =>
        if ecx / 2 ^ 31 % 2 = 1 then
          match s.cpuid 0x40000000 with
          | some (_, ebx, ecx, edx) =>
              let vendorStr := QString.trimmed (vendorString ebx ecx edx)
              if !QString.isEmpty vendorStr ∧ QString.isEmpty result.hypervisorName then
                (true, { result with hypervisorName := vendorStr })
              else (true, result)
          | none => (true, result)
        else (false, result)
    | none => (false, result)
  else (false, result)

def dmiFiles : List String :=
  ["/sys/class/dmi/id/product_name",
   "/sys/class/dmi/id/sys_vendor",
   "/sys/class/dmi/id/board_vendor",
   "/sys/class/dmi/id/bios_vendor",
   "/sys/class/dmi/id/chassis_vendor"]

def vmIndicators : List String :=
  ["VirtualBox", "VMware", "QEMU", "Xen", "KVM",
   "Hyper-V", "Parallels", "Virtual Machine",
   "innotek GmbH", "Red Hat", "Bochs"]

/-- The first indicator the text contains, letter case ignored. -/
def firstIndicatorIn (content : String) (indicators : List String) : Option String :=
  indicators.find? (fun indicator => QString.contains content indicator false)

/-- The loop of `checkDMI` over the files. -/
def checkDMIFiles (s : VMSurface) (result : VMDetectionResult) :
    List String → Bool × VMDetectionResult
  | [] => (false, result)
  | path :: rest =>
      match s.readFile path with
      | none => checkDMIFiles s result rest
      | some text =>
          match firstIndicatorIn (QString.trimmed (QTextStream.readLine text)) vmIndicators with
          | some indicator =>
              if QString.isEmpty result.hypervisorName then
                (true, { result with hypervisorName := indicator })
              else (true, result)
          | none => checkDMIFiles s result rest

def checkDMI (s : VMSurface) (result : VMDetectionResult) : Bool × VMDetectionResult :=
  checkDMIFiles s result dmiFiles

def checkScsiDevices (s : VMSurface) (result : VMDetectionResult) :
    Bool × VMDetectionResult :=
  match s.readFile "/proc/scsi/scsi" with
  | none => (false, result)
  | some content =>
      match firstIndicatorIn content ["VBOX", "VMware", "QEMU", "Virtual"] with
      | some indicator =>
          if QString.isEmpty result.hypervisorName then
            (true, { result with hypervisorName := indicator })
          else (true, result)
      | none => (false, result)

def vmOUIs : List String :=
  ["08:00:27", "00:0c:29", "00:50:56", "52:54:00", "00:16:3e", "00:15:5d", "00:1c:42"]

def ouiToName : List (String × String) :=
  QMap.ofEntries
    [("08:00:27", "VirtualBox"),
     ("00:0c:29", "VMware"),
     ("00:50:56", "VMware"),
     ("52:54:00", "QEMU/KVM"),
     ("00:16:3e", "Xen"),
     ("00:15:5d", "Hyper-V"),
     ("00:1c:42", "Parallels")]

/-- The loop of `checkMACAddress` over the interfaces. -/
def checkMACAddresses (result : VMDetectionResult) : List String → Bool × VMDetectionResult
  | [] => (false, result)
  | hardwareAddress :: rest =>
      let mac := QString.toLower hardwareAddress
      let oui := QString.left mac 8
      if vmOUIs.contains oui then
        if QString.isEmpty result.hypervisorName then
          (true, { result with hypervisorName := QMap.value ouiToName oui "Unknown VM" })
        else (true, result)
      else checkMACAddresses result rest

def checkMACAddress (s : VMSurface) (result : VMDetectionResult) :
    Bool × VMDetectionResult :=
  checkMACAddresses result s.hardwareAddresses

/-- The module table of `checkKernelModules`, a `QMap`: it is gone through in key
order. -/
def vmModules : List (String × String) :=
  QMap.ofEntries
    [("vboxguest", "VirtualBox"),
     ("vboxsf", "VirtualBox"),
     ("vboxvideo", "VirtualBox"),
     ("vmw_balloon", "VMware"),
     ("vmw_pvscsi", "VMware"),
     ("vmwgfx", "VMware"),
     ("vmw_vmci", "VMware"),
     ("virtio", "QEMU/KVM"),
     ("virtio_pci", "QEMU/KVM"),
     ("virtio_blk", "QEMU/KVM"),
     ("virtio_net", "QEMU/KVM"),
     ("xen_blkfront", "Xen"),
     ("xen_netfront", "Xen"),
     ("hv_vmbus", "Hyper-V"),
     ("hv_storvsc", "Hyper-V")]

def checkKernelModules (s : VMSurface) (result : VMDetectionResult) :
    Bool × VMDetectionResult :=
  match s.readFile "/proc/modules" with
  | none => (false, result)
  | some modules =>
      match vmModules.find? (fun entry => QString.contains modules entry.1 true) with
      | some entry =>
          if QString.isEmpty result.hypervisorName then
            (true, { result with hypervisorName := entry.2 })
          else (true, result)
      | none => (false, result)

def checkProcCpuinfo (s : VMSurface) (result : VMDetectionResult) :
    Bool × VMDetectionResult :=
  match s.readFile "/proc/cpuinfo" with
  | none => (false, result)
  | some content =>
      ((QTextStream.lines content).any (fun line =>
          QString.startsWith line "flags" && QString.contains line "hypervisor" true), result)

/-- One probe of `detect`: `checks++`, and `positives++` when the probe is positive. -/
def runProbe (probe : VMDetectionResult → Bool × VMDetectionResult)
    (acc : VMDetectionResult × Int × Int) : VMDetectionResult × Int × Int :=
  let r := probe acc.1
  (r.2, acc.2.1 + 1, if r.1 then acc.2.2 + 1 else acc.2.2)

def detect (s : VMSurface) : VMDetectionResult :=
  let acc0 : VMDetectionResult × Int × Int := ({}, 0, 0)
  let acc1 := runProbe (checkSystemdDetectVirt s) acc0
  let acc2 := runProbe (checkCPUID s) acc1
  let acc3 := runProbe (checkDMI s) acc2
  let acc4 := runProbe (checkScsiDevices s) acc3
  let acc5 := runProbe (checkMACAddress s) acc4
  let acc6 := runProbe (checkKernelModules s) acc5
  let acc7 := runProbe (checkProcCpuinfo s) acc6
  let result := acc7.1
  let checks := acc7.2.1
  let positives := acc7.2.2
  if positives > 0 then
    { result with detected := true, confidenceScore := (positives * 100) / checks }
  else result

end VMDetector

/-! ## integrity/SystemIntegrity -/

/-- The compile-time switches of the build that the modelled code tests with
`#ifdef`. -/
structure Build where
  OPENLOCK_VM_DETECTION : Bool
  OPENLOCK_HAS_X11 : Bool
  deriving DecidableEq, Repr

structure IntegrityReport where
  passed : Bool := false
  vmDetected : Bool := false
  vmType : String := ""
  debuggerDetected : Bool := false
  debuggerType : String := ""
  binaryTampered : Bool := false
  ldPreloadDetected : Bool := false
  injectedLibraries : List String := []
  warnings : List String := []
  deriving DecidableEq, Repr

/-- What `performFullCheck` gets from outside: the surfaces the VM probes read, the
answers of `DebugDetector::isBeingDebugged`, `DebugDetector::debuggerName`,
`SelfVerifier::verifyIntegrity` and `SelfVerifier::detectInjectedLibraries`, and the
value of the environment variable `LD_PRELOAD` (`none` when it is not set). -/
structure IntegritySurface where
  vm : VMSurface
  isBeingDebugged : Bool
  debuggerName : String
  verifyIntegrity : Bool
  detectInjectedLibraries : List String
  LD_PRELOAD : Option String

structure SystemIntegrity where
  m_vmDetectionEnabled : Bool := true
  m_debugDetectionEnabled : Bool := true
  deriving DecidableEq, Repr

namespace SystemIntegrity

def checkLdPreload (s : IntegritySurface) : Bool :=
  match s.LD_PRELOAD with
  | some preload => !QString.isEmpty preload
  | none => false

def performFullCheck (build : Build) (si : SystemIntegrity) (s : IntegritySurface) :
    IntegrityReport :=
  let report0 : IntegrityReport := { passed := true }
  let report1 :=
    if build.OPENLOCK_VM_DETECTION ∧ si.m_vmDetectionEnabled then
      let vmResult := VMDetector.detect s.vm
      if vmResult.detected then
        { report0 with vmDetected := true, vmType := vmResult.hypervisorName, passed := false }
      else report0
    else report0
  let report2 :=
    if si.m_debugDetectionEnabled then
      if s.isBeingDebugged then
        { report1 with debuggerDetected := true, debuggerType := s.debuggerName, passed := false }
      else report1
    else report1
  let report3 :=
    if !s.verifyIntegrity then { report2 with binaryTampered := true, passed := false }
    else report2
  let report4 :=
    if checkLdPreload s then { report3 with ldPreloadDetected := true, passed := false }
    else report3
  let report5 := { report4 with injectedLibraries := s.detectInjectedLibraries }
  if !report5.injectedLibraries.isEmpty then
    { report5 with warnings := report5.warnings ++ ["Suspicious shared libraries detected"] }
  else report5

def setVMDetectionEnabled (si : SystemIntegrity) (enabled : Bool) : SystemIntegrity :=
  { si with m_vmDetectionEnabled := enabled }

def setDebugDetectionEnabled (si : SystemIntegrity) (enabled : Bool) : SystemIntegrity :=
  { si with m_debugDetectionEnabled := enabled }

end SystemIntegrity

/-! ## input/ShortcutBlocker, and the other guards of input/InputLockdown -/

/-- The values of `Qt::Key` and `Qt::KeyboardModifier` that `eventFilter` names. -/
def Qt.Key_Tab : Int := 0x01000001
def Qt.Key_Backspace : Int := 0x01000003
def Qt.Key_Delete : Int := 0x01000007
def Qt.Key_Print : Int := 0x01000009
def Qt.Key_SysReq : Int := 0x0100000a
def Qt.Key_Meta : Int := 0x01000022
def Qt.Key_F1 : Int := 0x01000030
def Qt.Key_F4 : Int := 0x01000033
def Qt.Key_F12 : Int := 0x0100003b
def Qt.Key_Super_L : Int := 0x01000053
def Qt.Key_Super_R : Int := 0x01000054
def Qt.Key_I : Int := 0x49
def Qt.Key_J : Int := 0x4a
def Qt.Key_N : Int := 0x4e
def Qt.Key_P : Int := 0x50
def Qt.Key_S : Int := 0x53
def Qt.Key_T : Int := 0x54
def Qt.Key_U : Int := 0x55
def Qt.Key_W : Int := 0x57
def Qt.ShiftModifier : Nat := 0x02000000
def Qt.ControlModifier : Nat := 0x04000000
def Qt.AltModifier : Nat := 0x08000000

inductive QEventType where
  | KeyPress
  | KeyRelease
  | ShortcutOverride
  | Other
  deriving DecidableEq, Repr

/-- An event as `eventFilter` reads it; `modifiers` and `key` are those of a key
event. -/
structure QEvent where
  type : QEventType
  modifiers : Nat := 0
  key : Int := 0
  deriving DecidableEq, Repr

/-- `mods & modifier`, as a condition. -/
def Qt.testModifier (mods modifier : Nat) : Bool := mods &&& modifier != 0

structure ShortcutBlocker where
  m_active : Bool := false
  deriving DecidableEq, Repr

namespace ShortcutBlocker

def engage (b : ShortcutBlocker) : Bool × ShortcutBlocker := (true, { b with m_active := true })

def release (b : ShortcutBlocker) : Bool × ShortcutBlocker := (true, { b with m_active := false })

/-- `ShortcutBlocker::eventFilter`: whether the event is filtered out, and the names
emitted with the signal `blocked`.  The base `QObject::eventFilter`, called at the
end, returns false. -/
def eventFilter (b : ShortcutBlocker) (event : QEvent) : Bool × List String :=
  if !b.m_active then (false, [])
  else if event.type = QEventType.KeyPress ∨ event.type = QEventType.ShortcutOverride then
    let mods := event.modifiers
    let key := event.key
    if Qt.testModifier mods Qt.AltModifier ∧ key = Qt.Key_Tab then (true, ["Alt+Tab"])
    else if Qt.testModifier mods Qt.AltModifier ∧ key = Qt.Key_F4 then (true, ["Alt+F4"])
    else if key = Qt.Key_Super_L ∨ key = Qt.Key_Super_R ∨ key = Qt.Key_Meta then
      (true, ["Super"])
    else if key = Qt.Key_Print ∨ key = Qt.Key_SysReq then (true, ["PrintScreen"])
    else if Qt.testModifier mods Qt.ControlModifier ∧ Qt.testModifier mods Qt.AltModifier ∧
        key = Qt.Key_Delete then (true, ["Ctrl+Alt+Delete"])
    else if Qt.testModifier mods Qt.ControlModifier ∧ Qt.testModifier mods Qt.AltModifier ∧
        key ≥ Qt.Key_F1 ∧ key ≤ Qt.Key_F12 then
      (true, ["Ctrl+Alt+F" ++ QString.number (key - Qt.Key_F1 + 1)])
    else if Qt.testModifier mods Qt.ControlModifier ∧ Qt.testModifier mods Qt.AltModifier ∧
        key = Qt.Key_Backspace then (true, ["Ctrl+Alt+Backspace"])
    else if Qt.testModifier mods Qt.ControlModifier ∧ Qt.testModifier mods Qt.ShiftModifier ∧
        key = Qt.Key_I then (true, ["Ctrl+Shift+I"])
    else if key = Qt.Key_F12 then (true, ["F12"])
    else if Qt.testModifier mods Qt.ControlModifier ∧ key = Qt.Key_U then (true, ["Ctrl+U"])
    else if Qt.testModifier mods Qt.ControlModifier ∧ key = Qt.Key_S then (true, ["Ctrl+S"])
    else if Qt.testModifier mods Qt.ControlModifier ∧ key = Qt.Key_P then (true, ["Ctrl+P"])
    else if Qt.testModifier mods Qt.ControlModifier ∧ Qt.testModifier mods Qt.ShiftModifier ∧
        key = Qt.Key_J then (true, ["Ctrl+Shift+J"])
    else if Qt.testModifier mods Qt.ControlModifier ∧ key = Qt.Key_W then (true, ["Ctrl+W"])
    else if Qt.testModifier mods Qt.ControlModifier ∧ key = Qt.Key_N then (true, ["Ctrl+N"])
    else if Qt.testModifier mods Qt.ControlModifier ∧ key = Qt.Key_T then (true, ["Ctrl+T"])
    else (false, [])
  else (false, [])

/-- The shortcuts the specification lists for suppression, written from its list:
Alt+Tab, Alt+F4, Super, PrintScreen, Ctrl+Alt+Delete, Ctrl+Alt+F1 to F12,
Ctrl+Alt+Backspace, F12, Ctrl+Shift+I, Ctrl+Shift+J, Ctrl+U, Ctrl+S, Ctrl+P, Ctrl+W,
Ctrl+N and Ctrl+T.  A shortcut with a modifier is any key event with that key and
at least that modifier. -/
def isListedShortcut (mods : Nat) (key : Int) : Bool :=
  let alt := Qt.testModifier mods Qt.AltModifier
  let ctrl := Qt.testModifier mods Qt.ControlModifier
  let shift := Qt.testModifier mods Qt.ShiftModifier
  (alt && key == Qt.Key_Tab) || (alt && key == Qt.Key_F4) ||
  key == Qt.Key_Super_L || key == Qt.Key_Super_R || key == Qt.Key_Print ||
  (ctrl && alt && key == Qt.Key_Delete) ||
  (ctrl && alt && decide (Qt.Key_F1 ≤ key) && decide (key ≤ Qt.Key_F12)) ||
  (ctrl && alt && key == Qt.Key_Backspace) ||
  key == Qt.Key_F12 ||
  (ctrl && shift && key == Qt.Key_I) || (ctrl && shift && key == Qt.Key_J) ||
  (ctrl && key == Qt.Key_U) || (ctrl && key == Qt.Key_S) || (ctrl && key == Qt.Key_P) ||
  (ctrl && key == Qt.Key_W) || (ctrl && key == Qt.Key_N) || (ctrl && key == Qt.Key_T)

end ShortcutBlocker

structure ClipboardGuard where
  m_active : Bool := false
  deriving DecidableEq, Repr

def ClipboardGuard.engage (c : ClipboardGuard) : Bool × ClipboardGuard :=
  (true, { c with m_active := true })

def ClipboardGuard.release (c : ClipboardGuard) : Bool × ClipboardGuard :=
  (true, { c with m_active := false })

structure PrintBlocker where
  m_active : Bool := false
  m_cupsWasStopped : Bool := false
  deriving DecidableEq, Repr

/-- `PrintBlocker::engage`; `cupsStop` is the run of `systemctl stop cups.service`. -/
def PrintBlocker.engage (b : PrintBlocker) (cupsStop : QProcessRun) : Bool × PrintBlocker :=
  if cupsStop.exitCode = 0 then (true, { b with m_cupsWasStopped := true, m_active := true })
  else (true, { b with m_active := true })

def PrintBlocker.release (b : PrintBlocker) : Bool × PrintBlocker :=
  if b.m_cupsWasStopped then (true, { b with m_cupsWasStopped := false, m_active := false })
  else (true, { b with m_active := false })

structure InputLockdown where
  m_clipboardGuard : ClipboardGuard := {}
  m_shortcutBlocker : ShortcutBlocker := {}
  m_printBlocker : PrintBlocker := {}
  m_engaged : Bool := false
  deriving DecidableEq, Repr

namespace InputLockdown

/-- `InputLockdown::grabKeyboard`; `xOpenDisplay` tells whether `XOpenDisplay` gives a
display and `xGrabKeyboard` is the result of `XGrabKeyboard` (`GrabSuccess` is 0). -/
def grabKeyboard (build : Build) (xOpenDisplay : Bool) (xGrabKeyboard : Int) : Bool :=
  if build.OPENLOCK_HAS_X11 then
    if !xOpenDisplay then false
    else if xGrabKeyboard ≠ 0 then false
    else true
  else true

def engage (i : InputLockdown) (build : Build) (xOpenDisplay : Bool) (xGrabKeyboard : Int)
    (cupsStop : QProcessRun) : Bool × InputLockdown :=
  let success := grabKeyboard build xOpenDisplay xGrabKeyboard
  (success,
    { m_clipboardGuard := i.m_clipboardGuard.engage.2
      m_shortcutBlocker := i.m_shortcutBlocker.engage.2
      m_printBlocker := (i.m_printBlocker.engage cupsStop).2
      m_engaged := true })

def release (i : InputLockdown) : Bool × InputLockdown :=
  (true,
    { m_clipboardGuard := i.m_clipboardGuard.release.2
      m_shortcutBlocker := i.m_shortcutBlocker.release.2
      m_printBlocker := i.m_printBlocker.release.2
      m_engaged := false })

end InputLockdown

/-! ## kiosk/KioskShell -/

inductive DisplayServer where
  | X11
  | Wayland
  | Unknown
  deriving DecidableEq, Repr

/-- A `KioskShell`; `m_platformKiosk` tells whether the platform kiosk object has
been created. -/
structure KioskShell where
  m_platformKiosk : Bool := false
  m_displayServer : DisplayServer := DisplayServer.Unknown
  m_engaged : Bool := false
  deriving DecidableEq, Repr

namespace KioskShell

/-- `KioskShell::initialize` (the name is reserved in Lean, hence `init`);
`detected` is the result of `detectDisplayServer`.  Both factory functions return a
new object. -/
def init (k : KioskShell) (detected : DisplayServer) : Bool × KioskShell :=
  (true, { k with m_displayServer := detected, m_platformKiosk := true })

/-- `KioskShell::engage`; `platformEngage` is the result of the platform kiosk's
`engage`. -/
def engage (k : KioskShell) (platformEngage : Bool) : Bool × KioskShell :=
  if !k.m_platformKiosk then (false, k)
  else if platformEngage then (true, { k with m_engaged := true })
  else (false, k)

/-- `KioskShell::release`; `platformRelease` is the result of the platform kiosk's
`release`. -/
def release (k : KioskShell) (platformRelease : Bool) : Bool × KioskShell :=
  if !k.m_platformKiosk ∨ !k.m_engaged then (true, k)
  else (platformRelease, { k with m_engaged := false })

end KioskShell

/-! ## guard/ProcessBlocklist: the built-in names and the blocklist file -/

namespace ProcessBlocklist

/-- `m_blockedNames.insert(name)`: the name goes into the set as it is given. -/
def insertBlockedName (b : ProcessBlocklist) (name : String) : ProcessBlocklist :=
  if b.m_blockedNames.contains name then b
  else { b with m_blockedNames := b.m_blockedNames ++ [name] }

def defaultScreenCapture : List String :=
  ["obs", "obs-studio", "ffmpeg", "recordmydesktop", "simplescreenrecorder", "kazam", "peek",
   "wf-recorder", "vokoscreen", "screenstudio"]

def defaultScreenSharing : List String :=
  ["zoom", "teams", "discord", "slack", "skype", "anydesk", "teamviewer", "rustdesk"]

def defaultMessaging : List String :=
  ["telegram-desktop", "signal-desktop", "pidgin", "thunderbird", "evolution", "whatsapp"]

def defaultVirtualMachines : List String :=
  ["virtualbox", "VBoxManage", "vmware", "vmplayer", "qemu", "qemu-system-x86_64",
   "virt-manager", "gnome-boxes"]

def defaultRemoteDesktop : List String :=
  ["xrdp", "vino", "remmina", "x11vnc", "tigervnc", "vinagre", "krdc", "freerdp"]

def defaultTerminals : List String :=
  ["gnome-terminal", "konsole", "xterm", "alacritty", "kitty", "tmux", "screen", "terminator",
   "tilix", "guake", "yakuake", "urxvt", "rxvt", "st", "xfce4-terminal", "lxterminal",
   "mate-terminal", "foot", "wezterm"]

def defaultBrowsers : List String :=
  ["firefox", "chromium", "chromium-browser", "brave", "brave-browser", "vivaldi", "opera",
   "epiphany", "midori", "falkon", "google-chrome", "microsoft-edge"]

def defaultAutomation : List String :=
  ["xdotool", "xautomation", "ydotool", "wtype", "xte", "xclip", "xsel", "wl-copy", "wl-paste"]

/-- The names `loadDefaults` inserts, in the order of its eight loops. -/
def defaultNames : List String :=
  defaultScreenCapture ++ defaultScreenSharing ++ defaultMessaging ++ defaultVirtualMachines ++
  defaultRemoteDesktop ++ defaultTerminals ++ defaultBrowsers ++ defaultAutomation

def loadDefaults (b : ProcessBlocklist) : ProcessBlocklist :=
  defaultNames.foldl insertBlockedName b

/-- The arrays of a blocklist document that `loadFromFile` reads, each as the list of
its entries turned to strings. -/
structure BlocklistDocument where
  screen_capture : List String := []
  screen_sharing : List String := []
  messaging : List String := []
  virtual_machines : List String := []
  remote_desktop : List String := []
  terminals : List String := []
  browsers : List String := []
  automation : List String := []
  patterns : List String := []
  deriving DecidableEq, Repr

/-- What opening and parsing the blocklist file gives. -/
inductive BlocklistRead where
  | cannotOpen
  | parseError
  | document (root : BlocklistDocument)
  deriving DecidableEq, Repr

def loadCategory (b : ProcessBlocklist) (entries : List String) : ProcessBlocklist :=
  entries.foldl (fun acc v => insertBlockedName acc (QString.toLower v)) b

def loadFromFile (b : ProcessBlocklist) (file : BlocklistRead) : Bool × ProcessBlocklist :=
  match file with
  | BlocklistRead.cannotOpen => (true, loadDefaults b)
  | BlocklistRead.parseError => (true, loadDefaults b)
  | BlocklistRead.document root =>
    let b1 := loadCategory b root.screen_capture
    let b2 := loadCategory b1 root.screen_sharing
    let b3 := loadCategory b2 root.messaging
    let b4 := loadCategory b3 root.virtual_machines
    let b5 := loadCategory b4 root.remote_desktop
    let b6 := loadCategory b5 root.terminals
    let b7 := loadCategory b6 root.browsers
    let b8 := loadCategory b7 root.automation
    (true, { b8 with m_patterns := b8.m_patterns ++
      root.patterns.map (fun v => { pattern := v, caseInsensitive := true }) })

end ProcessBlocklist

namespace ProcessGuard

/-- `ProcessGuard::initialize` (the name is reserved in Lean, hence `init`). -/
def init (g : ProcessGuard) (file : ProcessBlocklist.BlocklistRead) : Bool × ProcessGuard :=
  let r := g.m_blocklist.loadFromFile file
  (r.1, { g with m_blocklist := r.2 })

def startMonitoring (g : ProcessGuard) : Bool × ProcessGuard :=
  if g.m_monitoring then (true, g)
  else (true, { g with m_monitoring := true })

def stopMonitoring (g : ProcessGuard) : ProcessGuard :=
  if !g.m_monitoring then g
  else { g with m_monitoring := false }

end ProcessGuard

/-! ## core/Config and core/LockdownEngine -/

inductive ConfigFormat where
  | OpenLock
  | SEB
  deriving DecidableEq, Repr

structure ExamConfig where
  examName : String := ""
  startUrl : QUrl := {}
  exitPassword : String := ""
  allowQuit : Bool := false
  allowedUrlPatterns : List String := []
  blockedUrlPatterns : List String := []
  allowNavigation : Bool := true
  allowReload : Bool := true
  allowBackForward : Bool := false
  userAgent : String := ""
  enableJavaScript : Bool := true
  enablePlugins : Bool := false
  allowDownloads : Bool := false
  allowPrint : Bool := false
  allowClipboard : Bool := false
  showToolbar : Bool := true
  detectVM : Bool := true
  detectDebugger : Bool := true
  allowScreenCapture : Bool := false
  processBlocklist : List String := []
  additionalAllowedProcesses : List String := []
  sebMode : Bool := false
  sebConfigData : QByteArray := []
  sebConfigPassword : String := ""
  fullscreen : Bool := true
  multiMonitorLockdown : Bool := true
  blockTaskSwitching : Bool := true
  ssoAllowedDomains : List String := []
  allowWebRTC : Bool := false
  deriving DecidableEq, Repr

structure Config where
  m_format : ConfigFormat := ConfigFormat.OpenLock
  m_examConfig : ExamConfig := {}
  m_rawData : QByteArray := []
  deriving DecidableEq, Repr

inductive LockdownState where
  | Idle
  | Initializing
  | PreCheck
  | Locked
  | ExamActive
  | ShuttingDown
  | Error
  deriving DecidableEq, Repr

/-- The three sub-components the engine engages and releases. -/
inductive Component where
  | kiosk
  | processGuard
  | inputLockdown
  deriving DecidableEq, Repr

/-- What the engine does that can be observed: the signals it emits, and its calls
of the sub-components (`engageCalled` for `m_kiosk->engage()`,
`m_processGuard->startMonitoring()` and `m_inputLockdown->engage()`, `releaseCalled`
for `m_processGuard->stopMonitoring()`, `m_inputLockdown->release()` and
`m_kiosk->release()`). -/
inductive EngineEvent where
  | stateChanged (newState : LockdownState)
  | lockdownEngaged
  | lockdownReleased
  | errorOccurred (message : String)
  | blockedProcessDetected (processName : String) (pid : Int)
  | engageCalled (component : Component)
  | releaseCalled (component : Component)
  deriving DecidableEq, Repr

/-- What the engine gets from the machine it runs on, apart from the process table
(which is `Posix`): the build switches, the integrity surfaces, the results of
`Config::loadFromFile`, `SecureBrowser::initialize` and `SEBProtocol::initialize`,
the display server, the application directory and the files under it, and the
results of the calls the kiosk and the input lockdown make. -/
structure Platform where
  build : Build
  integrity : IntegritySurface
  configLoadFromFile : String → Config → Bool × Config
  browserInit : Bool
  sebProtocolInit : Bool
  detectDisplayServer : DisplayServer
  applicationDirPath : String
  fileExists : String → Bool
  readBlocklist : String → ProcessBlocklist.BlocklistRead
  platformKioskEngage : Bool
  platformKioskRelease : Bool
  xOpenDisplay : Bool
  xGrabKeyboard : Int
  cupsStop : QProcessRun

structure LockdownEngine where
  m_state : LockdownState := LockdownState.Idle
  m_config : Config := {}
  m_kiosk : KioskShell := {}
  m_processGuard : ProcessGuard := {}
  m_inputLockdown : InputLockdown := {}
  m_integrity : SystemIntegrity := {}
  trace : List EngineEvent := []

namespace LockdownEngine

/-- Appends one observation to the trace (`emit`, or a call of a sub-component). -/
def record (e : LockdownEngine) (ev : EngineEvent) : LockdownEngine :=
  { e with trace := e.trace ++ [ev] }

/-- `LockdownEngine::initialize` (the name is reserved in Lean, hence `init`).  The
request interceptor it installs belongs to the browser and is not part of the engine
state kept here. -/
def init (e : LockdownEngine) (p : Platform) (configPath : String) : Bool × LockdownEngine :=
  let e1 := ({ e with m_state := LockdownState.Initializing }).record
    (EngineEvent.stateChanged LockdownState.Initializing)
  let loaded := if !QString.isEmpty configPath then p.configLoadFromFile configPath e1.m_config
    else (true, e1.m_config)
  let e2 := { e1 with m_config := loaded.2 }
  if !loaded.1 then
    (false, ({ e2 with m_state := LockdownState.Error }).record
      (EngineEvent.errorOccurred ("Failed to load config: " ++ configPath)))
  else if !p.browserInit then
    (false, ({ e2 with m_state := LockdownState.Error }).record
      (EngineEvent.errorOccurred "Failed to initialize browser"))
  else if e2.m_config.m_examConfig.sebMode ∧ !p.sebProtocolInit then
    (false, ({ e2 with m_state := LockdownState.Error }).record
      (EngineEvent.errorOccurred "Failed to initialize SEB protocol"))
  else
    let kiosk := (e2.m_kiosk.init p.detectDisplayServer).2
    let blocklistPath :=
      if p.fileExists (p.applicationDirPath ++ "/share/openlock/blocklist.json") then
        p.applicationDirPath ++ "/share/openlock/blocklist.json"
      else p.applicationDirPath ++ "/../share/openlock/blocklist.json"
    let guard := (e2.m_processGuard.init (p.readBlocklist blocklistPath)).2
    (true, ({ e2 with m_kiosk := kiosk, m_processGuard := guard,
                      m_state := LockdownState.Idle }).record
      (EngineEvent.stateChanged LockdownState.Idle))

def checkSystemIntegrity (e : LockdownEngine) (p : Platform) : Bool × LockdownEngine :=
  let report := e.m_integrity.performFullCheck p.build p.integrity
  if !report.passed then
    let e1 := if report.vmDetected then
        e.record (EngineEvent.errorOccurred ("Virtual machine detected: " ++ report.vmType ++
          ". Exams cannot be taken in a virtual machine."))
      else e
    let e2 := if report.debuggerDetected then
        e1.record (EngineEvent.errorOccurred ("Debugger detected: " ++ report.debuggerType ++
          ". Please detach all debuggers."))
      else e1
    let e3 := if report.binaryTampered then
        e2.record (EngineEvent.errorOccurred
          "Binary integrity check failed. The application may have been modified.")
      else e2
    let e4 := if report.ldPreloadDetected then
        e3.record (EngineEvent.errorOccurred
          "LD_PRELOAD detected. Library injection is not allowed.")
      else e3
    (false, e4)
  else (true, e)

def performPreChecks {σ : Type} (e : LockdownEngine) (sys : Posix σ)
    (pcre : QRegularExpression → String → Bool) (p : Platform) (os : σ) :
    Bool × LockdownEngine :=
  let checked := e.checkSystemIntegrity p
  if !checked.1 then (false, checked.2)
  else
    let blocked := checked.2.m_processGuard.scanForBlockedProcesses sys pcre os
    if !blocked.isEmpty then
      let e1 := blocked.foldl
        (fun acc proc => acc.record (EngineEvent.blockedProcessDetected proc.name proc.pid))
        checked.2
      (false, e1.record (EngineEvent.errorOccurred ("Found " ++ QString.number blocked.length ++
        " blocked process(es). Please close them before starting the exam.")))
    else (true, checked.2)

def startKiosk (e : LockdownEngine) (p : Platform) : Bool × LockdownEngine :=
  let r := e.m_kiosk.engage p.platformKioskEngage
  (r.1, { e.record (EngineEvent.engageCalled Component.kiosk) with m_kiosk := r.2 })

def startProcessGuard (e : LockdownEngine) : Bool × LockdownEngine :=
  let r := e.m_processGuard.startMonitoring
  (r.1, { e.record (EngineEvent.engageCalled Component.processGuard) with m_processGuard := r.2 })

def startInputLockdown (e : LockdownEngine) (p : Platform) : Bool × LockdownEngine :=
  let r := e.m_inputLockdown.engage p.build p.xOpenDisplay p.xGrabKeyboard p.cupsStop
  (r.1, { e.record (EngineEvent.engageCalled Component.inputLockdown) with
          m_inputLockdown := r.2 })

def engageLockdown {σ : Type} (e : LockdownEngine) (sys : Posix σ)
    (pcre : QRegularExpression → String → Bool) (p : Platform) (os : σ) :
    Bool × LockdownEngine :=
  let e1 := ({ e with m_state := LockdownState.PreCheck }).record
    (EngineEvent.stateChanged LockdownState.PreCheck)
  let pre := e1.performPreChecks sys pcre p os
  if !pre.1 then
    (false, ({ pre.2 with m_state := LockdownState.Error }).record
      (EngineEvent.errorOccurred "Pre-checks failed"))
  else
    let e2 := (pre.2.startKiosk p).2
    let e3 := e2.startProcessGuard.2
    let e4 := (e3.startInputLockdown p).2
    (true, (({ e4 with m_state := LockdownState.Locked }).record
      (EngineEvent.stateChanged LockdownState.Locked)).record EngineEvent.lockdownEngaged)

def releaseLockdown (e : LockdownEngine) (p : Platform) (exitPassword : String) :
    Bool × LockdownEngine :=
  let examConfig := e.m_config.m_examConfig
  if !QString.isEmpty examConfig.exitPassword ∧ exitPassword ≠ examConfig.exitPassword then
    (false, e.record (EngineEvent.errorOccurred "Incorrect exit password"))
  else
    let e1 := ({ e with m_state := LockdownState.ShuttingDown }).record
      (EngineEvent.stateChanged LockdownState.ShuttingDown)
    let e2 := { e1.record (EngineEvent.releaseCalled Component.processGuard) with
                m_processGuard := e1.m_processGuard.stopMonitoring }
    let e3 := { e2.record (EngineEvent.releaseCalled Component.inputLockdown) with
                m_inputLockdown := e2.m_inputLockdown.release.2 }
    let e4 := { e3.record (EngineEvent.releaseCalled Component.kiosk) with
                m_kiosk := (e3.m_kiosk.release p.platformKioskRelease).2 }
    (true, (({ e4 with m_state := LockdownState.Idle }).record
      (EngineEvent.stateChanged LockdownState.Idle)).record EngineEvent.lockdownReleased)

/-- The destructor: `~LockdownEngine`. -/
def destroy (e : LockdownEngine) (p : Platform) : LockdownEngine :=
  if e.m_state = LockdownState.Locked ∨ e.m_state = LockdownState.ExamActive then
    (e.releaseLockdown p "").2
  else e

end LockdownEngine

/-! ## main -/

/-- The command line as `QCommandLineParser` hands it to `main`. -/
structure CommandLine where
  config : String := ""
  url : Option String := none
  noLockdown : Bool := false
  noVmCheck : Bool := false
  positionalArguments : List String := []
  deriving DecidableEq, Repr

/-- The function `main` of the program, as far as the engine is concerned: the exit
code, and the engine as it is destroyed at the end.  `execResult` is what
`app.exec()` returns.  The start URL only goes to the browser, and `--no-vm-check`
only writes a warning to the log; neither reaches the engine. -/
def main {σ : Type} (sys : Posix σ) (pcre : QRegularExpression → String → Bool)
    (p : Platform) (os : σ) (cmd : CommandLine) (execResult : Int) : Int × LockdownEngine :=
  let engine : LockdownEngine := {}
  let configPath := cmd.config
  let started := if !QString.isEmpty configPath then engine.init p configPath
    else engine.init p ""
  if !started.1 then (1, started.2.destroy p)
  else
    let devMode := cmd.noLockdown
    if !devMode then
      let engaged := started.2.engageLockdown sys pcre p os
      if !engaged.1 then (1, engaged.2.destroy p)
      else
        let released := engaged.2.releaseLockdown p ""
        (execResult, released.2.destroy p)
    else (execResult, started.2.destroy p)

/-! ## Reading the trace of the engine -/

/-- The messages of the `errorOccurred` signals in a trace, in order. -/
def EngineEvent.errorMessages (trace : List EngineEvent) : List String :=
  trace.filterMap (fun ev => match ev with
    | EngineEvent.errorOccurred message => some message
    | _ => none)

/-- The states announced with `stateChanged` in a trace, in order. -/
def EngineEvent.stateChanges (trace : List EngineEvent) : List LockdownState :=
  trace.filterMap (fun ev => match ev with
    | EngineEvent.stateChanged newState => some newState
    | _ => none)

/-- The sub-components whose engage step was called in a trace, in order. -/
def EngineEvent.engagedComponents (trace : List EngineEvent) : List Component :=
  trace.filterMap (fun ev => match ev with
    | EngineEvent.engageCalled component => some component
    | _ => none)

/-- The sub-components whose release step was called in a trace, in order. -/
def EngineEvent.releasedComponents (trace : List EngineEvent) : List Component :=
  trace.filterMap (fun ev => match ev with
    | EngineEvent.releaseCalled component => some component
    | _ => none)

/-- One call of the public interface of the engine. -/
inductive EngineCall where
  | init (configPath : String)
  | engageLockdown
  | releaseLockdown (exitPassword : String)
  deriving DecidableEq, Repr

namespace LockdownEngine

/-- Runs one call of the public interface on the platform and system state given
with it. -/
def call {σ : Type} (sys : Posix σ) (pcre : QRegularExpression → String → Bool)
    (e : LockdownEngine) (c : EngineCall × Platform × σ) : Bool × LockdownEngine :=
  match c.1 with
  | EngineCall.init configPath => e.init c.2.1 configPath
  | EngineCall.engageLockdown => e.engageLockdown sys pcre c.2.1 c.2.2
  | EngineCall.releaseLockdown exitPassword => e.releaseLockdown c.2.1 exitPassword

/-- Runs a sequence of calls, one after the other; the results of the calls, and the
engine after the last one. -/
def callAll {σ : Type} (sys : Posix σ) (pcre : QRegularExpression → String → Bool)
    (e : LockdownEngine) : List (EngineCall × Platform × σ) → List Bool × LockdownEngine
  | [] => ([], e)
  | c :: rest =>
    let r := e.call sys pcre c
    let tail := callAll sys pcre r.2 rest
    (r.1 :: tail.1, tail.2)

end LockdownEngine

/-! ## More of Qt: octet strings, zlib, the XML and JSON readers -/

/-- The octets of a string literal of the source (Latin-1), as a `QByteArray` is
compared with it. -/
def QByteArray.fromLatin1 (s : String) : QByteArray := s.data.map Char.toNat

/-- `QString::endsWith(suffix, cs)`: the last characters of `s`, as many as `suffix`
has, are compared with `suffix`, letter case folded when `caseSensitive = false`
(`Qt::CaseInsensitive`). -/
def QString.endsWith (s suffix : String) (caseSensitive : Bool) : Bool :=
  if s.data.length < suffix.data.length then false
  else
    let last := s.data.drop (s.data.length - suffix.data.length)
    if caseSensitive then last == suffix.data
    else last.map Char.toLower == suffix.data.map Char.toLower

/-- A token of `QXmlStreamReader`; `Other` stands for the start and the end of the
document and for a document type declaration. -/
inductive XmlToken where
  | StartElement (name : String)
  | EndElement (name : String)
  | Characters (text : String)
  | EntityReference (text : String)
  | Comment
  | ProcessingInstruction
  | Other
  deriving DecidableEq, Repr

/-- What a `QXmlStreamReader` gives for a text: the tokens `readNext` returns until
`atEnd()`, and whether the reading stopped at an error. -/
structure XmlDocument where
  tokens : List XmlToken
  hasError : Bool
  deriving DecidableEq, Repr

/-- A `QJsonValue`; a number is held as its text. -/
inductive QJsonValue where
  | null
  | bool (b : Bool)
  | double (text : String)
  | string (s : String)
  | array (items : List QJsonValue)
  | object (members : List (String × QJsonValue))
  | undefined

namespace QJsonValue

def toString : QJsonValue → String
  | .string s => s
  | _ => ""

def toBool (v : QJsonValue) (defaultValue : Bool) : Bool :=
  match v with
  | .bool b => b
  | _ => defaultValue

def toArray : QJsonValue → List QJsonValue
  | .array items => items
  | _ => []

def toObject : QJsonValue → List (String × QJsonValue)
  | .object members => members
  | _ => []

end QJsonValue

/-- `QJsonObject::operator[]`: the value under the key, `Undefined` when there is
none. -/
def QJsonObject.value (members : List (String × QJsonValue)) (key : String) : QJsonValue :=
  match members.find? (fun m => m.1 = key) with
  | some m => m.2
  | none => QJsonValue.undefined

/-- What the configuration code takes from Qt and zlib: `readFile path` is
`QFile::open(QIODevice::ReadOnly)` followed by `readAll()`, `none` when the file
cannot be opened; `qUncompress` gives the empty array on failure; `xmlTokens` is
`QXmlStreamReader` over the data; `jsonFromJson` is `QJsonDocument::fromJson`,
`none` on a parse error; `urlFromString` is the constructor `QUrl(QString)`. -/
structure QtLibrary where
  readFile : String → Option QByteArray
  qUncompress : QByteArray → QByteArray
  xmlTokens : QByteArray → XmlDocument
  jsonFromJson : QByteArray → Option QJsonValue
  urlFromString : String → QUrl

/-! ## protocol/SEBConfigParser: the file envelope -/

namespace SEBConfigParser

def tryGzipDecompress (qt : QtLibrary) (data : QByteArray) : QByteArray :=
  if data.length < 2 then []
  else if data.getD 0 0 ≠ 0x1f ∨ data.getD 1 0 ≠ 0x8b then []
  else qt.qUncompress data

/-- `SEBConfigParser::decryptSebFile`; `marker` is the variable `prefix` of the
source. -/
def decryptSebFile (ssl : OpenSSL) (qt : QtLibrary) (data : QByteArray) (password : String) :
    QByteArray :=
  let decompressed := tryGzipDecompress qt data
  let working := if !decompressed.isEmpty then decompressed else data
  if working.length < 4 then []
  else
    let marker := working.take 4
    if marker = QByteArray.fromLatin1 "pswd" ∨ marker = QByteArray.fromLatin1 "pwcc" then
      let encrypted := working.drop 4
      let decrypted := decryptRNCryptorV3 ssl encrypted password
      if decrypted.isEmpty then []
      else
        let innerDecomp := tryGzipDecompress qt decrypted
        if innerDecomp.isEmpty then decrypted else innerDecomp
    else if marker = QByteArray.fromLatin1 "plnd" then
      tryGzipDecompress qt (working.drop 4)
    else if (QByteArray.fromLatin1 "<?xm").isPrefixOf working then working
    else []

end SEBConfigParser

/-! ## core/Config: loading a configuration

The signals `configLoaded` and `configError` are not part of the model; every
function returns its result and the `Config` object after the call. -/

namespace Config

def rawConfigData (c : Config) : QByteArray := c.m_rawData

def configKeyHash (c : Config) : QByteArray := sha256 c.m_rawData

def isSebFile (path : String) : Bool := QString.endsWith path ".seb" false

def isOpenLockFile (path : String) : Bool := QString.endsWith path ".openlock" false

/-- `Config::decryptSebConfig`: both arguments are unused and the empty array is
returned. -/
def decryptSebConfig (_encrypted : QByteArray) (_password : String) : QByteArray := []

def parseOpenLockConfig (qt : QtLibrary) (c : Config) (data : QByteArray) : Bool × Config :=
  match qt.jsonFromJson data with
  | none => (false, c)
  | some doc =>
    let root := doc.toObject
    let nav := (QJsonObject.value root "navigation").toObject
    let browser := (QJsonObject.value root "browser").toObject
    let security := (QJsonObject.value root "security").toObject
    let kiosk := (QJsonObject.value root "kiosk").toObject
    let network := (QJsonObject.value root "network").toObject
    (true,
      { c with
        m_examConfig :=
          { c.m_examConfig with
            examName := (QJsonObject.value root "examName").toString
            startUrl := qt.urlFromString (QJsonObject.value root "startUrl").toString
            exitPassword := (QJsonObject.value root "exitPassword").toString
            allowQuit := (QJsonObject.value root "allowQuit").toBool false
            allowedUrlPatterns := c.m_examConfig.allowedUrlPatterns ++
              (QJsonObject.value nav "allowedUrlPatterns").toArray.map QJsonValue.toString
            blockedUrlPatterns := c.m_examConfig.blockedUrlPatterns ++
              (QJsonObject.value nav "blockedUrlPatterns").toArray.map QJsonValue.toString
            allowNavigation := (QJsonObject.value nav "allowNavigation").toBool true
            allowReload := (QJsonObject.value nav "allowReload").toBool true
            allowBackForward := (QJsonObject.value nav "allowBackForward").toBool false
            userAgent := (QJsonObject.value browser "userAgent").toString
            enableJavaScript := (QJsonObject.value browser "enableJavaScript").toBool true
            allowDownloads := (QJsonObject.value browser "allowDownloads").toBool false
            allowPrint := (QJsonObject.value browser "allowPrint").toBool false
            allowClipboard := (QJsonObject.value browser "allowClipboard").toBool false
            showToolbar := (QJsonObject.value browser "showToolbar").toBool true
            detectVM := (QJsonObject.value security "detectVM").toBool true
            detectDebugger := (QJsonObject.value security "detectDebugger").toBool true
            allowScreenCapture := (QJsonObject.value security "allowScreenCapture").toBool false
            processBlocklist := c.m_examConfig.processBlocklist ++
              (QJsonObject.value security "processBlocklist").toArray.map QJsonValue.toString
            fullscreen := (QJsonObject.value kiosk "fullscreen").toBool true
            multiMonitorLockdown := (QJsonObject.value kiosk "multiMonitorLockdown").toBool true
            blockTaskSwitching := (QJsonObject.value kiosk "blockTaskSwitching").toBool true
            ssoAllowedDomains := c.m_examConfig.ssoAllowedDomains ++
              (QJsonObject.value network "ssoAllowedDomains").toArray.map QJsonValue.toString
            allowWebRTC := (QJsonObject.value network "allowWebRTC").toBool false } })

/-- `QXmlStreamReader::readElementText()`, called on a start element: the text up to
the end of the element, the tokens left after it, and whether the reader is in error
then.  A child element is an error (`ErrorOnUnexpectedElement`), and so is the end
of the tokens. -/
def readElementText : List XmlToken → String × List XmlToken × Bool
  | [] => ("", [], true)
  | XmlToken.Characters text :: rest =>
      let r := readElementText rest
      (text ++ r.1, r.2.1, r.2.2)
  | XmlToken.EntityReference text :: rest =>
      let r := readElementText rest
      (text ++ r.1, r.2.1, r.2.2)
  | XmlToken.EndElement _ :: rest => ("", rest, false)
  | XmlToken.ProcessingInstruction :: rest => readElementText rest
  | XmlToken.Comment :: rest => readElementText rest
  | XmlToken.StartElement _ :: _ => ("", [], true)
  | XmlToken.Other :: _ => ("", [], true)

/-- The first loop of `parseSebConfig`: the tokens after the first start element
named `dict`. -/
def skipToDict : List XmlToken → List XmlToken
  | [] => []
  | XmlToken.StartElement name :: rest => if name = "dict" then rest else skipToDict rest
  | _ :: rest => skipToDict rest

/-- The ladder `parseSebConfig` goes through at `<true/>` and at `<false/>`; the two
differ in the value only. -/
def applyBoolean (cfg : ExamConfig) (currentKey : String) (value : Bool) : ExamConfig :=
  if currentKey = "allowQuit" then { cfg with allowQuit := value }
  else if currentKey = "enableJavaScript" then { cfg with enableJavaScript := value }
  else if currentKey = "allowDownloads" then { cfg with allowDownloads := value }
  else if currentKey = "enablePrinting" then { cfg with allowPrint := value }
  else if currentKey = "allowBrowsingBackForward" then { cfg with allowBackForward := value }
  else if currentKey = "enableClipboard" then { cfg with allowClipboard := value }
  else cfg

/-- The second loop of `parseSebConfig`: the exam configuration after it, and whether
`readElementText` left the reader in error.  Every round takes at least one token,
so a `fuel` of the number of tokens is never used up. -/
def parseDict (qt : QtLibrary) : Nat → String → ExamConfig → List XmlToken → ExamConfig × Bool
  | 0, _, cfg, _ => (cfg, false)
  | _ + 1, _, cfg, [] => (cfg, false)
  | fuel + 1, currentKey, cfg, XmlToken.StartElement name :: rest =>
      if name = "key" then
        let r := readElementText rest
        if r.2.2 then (cfg, true) else parseDict qt fuel r.1 cfg r.2.1
      else if name = "string" then
        let r := readElementText rest
        let value := r.1
        let cfg1 :=
          if currentKey = "startURL" then { cfg with startUrl := qt.urlFromString value }
          else if currentKey = "hashedQuitPassword" then { cfg with exitPassword := value }
          else if currentKey = "browserUserAgent" then { cfg with userAgent := value }
          else cfg
        if r.2.2 then (cfg1, true) else parseDict qt fuel currentKey cfg1 r.2.1
      else if name = "true" then parseDict qt fuel currentKey (applyBoolean cfg currentKey true) rest
      else if name = "false" then
        parseDict qt fuel currentKey (applyBoolean cfg currentKey false) rest
      else if name = "integer" then
        let r := readElementText rest
        if r.2.2 then (cfg, true) else parseDict qt fuel currentKey cfg r.2.1
      else parseDict qt fuel currentKey cfg rest
  | fuel + 1, currentKey, cfg, _ :: rest => parseDict qt fuel currentKey cfg rest

/-- The part of `parseSebConfig` from `QXmlStreamReader xml(xmlData)` on. -/
def parsePlist (qt : QtLibrary) (c : Config) (xmlData : QByteArray) : Bool × Config :=
  let xml := qt.xmlTokens xmlData
  let afterDict := skipToDict xml.tokens
  let parsed := parseDict qt afterDict.length "" c.m_examConfig afterDict
  if xml.hasError ∨ parsed.2 then (false, { c with m_examConfig := parsed.1 })
  else (true, { c with m_examConfig := parsed.1 })

/-- `Config::parseSebConfig`; `marker` is the variable `prefix` of the source. -/
def parseSebConfig (qt : QtLibrary) (c : Config) (data : QByteArray) : Bool × Config :=
  let c1 : Config :=
    { c with m_examConfig := { c.m_examConfig with sebMode := true, sebConfigData := data } }
  if data.length > 4 then
    let marker := data.take 4
    if marker = QByteArray.fromLatin1 "pswd" ∨ marker = QByteArray.fromLatin1 "phsk" then
      if QString.isEmpty c1.m_examConfig.sebConfigPassword then (false, c1)
      else
        let xmlData := decryptSebConfig data c1.m_examConfig.sebConfigPassword
        if xmlData.isEmpty then (false, c1) else parsePlist qt c1 xmlData
    else if marker = QByteArray.fromLatin1 "plnd" then
      let xmlData := qt.qUncompress (data.drop 4)
      if xmlData.isEmpty then (false, c1) else parsePlist qt c1 xmlData
    else parsePlist qt c1 data
  else parsePlist qt c1 data

def loadFromFile (qt : QtLibrary) (c : Config) (path : String) : Bool × Config :=
  match qt.readFile path with
  | none => (false, c)
  | some data =>
    if isSebFile path then
      parseSebConfig qt { c with m_rawData := data, m_format := ConfigFormat.SEB } data
    else
      parseOpenLockConfig qt { c with m_rawData := data, m_format := ConfigFormat.OpenLock } data

def loadFromUrl (c : Config) (_url : QUrl) : Bool × Config := (false, c)

def loadFromSebData (qt : QtLibrary) (c : Config) (data : QByteArray) (password : String) :
    Bool × Config :=
  let c1 : Config := { c with m_format := ConfigFormat.SEB, m_rawData := data }
  if !QString.isEmpty password then
    let configData := decryptSebConfig data password
    if configData.isEmpty then (false, c1) else parseSebConfig qt c1 configData
  else parseSebConfig qt c1 data

end Config

/-! ## Globs, as the specification reads them -/

namespace Glob

/-- Whether the whole of `s` matches the glob `pattern`: `*` matches any run of
characters, the empty one too, `?` matches one character, every other character
matches itself; with `fold`, letters are compared without regard to case. -/
def matchesWhole (fold : Bool) : List Char → List Char → Bool
  | [], s => s.isEmpty
  | c :: ps, s =>
      if c = '*' then s.tails.any (matchesWhole fold ps)
      else
        match s with
        | [] => false
        | x :: xs =>
            (c = '?' || (if fold then c.toLower == x.toLower else c == x)) &&
              matchesWhole fold ps xs

end Glob

/-! ## The SEB-JSON text as a tree

`variantToTree` goes through a settings value the way `variantToJson` does and
keeps, for every mapping, the keys in the order they are emitted; `SebJson.render`
writes the tree out. -/

inductive SebJson where
  | atom (text : String)
  | object (entries : List (String × SebJson))
  | array (items : List SebJson)

namespace SebJson

mutual
def render : SebJson → String
  | .atom text => text
  | .object entries => "\x7b" ++ renderEntries true entries ++ "\x7d"
  | .array items => "[" ++ renderItems true items ++ "]"
def renderEntries : Bool → List (String × SebJson) → String
  | _, [] => ""
  | first, (key, value) :: rest =>
      (if first then "" else ",") ++ "\"" ++ key ++ "\":" ++ render value ++
        renderEntries false rest
def renderItems : Bool → List SebJson → String
  | _, [] => ""
  | first, value :: rest =>
      (if first then "" else ",") ++ render value ++ renderItems false rest
end

mutual
/-- In every mapping of the tree, at every depth, no key is less than one before it
under the comparison without regard to case. -/
def keysSorted : SebJson → Prop
  | .atom _ => True
  | .object entries =>
      (entries.map Prod.fst).Pairwise (fun a b => QString.lessCaseInsensitive b a = false) ∧
        keysSortedEntries entries
  | .array items => keysSortedItems items
def keysSortedEntries : List (String × SebJson) → Prop
  | [] => True
  | (_, value) :: rest => keysSorted value ∧ keysSortedEntries rest
def keysSortedItems : List SebJson → Prop
  | [] => True
  | value :: rest => keysSorted value ∧ keysSortedItems rest
end

end SebJson

namespace ConfigKeyGenerator

mutual
def variantToTree (sort : List String → List String) : QVariant → SebJson
  | .map m =>
      SebJson.object ((sort (QMap.keys m)).map
        (fun key => (key, QMap.value (valuesToTree sort m) key (SebJson.atom "\"\""))))
  | .list l => SebJson.array (listToTree sort l)
  | .bool b => SebJson.atom (variantToJson sort (.bool b))
  | .int i => SebJson.atom (variantToJson sort (.int i))
  | .double s => SebJson.atom (variantToJson sort (.double s))
  | .string s => SebJson.atom (variantToJson sort (.string s))
  | .byteArray b => SebJson.atom (variantToJson sort (.byteArray b))
  | .dateTime isoDate => SebJson.atom (variantToJson sort (.dateTime isoDate))
  | .other text => SebJson.atom (variantToJson sort (.other text))
def valuesToTree (sort : List String → List String) :
    List (String × QVariant) → List (String × SebJson)
  | [] => []
  | (k, v) :: rest => (k, variantToTree sort v) :: valuesToTree sort rest
def listToTree (sort : List String → List String) : List QVariant → List SebJson
  | [] => []
  | v :: rest => variantToTree sort v :: listToTree sort rest
end

end ConfigKeyGenerator

/-- A `QMap` as the class keeps it: the keys in strictly ascending order. -/
def QMap.WellFormed {β : Type} (m : List (String × β)) : Prop :=
  (m.map Prod.fst).Pairwise (fun a b => QString.less a b = true)

/-! ## Sample data for running the code -/

/-- Stand-ins for the two OpenSSL primitives, to run `decryptRNCryptorV3` on a
concrete payload: the derived key is `keyLength` octets of password, salt and
zeros, and the cipher leaves the text as it is. -/
def OpenSSL.standIn : OpenSSL :=
  { pbkdf2HmacSha1 := fun pass salt _ keyLength =>
      some ((pass ++ salt ++ List.replicate keyLength 0).take keyLength)
    aes256CbcDecrypt := fun _ _ ciphertext => some ciphertext }

/-- Version 3, password-based, two salts, an IV and 16 octets of ciphertext. -/
def rnCryptorSampleBody : QByteArray :=
  [3, 1, 1, 2, 3, 4, 5, 6, 7, 8, 9, 10, 11, 12, 13, 14, 15, 16,
   170, 170, 170, 170, 170, 170, 170, 170, 170, 170, 170, 170, 170, 170, 170, 170,
   104, 101, 108, 108, 111, 32, 119, 111, 114, 108, 100, 5, 5, 5, 5, 5]

/-- The sample body followed by its HMAC-SHA-256 tag under the stand-in key
derivation and the password `pw`. -/
def rnCryptorSample : QByteArray :=
  rnCryptorSampleBody ++
  [255, 31, 18, 49, 93, 34, 115, 222, 99, 152, 254, 174, 233, 72, 186, 255,
   30, 57, 18, 212, 33, 194, 4, 7, 126, 17, 211, 35, 35, 241, 87, 224]

/-- The sample with the last octet of the tag changed. -/
def rnCryptorSampleTampered : QByteArray :=
  rnCryptorSampleBody ++
  [255, 31, 18, 49, 93, 34, 115, 222, 99, 152, 254, 174, 233, 72, 186, 255,
   30, 57, 18, 212, 33, 194, 4, 7, 126, 17, 211, 35, 35, 241, 87, 225]

/-- A system in which the guard runs as pid 4242 under the name `openlock`, next to
a screen recorder with pid 77; every `kill` call succeeds. -/
def Posix.sample : Posix Unit :=
  { getpid := 4242
    kill := fun os _ _ => (0, os)
    usleep := fun os _ => os
    enumerateProcesses := fun _ =>
      [{ pid := 4242, name := "openlock", cmdline := "/usr/bin/openlock --config exam.seb",
         exe := "/usr/bin/openlock", uid := 1000 },
       { pid := 77, name := "obs", cmdline := "obs --startrecording", exe := "/usr/bin/obs",
         uid := 1000 }] }

/-- A guard whose blocklist names the guard's own process and holds a pattern that
matches its command line. -/
def ProcessGuard.sample : ProcessGuard :=
  { m_blocklist := { m_blockedNames := ["obs", "openlock"],
                     m_patterns := [⟨".*openlock.*", true⟩] } }

/-- A machine on which no probe of the VM detector finds anything:
`systemd-detect-virt` prints `none` and exits with 1, the hypervisor bit of CPUID is
clear, and none of the files the probes read exists. -/
def VMSurface.sampleBareMetal : VMSurface :=
  { systemdDetectVirt := QProcessRun.finished 1 "none\n"
    x86_64 := true
    cpuid := fun leaf => if leaf = 1 then some (0, 0, 0, 0) else none
    readFile := fun _ => none
    hardwareAddresses := [] }

/-- The same machine when `systemd-detect-virt` does not finish within the three
seconds `waitForFinished` gives it. -/
def VMSurface.sampleQueryTimedOut : VMSurface :=
  { VMSurface.sampleBareMetal with systemdDetectVirt := QProcessRun.timedOut "" }

/-- A KVM guest, as far as `systemd-detect-virt` tells. -/
def VMSurface.sampleKvm : VMSurface :=
  { VMSurface.sampleBareMetal with systemdDetectVirt := QProcessRun.finished 0 "kvm\n" }

def IntegritySurface.sample : IntegritySurface :=
  { vm := VMSurface.sampleBareMetal
    isBeingDebugged := false
    debuggerName := ""
    verifyIntegrity := true
    detectInjectedLibraries := []
    LD_PRELOAD := none }

/-- A system in which the browser runs alone. -/
def Posix.sampleQuiet : Posix Unit :=
  { getpid := 4242
    kill := fun os _ _ => (0, os)
    usleep := fun os _ => os
    enumerateProcesses := fun _ =>
      [{ pid := 4242, name := "openlock", cmdline := "/usr/bin/openlock", exe := "/usr/bin/openlock",
         uid := 1000 }] }

/-- A workstation on which every step of the engine succeeds; there is no blocklist
file, so the guard falls back on the built-in names. -/
def Platform.sample : Platform :=
  { build := { OPENLOCK_VM_DETECTION := true, OPENLOCK_HAS_X11 := true }
    integrity := IntegritySurface.sample
    configLoadFromFile := fun _ c => (true, c)
    browserInit := true
    sebProtocolInit := true
    detectDisplayServer := DisplayServer.X11
    applicationDirPath := "/usr/bin"
    fileExists := fun _ => false
    readBlocklist := fun _ => ProcessBlocklist.BlocklistRead.cannotOpen
    platformKioskEngage := true
    platformKioskRelease := true
    xOpenDisplay := true
    xGrabKeyboard := 0
    cupsStop := QProcessRun.finished 0 "" }

/-- The same workstation as a KVM guest, with a configuration file that sets
`detectVM` to false. -/
def Platform.sampleInVM : Platform :=
  { Platform.sample with
    integrity := { IntegritySurface.sample with vm := VMSurface.sampleKvm }
    configLoadFromFile := fun _ c =>
      (true, { c with m_examConfig := { c.m_examConfig with detectVM := false } }) }

/-- A KVM guest in which the browser is also traced by `gdb`. -/
def Platform.sampleInVMUnderDebugger : Platform :=
  { Platform.sample with
    integrity := { IntegritySurface.sample with
                   vm := VMSurface.sampleKvm, isBeingDebugged := true, debuggerName := "gdb" } }

/-- An engine after `LockdownEngine::initialize` on the sample workstation. -/
def LockdownEngine.sample : LockdownEngine :=
  (LockdownEngine.init {} Platform.sample "").2

/-- The sample engine after an engage attempt that failed its pre-checks (in a
virtual machine, under a debugger). -/
def LockdownEngine.sampleFailed : LockdownEngine :=
  (LockdownEngine.sample.engageLockdown Posix.sampleQuiet QRegularExpression.hasMatch
    Platform.sampleInVMUnderDebugger ()).2

/-- A property list that sets the start URL and allows quitting. -/
def samplePlist : QByteArray :=
  QByteArray.fromLatin1 ("<?xml version=\"1.0\"?><plist version=\"1.0\"><dict>" ++
    "<key>startURL</key><string>https://exam.example.org</string>" ++
    "<key>allowQuit</key><true/></dict></plist>")

/-- The array `qCompress` makes of `samplePlist`: its length in four octets, then
the zlib stream. -/
def samplePlistCompressed : QByteArray :=
  [0, 0, 0, 150, 120, 218, 85, 141, 65, 10, 194, 80, 12, 68, 175, 34, 61, 192, 143, 110, 37,
   166, 23, 112, 163, 224, 1, 62, 26, 106, 48, 237, 255, 36, 105, 173, 183, 151, 214, 110, 220,
   12, 204, 48, 111, 6, 219, 185, 215, 221, 196, 230, 82, 134, 83, 115, 72, 251, 166, 37, 172,
   42, 30, 255, 41, 225, 67, 238, 65, 248, 226, 15, 121, 100, 139, 219, 245, 140, 176, 56, 244,
   48, 25, 58, 122, 70, 84, 63, 2, 240, 156, 251, 180, 72, 85, 78, 197, 58, 132, 173, 176, 178,
   89, 181, 188, 47, 163, 196, 6, 135, 141, 12, 132, 240, 91, 135, 245, 153, 190, 61, 38, 52,
   169]

/-- A `.seb` file with the `plnd` marker: the marker, then the compressed property
list. -/
def samplePlndFile : QByteArray := QByteArray.fromLatin1 "plnd" ++ samplePlistCompressed

/-- Qt and zlib on the sample data: `exam.seb` holds `samplePlndFile`,
`qUncompress` and the XML reader know `samplePlist`, and every other input is
answered with failure. -/
def QtLibrary.sample : QtLibrary :=
  { readFile := fun path => if path = "exam.seb" then some samplePlndFile else none
    qUncompress := fun data => if data = samplePlistCompressed then samplePlist else []
    xmlTokens := fun data =>
      if data = samplePlist then
        { tokens :=
            [XmlToken.Other, XmlToken.StartElement "plist", XmlToken.StartElement "dict",
             XmlToken.StartElement "key", XmlToken.Characters "startURL",
             XmlToken.EndElement "key",
             XmlToken.StartElement "string", XmlToken.Characters "https://exam.example.org",
             XmlToken.EndElement "string",
             XmlToken.StartElement "key", XmlToken.Characters "allowQuit",
             XmlToken.EndElement "key",
             XmlToken.StartElement "true", XmlToken.EndElement "true",
             XmlToken.EndElement "dict", XmlToken.EndElement "plist", XmlToken.Other]
          hasError := false }
      else { tokens := [], hasError := true }
    jsonFromJson := fun _ => none
    urlFromString := fun text =>
      if text = "https://exam.example.org" then { scheme := "https", host := "exam.example.org" }
      else {} }

/-- A machine on which only `/proc/cpuinfo` tells of a hypervisor; the build is not
for x86-64, so there is no CPUID probe. -/
def VMSurface.sampleCpuinfoFlag : VMSurface :=
  { systemdDetectVirt := QProcessRun.finished 1 "none\n"
    x86_64 := false
    cpuid := fun _ => none
    readFile := fun path =>
      if path = "/proc/cpuinfo" then
        some "processor\t: 0\nflags\t\t: fpu vme de pse hypervisor lahf_lm\n"
      else none
    hardwareAddresses := [] }

/-- A machine whose CPUID has the hypervisor bit set and whose hypervisor leaf names
no vendor. -/
def VMSurface.sampleBlankVendor : VMSurface :=
  { systemdDetectVirt := QProcessRun.finished 1 "none\n"
    x86_64 := true
    cpuid := fun leaf =>
      if leaf = 1 then some (0, 0, 2 ^ 31, 0)
      else if leaf = 0x40000000 then some (0, 0, 0, 0)
      else none
    readFile := fun _ => none
    hardwareAddresses := [] }

/-! ## Theorems -/

/-! ### Letter case -/

theorem Char_toNat_ofNat_of_lt (n : Nat) (h : n < 0xd800) : (Char.ofNat n).toNat = n := by
  have hv : n.isValidChar := Or.inl h
  simp only [Char.ofNat, hv, Char.toNat, Char.ofNatAux, dite_true]
  rfl

theorem Char_toLower_of_upper (c : Char) (h : c.toNat ≥ 65 ∧ c.toNat ≤ 90) :
    c.toLower = Char.ofNat (c.toNat + 32) := by
  simp [Char.toLower, h]

theorem Char_toLower_of_not_upper (c : Char) (h : ¬ (c.toNat ≥ 65 ∧ c.toNat ≤ 90)) :
    c.toLower = c := by
  simp only [Char.toLower, h, if_false]

theorem Char_toLower_toLower (c : Char) : c.toLower.toLower = c.toLower := by
  by_cases h : c.toNat ≥ 65 ∧ c.toNat ≤ 90
  · have h1 := Char_toLower_of_upper c h
    have h2 : c.toLower.toNat = c.toNat + 32 := by
      rw [h1]; exact Char_toNat_ofNat_of_lt _ (by omega)
    exact Char_toLower_of_not_upper _ (by omega)
  · rw [Char_toLower_of_not_upper c h, Char_toLower_of_not_upper c h]

theorem QString_toLower_toLower (s : String) :
    QString.toLower (QString.toLower s) = QString.toLower s := by
  simp [QString.toLower, Function.comp_def, Char_toLower_toLower]

/-! ### Navigation filter -/

/-- C1, at the inputs where the code departs from it: a `blob:` URL and a
`chrome-devtools:` URL are classified Allowed by a filter in its initial
configuration, because `isBlockedScheme` lists seven schemes and these two are not
among them. -/
theorem C1_blob_scheme_not_blocked :
    NavigationFilter.checkUrl NavigationFilter.new
      { scheme := "blob", path := "https://exam.example.org/1b9d6bcd" } = FilterResult.Allowed ∧
    NavigationFilter.checkUrl NavigationFilter.new
      { scheme := "chrome-devtools", host := "devtools", path := "/bundled/inspector.html" }
      = FilterResult.Allowed := by
  decide

/-- C6: a URL whose scheme `isBlockedScheme` lets through (every scheme outside the
nine dangerous ones is such) and whose host contains, letter case ignored, one of
the configured SSO indicators, is classified AllowedSSO, whatever the allow and
block patterns are. -/
theorem C6_sso_host_is_allowed_sso (f : NavigationFilter) (url : QUrl) (indicator : String)
    (hscheme : NavigationFilter.isBlockedScheme url = false)
    (hconfigured : indicator ∈ f.m_ssoDomains)
    (hhost : QString.occursIn (QString.toLower indicator).data
      (QString.toLower url.host).data = true) :
    f.checkUrl url = FilterResult.AllowedSSO := by
  have hsso : f.isSSODomain url = true := by
    unfold NavigationFilter.isSSODomain
    rw [List.any_eq_true]
    refine ⟨indicator, hconfigured, ?_⟩
    simp only [QString.contains, QString_toLower_toLower]
    simpa using hhost
  simp [NavigationFilter.checkUrl, hscheme, hsso]

/-- C6 at work: with an allow list that does not match and a block pattern `*`
that matches every URL, `https://login.microsoftonline.com/auth` is AllowedSSO. -/
theorem C6_sso_host_is_allowed_sso_witness :
    NavigationFilter.checkUrl
      ((NavigationFilter.new.addAllowedPattern "*.moodle.edu/*").addBlockedPattern "*")
      { scheme := "https", host := "login.microsoftonline.com", path := "/auth" }
      = FilterResult.AllowedSSO :=
  C6_sso_host_is_allowed_sso
    ((NavigationFilter.new.addAllowedPattern "*.moodle.edu/*").addBlockedPattern "*")
    { scheme := "https", host := "login.microsoftonline.com", path := "/auth" }
    "login." (by decide) (by decide) (by decide)

/-- C7: for a URL whose scheme `isBlockedScheme` lets through and whose host
matches no SSO indicator, `checkUrl` is Blocked when a block pattern matches (also
when an allow pattern matches too); otherwise Blocked when there are allow patterns
and none matches; otherwise Allowed, in particular when no pattern is configured. -/
theorem C7_pattern_ladder (f : NavigationFilter) (url : QUrl)
    (hscheme : NavigationFilter.isBlockedScheme url = false)
    (hsso : f.isSSODomain url = false) :
    (NavigationFilter.matchesPattern url f.m_blockedPatterns = true →
        f.checkUrl url = FilterResult.Blocked) ∧
    (NavigationFilter.matchesPattern url f.m_blockedPatterns = false →
        f.m_allowedPatterns ≠ [] →
        NavigationFilter.matchesPattern url f.m_allowedPatterns = false →
        f.checkUrl url = FilterResult.Blocked) ∧
    (NavigationFilter.matchesPattern url f.m_blockedPatterns = false →
        (f.m_allowedPatterns = [] ∨
          NavigationFilter.matchesPattern url f.m_allowedPatterns = true) →
        f.checkUrl url = FilterResult.Allowed) ∧
    (f.m_blockedPatterns = [] → f.m_allowedPatterns = [] →
        f.checkUrl url = FilterResult.Allowed) := by
  refine ⟨?_, ?_, ?_, ?_⟩
  · intro hb
    simp [NavigationFilter.checkUrl, hscheme, hsso, hb]
  · intro hb hne ha
    simp [NavigationFilter.checkUrl, hscheme, hsso, hb, ha, hne]
  · intro hb ha
    rcases ha with ha | ha
    · simp [NavigationFilter.checkUrl, hscheme, hsso, hb, ha]
    · simp [NavigationFilter.checkUrl, hscheme, hsso, hb, ha]
  · intro hb ha
    simp [NavigationFilter.checkUrl, NavigationFilter.matchesPattern, hscheme, hsso, hb, ha]

/-- C7 at work, on the glob precedence scenario: with `*.example.com/*` allowed and
`*.example.com/admin/*` blocked, `https://www.example.com/admin/panel` matches both
lists and is Blocked. -/
theorem C7_pattern_ladder_witness :
    NavigationFilter.matchesPattern
      { scheme := "https", host := "www.example.com", path := "/admin/panel" }
      [⟨NavigationFilter.globToUrlRegex "*.example.com/*", true⟩] = true ∧
    NavigationFilter.checkUrl
      ((NavigationFilter.new.addAllowedPattern "*.example.com/*").addBlockedPattern
        "*.example.com/admin/*")
      { scheme := "https", host := "www.example.com", path := "/admin/panel" }
      = FilterResult.Blocked :=
  ⟨by decide,
   (C7_pattern_ladder
      ((NavigationFilter.new.addAllowedPattern "*.example.com/*").addBlockedPattern
        "*.example.com/admin/*")
      { scheme := "https", host := "www.example.com", path := "/admin/panel" }
      (by decide) (by decide)).1 (by decide)⟩

/-! ### Digests and hexadecimal text -/

set_option maxRecDepth 100000 in
/-- The one-block example of FIPS 180-4: the digest of `abc`. -/
theorem sha256_abc :
    toHex (sha256 (QString.toUtf8 "abc"))
      = QString.toUtf8 "ba7816bf8f01cfea414140de5dae2223b00361a396177a9cb410ff61f20015ad" := by
  decide

set_option maxRecDepth 100000 in
/-- Test case 2 of RFC 4231. -/
theorem hmacSha256_rfc4231_case2 :
    toHex (hmacSha256 (QString.toUtf8 "Jefe") (QString.toUtf8 "what do ya want for nothing?"))
      = QString.toUtf8 "5bdcc146bf60754e6a042426089575c75a003f089d2739839dec58b964ec3843" := by
  decide

theorem Sha256_bigEndian_length (n k : Nat) : (Sha256.bigEndian n k).length = k := by
  induction k with
  | zero => rfl
  | succ k ih => simp [Sha256.bigEndian, ih]

theorem sha256_length (m : QByteArray) : (sha256 m).length = 32 := by
  simp [sha256, Sha256_bigEndian_length]

theorem toHex_length (b : QByteArray) : (toHex b).length = 2 * b.length := by
  induction b with
  | nil => rfl
  | cons x rest ih => simp [toHex, ih]; omega

theorem hexDigit_isLowerHexChar (n : Nat) (h : n < 16) : isLowerHexChar (hexDigit n) = true := by
  unfold isLowerHexChar hexDigit
  split <;> simp <;> omega

theorem toHex_all_isLowerHexChar (b : QByteArray) : (toHex b).all isLowerHexChar = true := by
  induction b with
  | nil => rfl
  | cons x rest ih =>
    simp only [toHex, List.all_cons, ih, Bool.and_true, Bool.and_eq_true]
    exact ⟨hexDigit_isLowerHexChar _ (Nat.mod_lt _ (by decide)),
      hexDigit_isLowerHexChar _ (Nat.mod_lt _ (by decide))⟩

/-! ### Request headers -/

theorem httpHeader_setHttpHeader_same (info : QWebEngineUrlRequestInfo) (name value : QByteArray) :
    (info.setHttpHeader name value).httpHeader name = some value := by
  unfold QWebEngineUrlRequestInfo.httpHeader QWebEngineUrlRequestInfo.setHttpHeader
  have hnone : List.find? (fun h : QByteArray × QByteArray => decide (h.1 = name))
      (List.filter (fun h => decide (h.1 ≠ name)) info.headers) = none := by
    rw [List.find?_eq_none]
    intro x hx
    have := (List.mem_filter.mp hx).2
    simpa using this
  simp [List.find?_append, hnone]

theorem httpHeader_setHttpHeader_other (info : QWebEngineUrlRequestInfo)
    (name other value : QByteArray) (hne : name ≠ other) :
    (info.setHttpHeader other value).httpHeader name = info.httpHeader name := by
  unfold QWebEngineUrlRequestInfo.httpHeader QWebEngineUrlRequestInfo.setHttpHeader
  have hfilter : ∀ hs : List (QByteArray × QByteArray),
      List.find? (fun h => decide (h.1 = name)) (List.filter (fun h => decide (h.1 ≠ other)) hs)
        = List.find? (fun h => decide (h.1 = name)) hs := by
    intro hs
    induction hs with
    | nil => rfl
    | cons x rest ih =>
      by_cases hxo : x.1 = other
      · have hx : x.1 ≠ name := by rw [hxo]; exact Ne.symm hne
        rw [List.filter_cons_of_neg (by simpa using hxo), List.find?_cons_of_neg _ (by simpa using hx)]
        exact ih
      · rw [List.filter_cons_of_pos (by simpa using hxo)]
        by_cases hx : x.1 = name
        · rw [List.find?_cons_of_pos _ (by simpa using hx),
            List.find?_cons_of_pos _ (by simpa using hx)]
        · rw [List.find?_cons_of_neg _ (by simpa using hx),
            List.find?_cons_of_neg _ (by simpa using hx)]
          exact ih
  have hlast : List.find? (fun h : QByteArray × QByteArray => decide (h.1 = name))
      [(other, value)] = none := by
    simp [List.find?, Ne.symm hne]
  simp only [List.find?_append, hfilter, hlast, Option.or_none]

/-- C2: the per-request hash of a URL carrying a fragment equals the hash of the
same URL without fragment, for the Browser Exam Key and for the Config Key, whatever
the key material is. -/
theorem C2_fragment_never_alters_request_hash (bek : BrowserExamKey)
    (gen : ConfigKeyGenerator) (sort : List String → List String) (U : QUrl) (f : String) :
    bek.computeRequestHash (U.setFragment (some f))
      = bek.computeRequestHash (U.setFragment none) ∧
    gen.computeRequestHash sort (U.setFragment (some f))
      = gen.computeRequestHash sort (U.setFragment none) := by
  constructor
  · simp [BrowserExamKey.computeRequestHash, BrowserExamKey.stripFragment, QUrl.setFragment]
  · simp [ConfigKeyGenerator.computeRequestHash, ConfigKeyGenerator.stripFragment,
      QUrl.setFragment]

/-- C3: when the lowercased scheme of the request is `http` or `https`, the
navigation filter (if one is set) does not classify the URL as Blocked, and a SEB
protocol is set, `interceptRequest` does not block the request and sets both
headers to the hexadecimal SHA-256 of the fragment-free URL text followed by the
hexadecimal raw key; each value is 64 lowercase hexadecimal characters. -/
theorem C3_both_headers_attached (sort : List String → List String)
    (i : SEBRequestInterceptor) (protocol : SEBProtocol) (info : QWebEngineUrlRequestInfo)
    (hscheme : QString.toLower info.requestUrl.scheme = "http" ∨
      QString.toLower info.requestUrl.scheme = "https")
    (hfilter : ∀ navFilter, i.m_navFilter = some navFilter →
      navFilter.checkUrl info.requestUrl ≠ FilterResult.Blocked)
    (hprotocol : i.m_protocol = some protocol) :
    (SEBRequestInterceptor.interceptRequest sort i info).blocked = info.blocked ∧
    (SEBRequestInterceptor.interceptRequest sort i info).httpHeader
        (QString.toUtf8 "X-SafeExamBrowser-RequestHash")
      = some (toHex (sha256 (QString.toUtf8 (info.requestUrl.setFragment none).toString ++
          toHex protocol.m_examKey.computeRawKey))) ∧
    (SEBRequestInterceptor.interceptRequest sort i info).httpHeader
        (QString.toUtf8 "X-SafeExamBrowser-ConfigKeyHash")
      = some (toHex (sha256 (QString.toUtf8 (info.requestUrl.setFragment none).toString ++
          toHex (protocol.m_configKey.computeRawKey sort)))) ∧
    (∀ key : QByteArray,
      (toHex (sha256 (QString.toUtf8 (info.requestUrl.setFragment none).toString ++
          toHex key))).length = 64 ∧
      (toHex (sha256 (QString.toUtf8 (info.requestUrl.setFragment none).toString ++
          toHex key))).all isLowerHexChar = true) := by
  have hnotBlockedScheme :
      SEBRequestInterceptor.isBlockedScheme (QString.toLower info.requestUrl.scheme) = false := by
    rcases hscheme with h | h <;> rw [h] <;> decide
  have hhttp : ¬ (QString.toLower info.requestUrl.scheme ≠ "http" ∧
      QString.toLower info.requestUrl.scheme ≠ "https") := by
    rcases hscheme with h | h <;> simp [h]
  have hnav : (match i.m_navFilter with
      | some navFilter => decide (navFilter.checkUrl info.requestUrl = FilterResult.Blocked)
      | none => false) = false := by
    cases hnf : i.m_navFilter with
    | none => rfl
    | some navFilter => simpa using hfilter navFilter hnf
  have hne1 : ∀ m : QByteArray, (toHex (sha256 m)).isEmpty = false := by
    intro m
    have hl : (toHex (sha256 m)).length = 64 := by rw [toHex_length, sha256_length]
    cases hm : toHex (sha256 m) with
    | nil => rw [hm] at hl; simp at hl
    | cons _ _ => rfl
  have hnames : QString.toUtf8 "X-SafeExamBrowser-RequestHash"
      ≠ QString.toUtf8 "X-SafeExamBrowser-ConfigKeyHash" := by decide
  have hout : SEBRequestInterceptor.interceptRequest sort i info =
      (info.setHttpHeader (QString.toUtf8 SEBProtocol.requestHashHeaderName)
          (protocol.computeRequestHash info.requestUrl)).setHttpHeader
        (QString.toUtf8 SEBProtocol.configKeyHeaderName)
        (protocol.computeConfigKeyHash sort info.requestUrl) := by
    unfold SEBRequestInterceptor.interceptRequest
    simp only [hnotBlockedScheme, hhttp, hnav, hprotocol, if_false, Bool.false_eq_true]
    simp [SEBProtocol.computeRequestHash, SEBProtocol.computeConfigKeyHash,
      BrowserExamKey.computeRequestHash, ConfigKeyGenerator.computeRequestHash, hne1]
  refine ⟨?_, ?_, ?_, ?_⟩
  · rw [hout]; rfl
  · rw [hout]
    rw [show SEBProtocol.configKeyHeaderName = "X-SafeExamBrowser-ConfigKeyHash" from rfl,
      show SEBProtocol.requestHashHeaderName = "X-SafeExamBrowser-RequestHash" from rfl]
    rw [httpHeader_setHttpHeader_other _ _ _ _ hnames, httpHeader_setHttpHeader_same]
    rfl
  · rw [hout]
    rw [show SEBProtocol.configKeyHeaderName = "X-SafeExamBrowser-ConfigKeyHash" from rfl]
    rw [httpHeader_setHttpHeader_same]
    rfl
  · intro key
    exact ⟨by rw [toHex_length, sha256_length], toHex_all_isLowerHexChar _⟩

set_option maxRecDepth 100000 in
/-- C3 at work, on the key material of the per-request hash scenario (a salt of 32
zero octets, an empty plist, a binary hash of 32 zero octets): a request for
`https://exam.example.org/q#part2` is not blocked and carries the request hash of
`https://exam.example.org/q`. -/
theorem C3_both_headers_attached_witness :
    (SEBRequestInterceptor.interceptRequest insertionSortKeys
        { m_protocol := some
            { m_examKey := { m_examKeySalt := List.replicate 32 0,
                             m_binaryFilesHash := List.replicate 32 0 } },
          m_navFilter := some NavigationFilter.new }
        { requestUrl := { scheme := "https", host := "exam.example.org", path := "/q",
                          fragment := some "part2" } }).blocked = false ∧
    (SEBRequestInterceptor.interceptRequest insertionSortKeys
        { m_protocol := some
            { m_examKey := { m_examKeySalt := List.replicate 32 0,
                             m_binaryFilesHash := List.replicate 32 0 } },
          m_navFilter := some NavigationFilter.new }
        { requestUrl := { scheme := "https", host := "exam.example.org", path := "/q",
                          fragment := some "part2" } }).httpHeader
        (QString.toUtf8 "X-SafeExamBrowser-RequestHash")
      = some (QString.toUtf8
          "358c04c1dde8a74a5bf0db2016a2ea81b005e7b6d12e728287e93435c244be72") :=
  have h := C3_both_headers_attached insertionSortKeys
    { m_protocol := some
        { m_examKey := { m_examKeySalt := List.replicate 32 0,
                         m_binaryFilesHash := List.replicate 32 0 } },
      m_navFilter := some NavigationFilter.new }
    { m_examKey := { m_examKeySalt := List.replicate 32 0,
                     m_binaryFilesHash := List.replicate 32 0 } }
    { requestUrl := { scheme := "https", host := "exam.example.org", path := "/q",
                      fragment := some "part2" } }
    (Or.inr (by decide))
    (by intro navFilter hnf; cases hnf; decide)
    rfl
  have hvalue : toHex (sha256 (QString.toUtf8
      (QUrl.setFragment { scheme := "https", host := "exam.example.org", path := "/q",
                          fragment := some "part2" } none).toString ++
        toHex (BrowserExamKey.computeRawKey
          { m_examKeySalt := List.replicate 32 0, m_binaryFilesHash := List.replicate 32 0 })))
      = QString.toUtf8 "358c04c1dde8a74a5bf0db2016a2ea81b005e7b6d12e728287e93435c244be72" := by
    decide
  ⟨h.1, h.2.1.trans (congrArg some hvalue)⟩

/-! ### The key order of QMap -/

theorem lexLess_nil_right (a : List Nat) : lexLess a [] = false := by
  cases a <;> rfl

theorem lexLess_irrefl (a : List Nat) : lexLess a a = false := by
  induction a with
  | nil => rfl
  | cons x xs ih => simp [lexLess, ih]

theorem lexLess_asymm : ∀ a b : List Nat, lexLess a b = true → lexLess b a = false
  | a, [] => by intro h; rw [lexLess_nil_right] at h; cases h
  | [], _ :: _ => by intro _; rfl
  | x :: xs, y :: ys => by
      intro h
      simp only [lexLess, Bool.or_eq_true, decide_eq_true_eq, Bool.and_eq_true, beq_iff_eq] at h
      simp only [lexLess, Bool.or_eq_false_iff, decide_eq_false_iff_not, Bool.and_eq_false_iff]
      rcases h with h | ⟨h1, h2⟩
      · exact ⟨by omega, Or.inl (by simp; omega)⟩
      · exact ⟨by omega, Or.inr (lexLess_asymm xs ys h2)⟩

theorem lexLess_trans : ∀ a b c : List Nat,
    lexLess a b = true → lexLess b c = true → lexLess a c = true
  | _, b, [] => by intro _ h; rw [lexLess_nil_right] at h; cases h
  | a, [], _ :: _ => by intro h _; rw [lexLess_nil_right] at h; cases h
  | [], _ :: _, _ :: _ => by intro _ _; rfl
  | x :: xs, y :: ys, z :: zs => by
      intro h1 h2
      simp only [lexLess, Bool.or_eq_true, decide_eq_true_eq, Bool.and_eq_true, beq_iff_eq]
        at h1 h2 ⊢
      rcases h1 with h1 | ⟨h1, h1'⟩ <;> rcases h2 with h2 | ⟨h2, h2'⟩
      · exact Or.inl (by omega)
      · exact Or.inl (by omega)
      · exact Or.inl (by omega)
      · exact Or.inr ⟨by omega, lexLess_trans xs ys zs h1' h2'⟩

theorem lexLess_connex : ∀ a b : List Nat,
    lexLess a b = false → lexLess b a = false → a = b
  | [], [] => by intro _ _; rfl
  | [], _ :: _ => by intro h _; cases h
  | _ :: _, [] => by intro _ h; cases h
  | x :: xs, y :: ys => by
      intro h1 h2
      simp only [lexLess, Bool.or_eq_false_iff, decide_eq_false_iff_not, Bool.and_eq_false_iff,
        beq_eq_false_iff_ne, ne_eq] at h1 h2
      have hxy : x = y := by omega
      subst hxy
      have h1' : lexLess xs ys = false := by
        rcases h1.2 with h | h
        · exact absurd rfl h
        · exact h
      have h2' : lexLess ys xs = false := by
        rcases h2.2 with h | h
        · exact absurd rfl h
        · exact h
      rw [lexLess_connex xs ys h1' h2']

theorem Char_toNat_injective : Function.Injective Char.toNat := by
  intro a b h
  apply Char.ext
  apply UInt32.ext
  exact h

theorem QString_less_irrefl (a : String) : QString.less a a = false :=
  lexLess_irrefl _

theorem QString_less_asymm (a b : String) (h : QString.less a b = true) :
    QString.less b a = false :=
  lexLess_asymm _ _ h

theorem QString_less_trans (a b c : String) (h1 : QString.less a b = true)
    (h2 : QString.less b c = true) : QString.less a c = true :=
  lexLess_trans _ _ _ h1 h2

theorem QString_less_connex (a b : String) (h1 : QString.less a b = false)
    (h2 : QString.less b a = false) : a = b := by
  have h := lexLess_connex _ _ h1 h2
  have hd : a.data = b.data := (List.map_injective_iff.mpr Char_toNat_injective) h
  exact String.ext hd

/-! ### Sorting keys by insertion meets the contract of std::sort -/

theorem lexLess_negTrans (a b c : List Nat) (h : lexLess a c = true) :
    lexLess a b = true ∨ lexLess b c = true := by
  by_cases hab : lexLess a b = true
  · exact Or.inl hab
  by_cases hbc : lexLess b c = true
  · exact Or.inr hbc
  have hab' : lexLess a b = false := by simpa using hab
  have hbc' : lexLess b c = false := by simpa using hbc
  exfalso
  cases hba : lexLess b a with
  | false =>
    have e : a = b := lexLess_connex a b hab' hba
    subst e
    rw [h] at hbc'
    cases hbc'
  | true =>
    cases hcb : lexLess c b with
    | false =>
      have e : b = c := lexLess_connex b c hbc' hcb
      subst e
      rw [h] at hab'
      cases hab'
    | true =>
      have hca : lexLess c a = true := lexLess_trans c b a hcb hba
      rw [lexLess_asymm c a hca] at h
      cases h

theorem insertKey_perm (key : String) : ∀ keys : List String,
    (insertKey key keys).Perm (key :: keys)
  | [] => List.Perm.refl _
  | k :: rest => by
      unfold insertKey
      split
      · exact List.Perm.refl _
      · exact ((insertKey_perm key rest).cons k).trans (List.Perm.swap key k rest)

theorem insertionSortKeys_perm : ∀ keys : List String, (insertionSortKeys keys).Perm keys
  | [] => List.Perm.refl _
  | key :: rest =>
      (insertKey_perm key (insertionSortKeys rest)).trans ((insertionSortKeys_perm rest).cons key)

theorem insertKey_pairwise (key : String) : ∀ keys : List String,
    keys.Pairwise (fun a b => QString.lessCaseInsensitive b a = false) →
    (insertKey key keys).Pairwise (fun a b => QString.lessCaseInsensitive b a = false)
  | [], _ => List.pairwise_singleton _ _
  | k :: rest, h => by
      have hk := List.pairwise_cons.mp h
      unfold insertKey
      split
      · rename_i hlt
        refine List.pairwise_cons.mpr ⟨?_, h⟩
        intro y hy
        rcases List.mem_cons.mp hy with rfl | hy
        · exact lexLess_asymm _ _ hlt
        · have hyk : QString.lessCaseInsensitive y k = false := hk.1 y hy
          cases hyx : QString.lessCaseInsensitive y key with
          | false => rfl
          | true =>
            have := lexLess_trans _ _ _ hyx hlt
            unfold QString.lessCaseInsensitive at hyk
            rw [this] at hyk
            cases hyk
      · rename_i hlt
        refine List.pairwise_cons.mpr ⟨?_, insertKey_pairwise key rest hk.2⟩
        intro z hz
        rcases List.mem_cons.mp ((insertKey_perm key rest).mem_iff.mp hz) with rfl | hz
        · simpa using hlt
        · exact hk.1 z hz

theorem insertionSortKeys_pairwise : ∀ keys : List String,
    (insertionSortKeys keys).Pairwise (fun a b => QString.lessCaseInsensitive b a = false)
  | [] => List.Pairwise.nil
  | key :: rest => insertKey_pairwise key _ (insertionSortKeys_pairwise rest)

theorem insertionSortKeys_isStdSort : IsStdSort insertionSortKeys :=
  ⟨insertionSortKeys_perm, insertionSortKeys_pairwise⟩

/-! ### QMap: the map built does not depend on the order of insertion -/

theorem QMap_insert_comm_of_less {β : Type} (k1 k2 : String) (v1 v2 : β)
    (h12 : QString.less k1 k2 = true) :
    ∀ m : List (String × β),
      QMap.insert k1 v1 (QMap.insert k2 v2 m) = QMap.insert k2 v2 (QMap.insert k1 v1 m)
  | [] => by
      have h21 : QString.less k2 k1 = false := QString_less_asymm _ _ h12
      have hne : k2 ≠ k1 := by
        rintro rfl
        rw [QString_less_irrefl] at h12
        cases h12
      simp [QMap.insert, h12, h21, hne]
  | (k, v) :: rest => by
      have h21 : QString.less k2 k1 = false := QString_less_asymm _ _ h12
      have hne : k2 ≠ k1 := by
        rintro rfl
        rw [QString_less_irrefl] at h12
        cases h12
      by_cases h2k : QString.less k2 k = true
      · have h1k : QString.less k1 k = true := QString_less_trans _ _ _ h12 h2k
        simp [QMap.insert, h2k, h1k, h12, h21, hne]
      · by_cases e2k : k2 = k
        · subst e2k
          simp [QMap.insert, QString_less_irrefl, h12, h21, hne]
        · by_cases h1k : QString.less k1 k = true
          · simp [QMap.insert, h2k, e2k, h1k, h12, h21, hne]
          · by_cases e1k : k1 = k
            · subst e1k
              simp [QMap.insert, QString_less_irrefl, h21, hne, h2k, e2k]
            · simp only [QMap.insert, h2k, e2k, h1k, e1k, if_false, Bool.false_eq_true]
              rw [QMap_insert_comm_of_less k1 k2 v1 v2 h12 rest]

theorem QMap_insert_comm {β : Type} (k1 k2 : String) (v1 v2 : β) (hne : k1 ≠ k2)
    (m : List (String × β)) :
    QMap.insert k1 v1 (QMap.insert k2 v2 m) = QMap.insert k2 v2 (QMap.insert k1 v1 m) := by
  by_cases h12 : QString.less k1 k2 = true
  · exact QMap_insert_comm_of_less k1 k2 v1 v2 h12 m
  · by_cases h21 : QString.less k2 k1 = true
    · exact (QMap_insert_comm_of_less k2 k1 v2 v1 h21 m).symm
    · exact absurd (QString_less_connex k1 k2 (by simpa using h12) (by simpa using h21)) hne

theorem QMap_ofEntries_perm {β : Type} (l1 l2 : List (String × β)) (hperm : l1.Perm l2)
    (hnodup : (l1.map Prod.fst).Nodup) : QMap.ofEntries l1 = QMap.ofEntries l2 := by
  unfold QMap.ofEntries
  refine List.Perm.foldl_eq' hperm ?_ []
  intro x hx y hy m
  by_cases hk : x.1 = y.1
  · have hxy : x = y := by
      have hinj := List.inj_on_of_nodup_map hnodup
      exact hinj hx hy hk
    rw [hxy]
  · exact QMap_insert_comm y.1 x.1 y.2 x.2 (Ne.symm hk) m

/-! ### Loading a settings tree from reordered presentations -/

theorem QVariant_loadEntries_eq_map (m : List (String × QVariant)) :
    QVariant.loadEntries m = m.map (fun e => (e.1, QVariant.load e.2)) := by
  induction m with
  | nil => rfl
  | cons e rest ih =>
    obtain ⟨k, v⟩ := e
    simp [QVariant.loadEntries, ih]

theorem QVariant_loadEntries_keys (m : List (String × QVariant)) :
    (QVariant.loadEntries m).map Prod.fst = m.map Prod.fst := by
  rw [QVariant_loadEntries_eq_map]
  simp [Function.comp_def]

mutual
theorem QVariant_load_reordered : ∀ (a b : QVariant), QVariant.reordered a b →
    QVariant.distinctKeys a → QVariant.load a = QVariant.load b
  | .map m, b, h, hd => by
      obtain ⟨m1, m2, hm1, hperm, rfl⟩ := h
      have hkeys : (m.map Prod.fst).Nodup := hd.1
      have he : QVariant.loadEntries m = QVariant.loadEntries m1 :=
        QVariant_loadEntries_reordered m m1 hm1 hd.2
      have hp : (QVariant.loadEntries m1).Perm (QVariant.loadEntries m2) := by
        rw [QVariant_loadEntries_eq_map, QVariant_loadEntries_eq_map]
        exact hperm.map _
      have hnd : ((QVariant.loadEntries m1).map Prod.fst).Nodup := by
        rw [← he, QVariant_loadEntries_keys]
        exact hkeys
      simp only [QVariant.load]
      rw [he, QMap_ofEntries_perm _ _ hp hnd]
  | .list l, b, h, hd => by
      obtain ⟨l1, hl1, rfl⟩ := h
      simp only [QVariant.load]
      rw [QVariant_loadList_reordered l l1 hl1 hd]
  | .bool _, b, h, _ => by cases h; rfl
  | .int _, b, h, _ => by cases h; rfl
  | .double _, b, h, _ => by cases h; rfl
  | .string _, b, h, _ => by cases h; rfl
  | .byteArray _, b, h, _ => by cases h; rfl
  | .dateTime _, b, h, _ => by cases h; rfl
  | .other _, b, h, _ => by cases h; rfl
theorem QVariant_loadEntries_reordered : ∀ (m m1 : List (String × QVariant)),
    QVariant.reorderedEntries m m1 → QVariant.distinctKeysEntries m →
    QVariant.loadEntries m = QVariant.loadEntries m1
  | [], m1, h, _ => by cases h; rfl
  | (k, v) :: rest, m1, h, hd => by
      obtain ⟨v1, rest1, hv, hrest, rfl⟩ := h
      simp only [QVariant.loadEntries]
      rw [QVariant_load_reordered v v1 hv hd.1,
        QVariant_loadEntries_reordered rest rest1 hrest hd.2]
theorem QVariant_loadList_reordered : ∀ (l l1 : List QVariant),
    QVariant.reorderedList l l1 → QVariant.distinctKeysList l →
    QVariant.loadList l = QVariant.loadList l1
  | [], l1, h, _ => by cases h; rfl
  | v :: rest, l1, h, hd => by
      obtain ⟨v1, rest1, hv, hrest, rfl⟩ := h
      simp only [QVariant.loadList]
      rw [QVariant_load_reordered v v1 hv hd.1,
        QVariant_loadList_reordered rest rest1 hrest hd.2]
end

/-- C4: two presentations of the same settings, differing in the order in which the
keys of any mapping (nested ones included) are listed, load into the same
`QVariantMap`; hence `settingsToSebJson` yields the same text and `computeRawKey`
the same Config Key for both. -/
theorem C4_config_key_independent_of_key_order (sort : List String → List String)
    (configData : QByteArray) (presented presentedAgain : List (String × QVariant))
    (hreordered : QVariant.reordered (.map presented) (.map presentedAgain))
    (hdistinct : QVariant.distinctKeys (.map presented)) :
    ConfigKeyGenerator.settingsToSebJson sort (QVariantMap.load presented)
      = ConfigKeyGenerator.settingsToSebJson sort (QVariantMap.load presentedAgain) ∧
    ConfigKeyGenerator.computeRawKey sort ⟨configData, QVariantMap.load presented⟩
      = ConfigKeyGenerator.computeRawKey sort ⟨configData, QVariantMap.load presentedAgain⟩ := by
  have h := QVariant_load_reordered _ _ hreordered hdistinct
  simp only [QVariant.load, QVariant.map.injEq] at h
  have hload : QVariantMap.load presented = QVariantMap.load presentedAgain := h
  rw [hload]
  exact ⟨rfl, rfl⟩

/-- C4 at work: a mapping with a nested mapping, both listed in two different
orders; the text produced is the same, with sorted keys. -/
theorem C4_config_key_independent_of_key_order_witness :
    ConfigKeyGenerator.settingsToSebJson insertionSortKeys
        (QVariantMap.load
          [("startURL", .string "https://exam.example.org"),
           ("browser", .map [("Zoom", .int 1), ("allowQuit", .bool true)])])
      = "\x7b\"browser\":\x7b\"allowQuit\":true,\"Zoom\":1\x7d,\"startURL\":\"https://exam.example.org\"\x7d" ∧
    ConfigKeyGenerator.settingsToSebJson insertionSortKeys
        (QVariantMap.load
          [("startURL", .string "https://exam.example.org"),
           ("browser", .map [("Zoom", .int 1), ("allowQuit", .bool true)])])
      = ConfigKeyGenerator.settingsToSebJson insertionSortKeys
        (QVariantMap.load
          [("browser", .map [("allowQuit", .bool true), ("Zoom", .int 1)]),
           ("startURL", .string "https://exam.example.org")]) :=
  ⟨by decide,
   (C4_config_key_independent_of_key_order insertionSortKeys []
      [("startURL", .string "https://exam.example.org"),
       ("browser", .map [("Zoom", .int 1), ("allowQuit", .bool true)])]
      [("browser", .map [("allowQuit", .bool true), ("Zoom", .int 1)]),
       ("startURL", .string "https://exam.example.org")]
      ⟨[("startURL", .string "https://exam.example.org"),
          ("browser", .map [("allowQuit", .bool true), ("Zoom", .int 1)])],
        _,
        ⟨_, _, rfl,
          ⟨_, _, ⟨[("Zoom", .int 1), ("allowQuit", .bool true)], _,
              ⟨_, _, rfl, ⟨_, _, rfl, rfl, rfl⟩, rfl⟩, List.Perm.swap _ _ _, rfl⟩, rfl, rfl⟩,
          rfl⟩,
        List.Perm.swap _ _ _, rfl⟩
      ⟨by decide, trivial, ⟨by decide, trivial, trivial, trivial⟩, trivial⟩).1⟩

/-! ### The originatorVersion entry -/

theorem QMap_remove_insert_same {β : Type} (key : String) (value : β) :
    ∀ m : List (String × β), QMap.remove key (QMap.insert key value m) = QMap.remove key m
  | [] => by simp [QMap.remove, QMap.insert]
  | (k, v) :: rest => by
      by_cases h1 : QString.less key k = true
      · simp [QMap.remove, QMap.insert, h1]
      · by_cases h2 : key = k
        · subst h2
          simp [QMap.remove, QMap.insert, h1]
        · have h3 : k ≠ key := Ne.symm h2
          have ih := QMap_remove_insert_same key value rest
          simp only [QMap.remove] at ih
          have h1' : QString.less key k = false := by simpa using h1
          simp only [QMap.remove, QMap.insert, h1', h2, if_false, Bool.false_eq_true]
          simp only [List.filter_cons, ih]

theorem QMap_insert_ne_nil {β : Type} (key : String) (value : β) (m : List (String × β)) :
    QMap.insert key value m ≠ [] := by
  cases m with
  | nil => simp [QMap.insert]
  | cons e rest =>
    obtain ⟨k, v⟩ := e
    simp only [QMap.insert]
    split_ifs <;> simp

theorem QMap_remove_remove {β : Type} (key : String) (m : List (String × β)) :
    QMap.remove key (QMap.remove key m) = QMap.remove key m := by
  simp [QMap.remove, List.filter_filter]

theorem QMap_remove_of_absent {β : Type} (key : String) (m : List (String × β))
    (h : key ∉ QMap.keys m) : QMap.remove key m = m := by
  unfold QMap.remove
  rw [List.filter_eq_self]
  intro e he
  have : e.1 ≠ key := by
    intro hk
    exact h (by rw [← hk]; exact List.mem_map_of_mem _ he)
  simpa using this

theorem computeRawKey_of_nonempty (sort : List String → List String) (configData : QByteArray)
    (settings : QVariantMap) (h : settings ≠ []) :
    ConfigKeyGenerator.computeRawKey sort ⟨configData, settings⟩
      = sha256 (QString.toUtf8 (ConfigKeyGenerator.settingsToSebJson sort
          (QMap.remove "originatorVersion" settings))) := by
  cases settings with
  | nil => exact absurd rfl h
  | cons e rest => simp [ConfigKeyGenerator.computeRawKey]

/-- C5 fails for the empty mapping: with no settings the Config Key is the digest of
the raw configuration data, while the mapping holding only `originatorVersion` is
not empty and gives the digest of the text `{}`. -/
theorem C5_empty_mapping_counterexample :
    ConfigKeyGenerator.computeRawKey insertionSortKeys
        ⟨[], QMap.insert "originatorVersion" (.string "3.5.0") []⟩
      ≠ ConfigKeyGenerator.computeRawKey insertionSortKeys
        ⟨[], QMap.remove "originatorVersion" []⟩ := by
  decide

/-- C5, amended: when the mapping has an entry other than `originatorVersion`, the
Config Key with `originatorVersion = v` added equals the Config Key with that key
absent; and removing the key from a mapping that does not hold it changes
nothing. -/
theorem C5_originatorVersion_ignored (sort : List String → List String)
    (configData : QByteArray) (M : QVariantMap) (v : QVariant)
    (hother : QMap.remove "originatorVersion" M ≠ []) :
    ConfigKeyGenerator.computeRawKey sort ⟨configData, QMap.insert "originatorVersion" v M⟩
      = ConfigKeyGenerator.computeRawKey sort ⟨configData, QMap.remove "originatorVersion" M⟩ ∧
    ("originatorVersion" ∉ QMap.keys M →
      ConfigKeyGenerator.computeRawKey sort ⟨configData, QMap.remove "originatorVersion" M⟩
        = ConfigKeyGenerator.computeRawKey sort ⟨configData, M⟩) := by
  constructor
  · rw [computeRawKey_of_nonempty sort configData _ (QMap_insert_ne_nil _ _ _),
      computeRawKey_of_nonempty sort configData _ hother,
      QMap_remove_insert_same, QMap_remove_remove]
  · intro habsent
    rw [QMap_remove_of_absent _ _ habsent]

/-- C5 amended, at work on a mapping with one other entry. -/
theorem C5_originatorVersion_ignored_witness :
    ConfigKeyGenerator.computeRawKey insertionSortKeys
        ⟨[], QMap.insert "originatorVersion" (.string "3.5.0") [("startURL", .string "https://x.org")]⟩
      = ConfigKeyGenerator.computeRawKey insertionSortKeys
        ⟨[], QMap.remove "originatorVersion" [("startURL", .string "https://x.org")]⟩ :=
  (C5_originatorVersion_ignored insertionSortKeys [] [("startURL", .string "https://x.org")]
    (.string "3.5.0") (by simp [QMap.remove])).1

/-! ### RNCryptor: the authentication tag -/

theorem take_drop_congr {l l' : QByteArray} {k : Nat} (h : l'.take k = l.take k)
    (a b : Nat) (hab : a + b ≤ k) : (l'.drop a).take b = (l.drop a).take b := by
  have e : ∀ m : QByteArray, (m.drop a).take b = ((m.take k).drop a).take b := by
    intro m
    rw [List.drop_take, List.take_take]
    congr 1
    omega
  rw [e l', e l, h]

theorem getD_congr {l l' : QByteArray} {k : Nat} (h : l'.take k = l.take k)
    (i : Nat) (hi : i < k) : l'.getD i 0 = l.getD i 0 := by
  rw [List.getD_eq_getElem?_getD, List.getD_eq_getElem?_getD,
    ← List.getElem?_take_of_lt hi (l := l'), h, List.getElem?_take_of_lt hi]

theorem toInt32_of_small (n : Int) (h0 : 0 ≤ n) (h1 : n < 2 ^ 31) : toInt32 n = n := by
  unfold toInt32
  omega

open SEBConfigParser in
/-- C8: if `decryptRNCryptorV3` decrypts a payload `x` (shorter than 2^31 octets, the
range in which the code computes lengths), then for every payload of the same length
that agrees with `x` on all but the last 32 octets and is not `x`, it stops at the
HMAC verification and returns the empty array. -/
theorem C8_tampered_tag_fails_authentication (ssl : OpenSSL) (x x' : QByteArray)
    (pw : String) (plaintext : QByteArray)
    (hsize : x.length < 2 ^ 31)
    (hok : decryptRNCryptorV3Outcome ssl x pw = RNCryptorOutcome.decrypted plaintext)
    (hlen : x'.length = x.length)
    (hbody : x'.take (x.length - 32) = x.take (x.length - 32))
    (hdiff : x' ≠ x) :
    decryptRNCryptorV3Outcome ssl x' pw = RNCryptorOutcome.hmacVerificationFailed ∧
    decryptRNCryptorV3 ssl x' pw = [] := by
  have hmin : ¬ x.length < kMinSize := by
    intro h
    simp [decryptRNCryptorV3Outcome, h] at hok
  have h66 : 66 ≤ x.length := by
    simp only [kMinSize, kHeaderSize, kSaltSize, kIVSize, kHMACSize] at hmin
    omega
  have hv : x'.getD 0 0 = x.getD 0 0 := getD_congr hbody 0 (by omega)
  have ho : x'.getD 1 0 = x.getD 1 0 := getD_congr hbody 1 (by omega)
  have hes : (x'.drop kHeaderSize).take kSaltSize = (x.drop kHeaderSize).take kSaltSize :=
    take_drop_congr hbody 2 8 (by omega)
  have hhs : (x'.drop (kHeaderSize + kSaltSize)).take kSaltSize
      = (x.drop (kHeaderSize + kSaltSize)).take kSaltSize :=
    take_drop_congr hbody 10 8 (by omega)
  have hiv : (x'.drop (kHeaderSize + kSaltSize + kSaltSize)).take kIVSize
      = (x.drop (kHeaderSize + kSaltSize + kSaltSize)).take kIVSize :=
    take_drop_congr hbody 18 16 (by omega)
  have hct : (x'.drop (kHeaderSize + kSaltSize + kSaltSize + kIVSize)).take (x.length - 66)
      = (x.drop (kHeaderSize + kSaltSize + kSaltSize + kIVSize)).take (x.length - 66) :=
    take_drop_congr hbody 34 (x.length - 66) (by omega)
  have hauth : x'.take (x.length - kHMACSize) = x.take (x.length - kHMACSize) := hbody
  have hci : toInt32 ((x.length : Int) -
      ((kHeaderSize + kSaltSize + kSaltSize + kIVSize : Nat) : Int) - ((kHMACSize : Nat) : Int))
      = ((x.length - 66 : Nat) : Int) := by
    simp only [kHeaderSize, kSaltSize, kIVSize, kHMACSize]
    rw [toInt32_of_small _ (by omega) (by omega)]
    omega
  have hpos : kHeaderSize + kSaltSize + kSaltSize + kIVSize + (x.length - 66)
      = x.length - 32 := by
    simp only [kHeaderSize, kSaltSize, kIVSize]
    omega
  have htag : memcmpDiffers (x.drop (x.length - 32)) (x'.drop (x.length - 32)) kHMACSize
      = true := by
    have hne : (x.drop (x.length - 32)).take 32 ≠ (x'.drop (x.length - 32)).take 32 := by
      intro h
      apply hdiff
      have hx' : (x'.drop (x.length - 32)).take 32 = x'.drop (x.length - 32) := by
        apply List.take_of_length_le
        rw [List.length_drop]
        omega
      have hx : (x.drop (x.length - 32)).take 32 = x.drop (x.length - 32) := by
        apply List.take_of_length_le
        rw [List.length_drop]
        omega
      rw [hx, hx'] at h
      calc x' = x'.take (x.length - 32) ++ x'.drop (x.length - 32) :=
            (List.take_append_drop _ x').symm
        _ = x.take (x.length - 32) ++ x.drop (x.length - 32) := by rw [hbody, h]
        _ = x := List.take_append_drop _ x
    simpa [memcmpDiffers, kHMACSize] using hne
  have houtcome : decryptRNCryptorV3Outcome ssl x' pw
      = RNCryptorOutcome.hmacVerificationFailed := by
    simp only [decryptRNCryptorV3Outcome] at hok ⊢
    simp only [hlen, hv, ho, hes, hhs, hiv, hci, Int.toNat_ofNat, hct, hauth, hpos]
    simp only [hci, Int.toNat_ofNat, hpos] at hok
    split at hok
    · cases hok
    rename_i c1
    rw [if_neg c1]
    split at hok
    · cases hok
    rename_i c2
    rw [if_neg c2]
    split at hok
    · cases hok
    rename_i c3
    rw [if_neg c3]
    split at hok
    · cases hok
    rename_i c4
    rw [if_neg c4]
    split at hok
    · cases hok
    rename_i encKey hencKey
    split at hok
    · cases hok
    rename_i hmacKey hhmacKey
    split at hok
    · cases hok
    rename_i c5
    have hsame : (hmacSha256 hmacKey (x.take (x.length - kHMACSize))).take kHMACSize
        = (x.drop (x.length - 32)).take kHMACSize := by
      simpa [memcmpDiffers] using c5
    have hdiffers : memcmpDiffers (hmacSha256 hmacKey (x.take (x.length - kHMACSize)))
        (x'.drop (x.length - 32)) kHMACSize = true := by
      unfold memcmpDiffers at htag ⊢
      rw [hsame]
      exact htag
    rw [if_pos hdiffers]
  exact ⟨houtcome, by simp only [decryptRNCryptorV3, houtcome]⟩

set_option maxRecDepth 100000 in
/-- C8 at work, with the stand-in primitives: the sample payload decrypts, and with
the last octet of its tag changed it fails the HMAC verification. -/
theorem C8_tampered_tag_fails_authentication_witness :
    SEBConfigParser.decryptRNCryptorV3Outcome OpenSSL.standIn rnCryptorSample "pw"
      = RNCryptorOutcome.decrypted
          [104, 101, 108, 108, 111, 32, 119, 111, 114, 108, 100, 5, 5, 5, 5, 5] ∧
    SEBConfigParser.decryptRNCryptorV3Outcome OpenSSL.standIn rnCryptorSampleTampered "pw"
      = RNCryptorOutcome.hmacVerificationFailed ∧
    SEBConfigParser.decryptRNCryptorV3 OpenSSL.standIn rnCryptorSampleTampered "pw" = [] :=
  have hok : SEBConfigParser.decryptRNCryptorV3Outcome OpenSSL.standIn rnCryptorSample "pw"
      = RNCryptorOutcome.decrypted
          [104, 101, 108, 108, 111, 32, 119, 111, 114, 108, 100, 5, 5, 5, 5, 5] := by decide
  ⟨hok, C8_tampered_tag_fails_authentication OpenSSL.standIn rnCryptorSample
    rnCryptorSampleTampered "pw" _ (by decide) hok (by decide) (by decide) (by decide)⟩

/-! ### Process guard -/

theorem ProcessGuard_isBlocked_pid {σ : Type} (sys : Posix σ)
    (pcre : QRegularExpression → String → Bool) (g : ProcessGuard) (proc : ProcessInfo)
    (h : g.isBlocked sys pcre proc = true) : proc.pid ≠ sys.getpid := by
  intro hpid
  simp [ProcessGuard.isBlocked, hpid] at h

/-- C9: no entry of the result of `scanForBlockedProcesses` has the guard's own pid,
whatever the blocklist, the allowlist and the running processes are. -/
theorem C9_scan_never_reports_own_pid {σ : Type} (sys : Posix σ)
    (pcre : QRegularExpression → String → Bool) (g : ProcessGuard) (os : σ)
    (proc : ProcessInfo) (hreported : proc ∈ g.scanForBlockedProcesses sys pcre os) :
    proc.pid ≠ sys.getpid := by
  unfold ProcessGuard.scanForBlockedProcesses at hreported
  exact ProcessGuard_isBlocked_pid sys pcre g proc (List.mem_filter.mp hreported).2

/-- C9 at work: the blocklist names the guard's own process and a pattern matches
its command line, yet the scan reports the screen recorder only. -/
theorem C9_scan_never_reports_own_pid_witness :
    ProcessGuard.sample.scanForBlockedProcesses Posix.sample QRegularExpression.hasMatch ()
      = [{ pid := 77, name := "obs", cmdline := "obs --startrecording",
           exe := "/usr/bin/obs", uid := 1000 }] ∧
    (77 : Int) ≠ Posix.sample.getpid :=
  ⟨by decide,
   C9_scan_never_reports_own_pid Posix.sample QRegularExpression.hasMatch ProcessGuard.sample ()
     { pid := 77, name := "obs", cmdline := "obs --startrecording",
       exe := "/usr/bin/obs", uid := 1000 } (by decide)⟩

theorem ProcessGuard_callKill_log {σ : Type} (sys : Posix σ) (w : World σ) (pid sig : Int) :
    (ProcessGuard.callKill sys w pid sig).2.log = w.log ++ [GuardEvent.killCalled pid sig] :=
  rfl

/-- Every event `killProcess pid` adds to the log is a `kill` call on `pid`. -/
theorem ProcessGuard_killProcess_log {σ : Type} (sys : Posix σ) (w : World σ) (pid : Int)
    (e : GuardEvent) (he : e ∈ (ProcessGuard.killProcess sys w pid).2.log) :
    e ∈ w.log ∨ ∃ sig, e = GuardEvent.killCalled pid sig := by
  simp only [ProcessGuard.killProcess] at he
  split at he
  · exact Or.inl he
  · split at he
    · split at he
      · simp only [ProcessGuard_callKill_log, List.mem_append, List.mem_singleton] at he
        rcases he with ((he | he) | he) | he
        · exact Or.inl he
        · exact Or.inr ⟨_, he⟩
        · exact Or.inr ⟨_, he⟩
        · exact Or.inr ⟨_, he⟩
      · simp only [ProcessGuard_callKill_log, List.mem_append, List.mem_singleton] at he
        rcases he with (he | he) | he
        · exact Or.inl he
        · exact Or.inr ⟨_, he⟩
        · exact Or.inr ⟨_, he⟩
    · simp only [ProcessGuard_callKill_log, List.mem_append, List.mem_singleton] at he
      rcases he with he | he
      · exact Or.inl he
      · exact Or.inr ⟨_, he⟩

/-- One step of `performScan` adds no `kill` call on the guard's own pid. -/
theorem ProcessGuard_performScanStep_log {σ : Type} (sys : Posix σ)
    (pcre : QRegularExpression → String → Bool) (g : ProcessGuard) (w : World σ)
    (proc : ProcessInfo) (sig : Int)
    (hclean : GuardEvent.killCalled sys.getpid sig ∉ w.log) :
    GuardEvent.killCalled sys.getpid sig ∉
      (ProcessGuard.performScanStep sys pcre g w proc).log := by
  simp only [ProcessGuard.performScanStep]
  split
  · rename_i hblocked
    have hpid : proc.pid ≠ sys.getpid := ProcessGuard_isBlocked_pid sys pcre g proc hblocked
    have hkill : GuardEvent.killCalled sys.getpid sig ∉
        (ProcessGuard.killProcess sys
          { w with log := w.log ++ [GuardEvent.blockedProcessFound proc] } proc.pid).2.log := by
      intro hmem
      rcases ProcessGuard_killProcess_log sys _ proc.pid _ hmem with h | ⟨s, h⟩
      · simp only [List.mem_append, List.mem_singleton] at h
        rcases h with h | h
        · exact hclean h
        · cases h
      · injection h with h1 _
        exact hpid h1.symm
    split
    · intro hmem
      simp only [List.mem_append, List.mem_singleton] at hmem
      rcases hmem with h | h
      · exact hkill h
      · cases h
    · exact hkill
  · exact hclean

theorem ProcessGuard_foldl_performScanStep_log {σ : Type} (sys : Posix σ)
    (pcre : QRegularExpression → String → Bool) (g : ProcessGuard) (sig : Int) :
    ∀ (procs : List ProcessInfo) (w : World σ),
      GuardEvent.killCalled sys.getpid sig ∉ w.log →
      GuardEvent.killCalled sys.getpid sig ∉
        (procs.foldl (ProcessGuard.performScanStep sys pcre g) w).log
  | [], _, hclean => hclean
  | proc :: rest, w, hclean =>
      ProcessGuard_foldl_performScanStep_log sys pcre g sig rest _
        (ProcessGuard_performScanStep_log sys pcre g w proc sig hclean)

/-- C10 fails for `killProcess` called with the guard's own pid: the function
checks only that the pid is positive, and sends SIGTERM to the pid it is given. -/
theorem C10_killProcess_own_pid_counterexample :
    GuardEvent.killCalled Posix.sample.getpid SIGTERM ∈
      (ProcessGuard.killProcess Posix.sample { os := (), log := [] } Posix.sample.getpid).2.log := by
  decide

/-- C10, amended: `performScan` over any process table makes no `kill` call on the
guard's own pid, with any signal; and `killProcess pid` makes `kill` calls on `pid`
only, so none on the guard's own pid unless that is the pid it is called with. -/
theorem C10_own_pid_never_targeted_by_scan {σ : Type} (sys : Posix σ)
    (pcre : QRegularExpression → String → Bool) (g : ProcessGuard) (w : World σ) (sig : Int)
    (hclean : GuardEvent.killCalled sys.getpid sig ∉ w.log) :
    GuardEvent.killCalled sys.getpid sig ∉ (g.performScan sys pcre w).log ∧
    ∀ pid, pid ≠ sys.getpid →
      GuardEvent.killCalled sys.getpid sig ∉ (ProcessGuard.killProcess sys w pid).2.log := by
  constructor
  · exact ProcessGuard_foldl_performScanStep_log sys pcre g sig _ w hclean
  · intro pid hpid hmem
    rcases ProcessGuard_killProcess_log sys w pid _ hmem with h | ⟨s, h⟩
    · exact hclean h
    · injection h with h1 _
      exact hpid h1.symm

/-- C10 amended, at work: the scan of the sample system signals the screen recorder
and makes no `kill` call on the guard's own pid, although the blocklist names the
guard's process. -/
theorem C10_own_pid_never_targeted_by_scan_witness :
    (ProcessGuard.sample.performScan Posix.sample QRegularExpression.hasMatch
        { os := (), log := [] }).log
      = [GuardEvent.blockedProcessFound
           { pid := 77, name := "obs", cmdline := "obs --startrecording",
             exe := "/usr/bin/obs", uid := 1000 },
         GuardEvent.killCalled 77 SIGTERM,
         GuardEvent.killCalled 77 0,
         GuardEvent.killCalled 77 SIGKILL,
         GuardEvent.blockedProcessKilled
           { pid := 77, name := "obs", cmdline := "obs --startrecording",
             exe := "/usr/bin/obs", uid := 1000 }] ∧
    GuardEvent.killCalled Posix.sample.getpid SIGTERM ∉
      (ProcessGuard.sample.performScan Posix.sample QRegularExpression.hasMatch
        { os := (), log := [] }).log :=
  ⟨by decide,
   (C10_own_pid_never_targeted_by_scan Posix.sample QRegularExpression.hasMatch
      ProcessGuard.sample { os := (), log := [] } SIGTERM (by decide)).1⟩

/-! ### System integrity report -/

theorem SystemIntegrity_passed_iff (build : Build) (si : SystemIntegrity)
    (s : IntegritySurface) :
    (si.performFullCheck build s).passed = true ↔
      ((si.performFullCheck build s).vmDetected = false ∧
       (si.performFullCheck build s).debuggerDetected = false ∧
       (si.performFullCheck build s).binaryTampered = false ∧
       (si.performFullCheck build s).ldPreloadDetected = false) := by
  cases h1 : build.OPENLOCK_VM_DETECTION <;> cases h2 : si.m_vmDetectionEnabled <;>
  cases h3 : (VMDetector.detect s.vm).detected <;> cases h4 : si.m_debugDetectionEnabled <;>
  cases h5 : s.isBeingDebugged <;> cases h6 : s.verifyIntegrity <;>
  cases h7 : SystemIntegrity.checkLdPreload s <;> cases h8 : s.detectInjectedLibraries <;>
  simp [SystemIntegrity.performFullCheck, h1, h2, h3, h4, h5, h6, h7, h8]

/-- The check of `LD_PRELOAD` does not look at anything else of the surface. -/
theorem SystemIntegrity_checkLdPreload_with (vm : VMSurface) (dbg : Bool) (name : String)
    (ok : Bool) (libraries : List String) (s : IntegritySurface) :
    SystemIntegrity.checkLdPreload
      { vm := vm, isBeingDebugged := dbg, debuggerName := name, verifyIntegrity := ok,
        detectInjectedLibraries := libraries, LD_PRELOAD := s.LD_PRELOAD } =
      SystemIntegrity.checkLdPreload s := rfl

/-- C11: in the report of `performFullCheck`, `passed` is true exactly when none of
`vmDetected`, `debuggerDetected`, `binaryTampered` and `ldPreloadDetected` is set;
the suspicious libraries only fill `injectedLibraries` and add one warning: every
other field of the report, `passed` among them, is what it is without any such
library. -/
theorem C11_passed_iff_no_blocking_flag (build : Build) (si : SystemIntegrity)
    (s : IntegritySurface) (libraries : List String) :
    let report := si.performFullCheck build { s with detectInjectedLibraries := libraries }
    (report.passed = true ↔
      (report.vmDetected = false ∧ report.debuggerDetected = false ∧
       report.binaryTampered = false ∧ report.ldPreloadDetected = false)) ∧
    report =
      { si.performFullCheck build { s with detectInjectedLibraries := [] } with
        injectedLibraries := libraries
        warnings := if libraries.isEmpty then []
                    else ["Suspicious shared libraries detected"] } := by
  refine ⟨SystemIntegrity_passed_iff build si _, ?_⟩
  cases h1 : build.OPENLOCK_VM_DETECTION <;> cases h2 : si.m_vmDetectionEnabled <;>
  cases h3 : (VMDetector.detect s.vm).detected <;> cases h4 : si.m_debugDetectionEnabled <;>
  cases h5 : s.isBeingDebugged <;> cases h6 : s.verifyIntegrity <;>
  cases h7 : SystemIntegrity.checkLdPreload s <;> cases libraries <;>
  simp [SystemIntegrity.performFullCheck, SystemIntegrity_checkLdPreload_with, h1, h2, h3, h4,
    h5, h6, h7]

theorem SystemIntegrity_flag_of_not_passed (build : Build) (si : SystemIntegrity)
    (s : IntegritySurface) (h : (si.performFullCheck build s).passed = false) :
    1 ≤ (si.performFullCheck build s).vmDetected.toNat +
        (si.performFullCheck build s).debuggerDetected.toNat +
        (si.performFullCheck build s).binaryTampered.toNat +
        (si.performFullCheck build s).ldPreloadDetected.toNat := by
  have hiff := SystemIntegrity_passed_iff build si s
  revert h hiff
  generalize si.performFullCheck build s = report
  cases report.passed <;> cases report.vmDetected <;> cases report.debuggerDetected <;>
  cases report.binaryTampered <;> cases report.ldPreloadDetected <;> simp

/-! ### The lockdown engine -/

theorem LockdownEngine_foldl_record (f : ProcessInfo → EngineEvent) (blocked : List ProcessInfo)
    (e : LockdownEngine) :
    blocked.foldl (fun acc proc => acc.record (f proc)) e =
      { e with trace := e.trace ++ blocked.map f } := by
  induction blocked generalizing e with
  | nil => simp
  | cons proc rest ih =>
    rw [List.foldl_cons, ih]
    simp [LockdownEngine.record]

/-- `checkSystemIntegrity` returns the flag `passed` of the report and only adds to
the trace: one error for each blocking flag of a report that did not pass. -/
theorem LockdownEngine_checkSystemIntegrity_eq (e : LockdownEngine) (p : Platform) :
    e.checkSystemIntegrity p =
      ((e.m_integrity.performFullCheck p.build p.integrity).passed,
       { e with trace := e.trace ++
          (if (e.m_integrity.performFullCheck p.build p.integrity).passed then []
           else
            (if (e.m_integrity.performFullCheck p.build p.integrity).vmDetected then
              [EngineEvent.errorOccurred ("Virtual machine detected: " ++
                (e.m_integrity.performFullCheck p.build p.integrity).vmType ++
                ". Exams cannot be taken in a virtual machine.")] else []) ++
            (if (e.m_integrity.performFullCheck p.build p.integrity).debuggerDetected then
              [EngineEvent.errorOccurred ("Debugger detected: " ++
                (e.m_integrity.performFullCheck p.build p.integrity).debuggerType ++
                ". Please detach all debuggers.")] else []) ++
            (if (e.m_integrity.performFullCheck p.build p.integrity).binaryTampered then
              [EngineEvent.errorOccurred
                "Binary integrity check failed. The application may have been modified."]
             else []) ++
            (if (e.m_integrity.performFullCheck p.build p.integrity).ldPreloadDetected then
              [EngineEvent.errorOccurred
                "LD_PRELOAD detected. Library injection is not allowed."] else [])) }) := by
  simp only [LockdownEngine.checkSystemIntegrity]
  generalize e.m_integrity.performFullCheck p.build p.integrity = report
  cases h0 : report.passed <;> cases h1 : report.vmDetected <;>
  cases h2 : report.debuggerDetected <;> cases h3 : report.binaryTampered <;>
  cases h4 : report.ldPreloadDetected <;> simp [LockdownEngine.record]

/-- `performPreChecks` either stops at the integrity check, or at the blocked
processes of the scan, or passes; it only adds to the trace. -/
theorem LockdownEngine_performPreChecks_eq {σ : Type} (e : LockdownEngine) (sys : Posix σ)
    (pcre : QRegularExpression → String → Bool) (p : Platform) (os : σ) :
    e.performPreChecks sys pcre p os =
      if (e.checkSystemIntegrity p).1 = false then (false, (e.checkSystemIntegrity p).2)
      else if e.m_processGuard.scanForBlockedProcesses sys pcre os = [] then
        (true, (e.checkSystemIntegrity p).2)
      else
        (false, { (e.checkSystemIntegrity p).2 with
          trace := (e.checkSystemIntegrity p).2.trace ++
            (e.m_processGuard.scanForBlockedProcesses sys pcre os).map
              (fun proc => EngineEvent.blockedProcessDetected proc.name proc.pid) ++
            [EngineEvent.errorOccurred ("Found " ++
              QString.number (e.m_processGuard.scanForBlockedProcesses sys pcre os).length ++
              " blocked process(es). Please close them before starting the exam.")] }) := by
  have hguard : (e.checkSystemIntegrity p).2.m_processGuard = e.m_processGuard := by
    rw [LockdownEngine_checkSystemIntegrity_eq]
  simp only [LockdownEngine.performPreChecks, hguard, LockdownEngine_foldl_record]
  cases h1 : (e.checkSystemIntegrity p).1
  · simp
  · cases h2 : e.m_processGuard.scanForBlockedProcesses sys pcre os with
    | nil => simp
    | cons proc rest => simp [LockdownEngine.record]

theorem EngineEvent_errorMessages_append (a b : List EngineEvent) :
    EngineEvent.errorMessages (a ++ b) = EngineEvent.errorMessages a ++ EngineEvent.errorMessages b := by
  simp [EngineEvent.errorMessages]

theorem EngineEvent_engagedComponents_append (a b : List EngineEvent) :
    EngineEvent.engagedComponents (a ++ b) =
      EngineEvent.engagedComponents a ++ EngineEvent.engagedComponents b := by
  simp [EngineEvent.engagedComponents]

theorem EngineEvent_releasedComponents_append (a b : List EngineEvent) :
    EngineEvent.releasedComponents (a ++ b) =
      EngineEvent.releasedComponents a ++ EngineEvent.releasedComponents b := by
  simp [EngineEvent.releasedComponents]

theorem EngineEvent_stateChanges_append (a b : List EngineEvent) :
    EngineEvent.stateChanges (a ++ b) =
      EngineEvent.stateChanges a ++ EngineEvent.stateChanges b := by
  simp [EngineEvent.stateChanges]

theorem EngineEvent_engagedComponents_blocked (blocked : List ProcessInfo) :
    EngineEvent.engagedComponents
      (blocked.map (fun proc => EngineEvent.blockedProcessDetected proc.name proc.pid)) = [] := by
  induction blocked with
  | nil => rfl
  | cons proc rest _ => simp [EngineEvent.engagedComponents]

theorem EngineEvent_releasedComponents_blocked (blocked : List ProcessInfo) :
    EngineEvent.releasedComponents
      (blocked.map (fun proc => EngineEvent.blockedProcessDetected proc.name proc.pid)) = [] := by
  induction blocked with
  | nil => rfl
  | cons proc rest _ => simp [EngineEvent.releasedComponents]

theorem EngineEvent_stateChanges_blocked (blocked : List ProcessInfo) :
    EngineEvent.stateChanges
      (blocked.map (fun proc => EngineEvent.blockedProcessDetected proc.name proc.pid)) = [] := by
  induction blocked with
  | nil => rfl
  | cons proc rest _ => simp [EngineEvent.stateChanges]

theorem EngineEvent_errorMessages_blocked (blocked : List ProcessInfo) :
    EngineEvent.errorMessages
      (blocked.map (fun proc => EngineEvent.blockedProcessDetected proc.name proc.pid)) = [] := by
  induction blocked with
  | nil => rfl
  | cons proc rest _ => simp [EngineEvent.errorMessages]

/-- What `performPreChecks` does to the engine: it returns true exactly when the
report passes and the scan finds nothing, and it only adds events to the trace, none
of them a state change or a call of a sub-component; the number of errors among
them is the number of blocking flags of a report that did not pass, or one for the
blocked processes of a report that passed. -/
theorem LockdownEngine_performPreChecks_frame {σ : Type} (e : LockdownEngine) (sys : Posix σ)
    (pcre : QRegularExpression → String → Bool) (p : Platform) (os : σ) :
    (e.performPreChecks sys pcre p os).1 =
      ((e.m_integrity.performFullCheck p.build p.integrity).passed &&
        decide (e.m_processGuard.scanForBlockedProcesses sys pcre os = [])) ∧
    ∃ new, (e.performPreChecks sys pcre p os).2 = { e with trace := e.trace ++ new } ∧
      EngineEvent.engagedComponents new = [] ∧ EngineEvent.releasedComponents new = [] ∧
      EngineEvent.stateChanges new = [] ∧
      (EngineEvent.errorMessages new).length =
        if (e.m_integrity.performFullCheck p.build p.integrity).passed then
          (if e.m_processGuard.scanForBlockedProcesses sys pcre os = [] then 0 else 1)
        else
          (e.m_integrity.performFullCheck p.build p.integrity).vmDetected.toNat +
          (e.m_integrity.performFullCheck p.build p.integrity).debuggerDetected.toNat +
          (e.m_integrity.performFullCheck p.build p.integrity).binaryTampered.toNat +
          (e.m_integrity.performFullCheck p.build p.integrity).ldPreloadDetected.toNat := by
  simp only [LockdownEngine_performPreChecks_eq, LockdownEngine_checkSystemIntegrity_eq]
  generalize e.m_integrity.performFullCheck p.build p.integrity = report
  generalize e.m_processGuard.scanForBlockedProcesses sys pcre os = blocked
  cases hp : report.passed
  · simp only [if_true, Bool.false_and, true_and, Bool.false_eq_true, if_false]
    refine ⟨_, rfl, ?_⟩
    cases report.vmDetected <;> cases report.debuggerDetected <;>
    cases report.binaryTampered <;> cases report.ldPreloadDetected <;>
      exact ⟨rfl, rfl, rfl, rfl⟩
  · cases blocked with
    | nil =>
      simp only [Bool.true_eq_false, if_false, if_true, List.append_nil, decide_True,
        Bool.and_self, true_and]
      exact ⟨[], by simp, rfl, rfl, rfl, rfl⟩
    | cons proc rest =>
      simp only [Bool.true_eq_false, if_false, if_true, List.append_nil, reduceCtorEq,
        decide_False, Bool.and_false, true_and, List.append_assoc]
      refine ⟨_, rfl, ?_, ?_, ?_, ?_⟩
      · rw [EngineEvent_engagedComponents_append, EngineEvent_engagedComponents_blocked]; rfl
      · rw [EngineEvent_releasedComponents_append, EngineEvent_releasedComponents_blocked]; rfl
      · rw [EngineEvent_stateChanges_append, EngineEvent_stateChanges_blocked]; rfl
      · rw [EngineEvent_errorMessages_append, EngineEvent_errorMessages_blocked]; rfl

/-- What `engageLockdown` does to the engine, in full: the events `pre` are those of
the pre-checks. -/
theorem LockdownEngine_engageLockdown_frame {σ : Type} (e : LockdownEngine) (sys : Posix σ)
    (pcre : QRegularExpression → String → Bool) (p : Platform) (os : σ) :
    (e.engageLockdown sys pcre p os).1 =
      ((e.m_integrity.performFullCheck p.build p.integrity).passed &&
        decide (e.m_processGuard.scanForBlockedProcesses sys pcre os = [])) ∧
    ∃ pre, EngineEvent.engagedComponents pre = [] ∧ EngineEvent.releasedComponents pre = [] ∧
      EngineEvent.stateChanges pre = [] ∧
      ((EngineEvent.errorMessages pre).length =
        if (e.m_integrity.performFullCheck p.build p.integrity).passed then
          (if e.m_processGuard.scanForBlockedProcesses sys pcre os = [] then 0 else 1)
        else
          (e.m_integrity.performFullCheck p.build p.integrity).vmDetected.toNat +
          (e.m_integrity.performFullCheck p.build p.integrity).debuggerDetected.toNat +
          (e.m_integrity.performFullCheck p.build p.integrity).binaryTampered.toNat +
          (e.m_integrity.performFullCheck p.build p.integrity).ldPreloadDetected.toNat) ∧
      (e.engageLockdown sys pcre p os).2 =
        if (e.engageLockdown sys pcre p os).1 = true then
          { m_state := LockdownState.Locked
            m_config := e.m_config
            m_kiosk := (e.m_kiosk.engage p.platformKioskEngage).2
            m_processGuard := e.m_processGuard.startMonitoring.2
            m_inputLockdown :=
              (e.m_inputLockdown.engage p.build p.xOpenDisplay p.xGrabKeyboard p.cupsStop).2
            m_integrity := e.m_integrity
            trace := e.trace ++ [EngineEvent.stateChanged LockdownState.PreCheck] ++ pre ++
              [EngineEvent.engageCalled Component.kiosk,
               EngineEvent.engageCalled Component.processGuard,
               EngineEvent.engageCalled Component.inputLockdown,
               EngineEvent.stateChanged LockdownState.Locked, EngineEvent.lockdownEngaged] }
        else
          { e with
            m_state := LockdownState.Error
            trace := e.trace ++ [EngineEvent.stateChanged LockdownState.PreCheck] ++ pre ++
              [EngineEvent.errorOccurred "Pre-checks failed"] } := by
  obtain ⟨h1, pre, h2, h3, h4, h5, h6⟩ := LockdownEngine_performPreChecks_frame
    (({ e with m_state := LockdownState.PreCheck }).record
      (EngineEvent.stateChanged LockdownState.PreCheck)) sys pcre p os
  simp only [LockdownEngine.record] at h1 h2 h6
  have hfst : (e.engageLockdown sys pcre p os).1 =
      ((e.m_integrity.performFullCheck p.build p.integrity).passed &&
        decide (e.m_processGuard.scanForBlockedProcesses sys pcre os = [])) := by
    simp only [LockdownEngine.engageLockdown, LockdownEngine.record, h1]
    cases ((e.m_integrity.performFullCheck p.build p.integrity).passed &&
        decide (e.m_processGuard.scanForBlockedProcesses sys pcre os = [])) <;> simp
  refine ⟨hfst, pre, h3, h4, h5, h6, ?_⟩
  rw [hfst]
  simp only [LockdownEngine.engageLockdown, LockdownEngine.record, h1, h2]
  cases ((e.m_integrity.performFullCheck p.build p.integrity).passed &&
        decide (e.m_processGuard.scanForBlockedProcesses sys pcre os = []))
  · simp
  · simp [LockdownEngine.startKiosk, LockdownEngine.startProcessGuard,
      LockdownEngine.startInputLockdown, LockdownEngine.record]

/-- C12: `engageLockdown` returns true and ends in `Locked` exactly when the
integrity report passes and the pre-scan finds no blocked process, whatever the
platform makes the kiosk, the process guard and the input lockdown return; otherwise
it returns false, ends in `Error`, emits errors the last of which is
`Pre-checks failed`, leaves the three sub-components as they were and calls none of
their engage steps. -/
theorem C12_engage_outcome_decided_by_pre_checks {σ : Type} (e : LockdownEngine)
    (sys : Posix σ) (pcre : QRegularExpression → String → Bool) (p : Platform) (os : σ) :
    let report := e.m_integrity.performFullCheck p.build p.integrity
    let blocked := e.m_processGuard.scanForBlockedProcesses sys pcre os
    let r := e.engageLockdown sys pcre p os
    if report.passed = true ∧ blocked = [] then
      r.1 = true ∧ r.2.m_state = LockdownState.Locked
    else
      r.1 = false ∧ r.2.m_state = LockdownState.Error ∧
      (∃ earlier, EngineEvent.errorMessages r.2.trace =
        EngineEvent.errorMessages e.trace ++ earlier ++ ["Pre-checks failed"]) ∧
      r.2.m_kiosk = e.m_kiosk ∧ r.2.m_processGuard = e.m_processGuard ∧
      r.2.m_inputLockdown = e.m_inputLockdown ∧
      EngineEvent.engagedComponents r.2.trace = EngineEvent.engagedComponents e.trace := by
  obtain ⟨hfst, pre, h3, _, _, _, hsnd⟩ := LockdownEngine_engageLockdown_frame e sys pcre p os
  by_cases hok : (e.m_integrity.performFullCheck p.build p.integrity).passed = true ∧
      e.m_processGuard.scanForBlockedProcesses sys pcre os = []
  · have h1 : (e.engageLockdown sys pcre p os).1 = true := by
      rw [hfst]; simp [hok.1, hok.2]
    rw [h1] at hsnd
    simp only [if_pos hok]
    rw [hsnd]
    exact ⟨h1, rfl⟩
  · have h1 : (e.engageLockdown sys pcre p os).1 = false := by
      rw [hfst]
      simp only [Bool.and_eq_false_iff, decide_eq_false_iff_not]
      by_cases hp : (e.m_integrity.performFullCheck p.build p.integrity).passed = true
      · exact Or.inr (fun hb => hok ⟨hp, hb⟩)
      · exact Or.inl (by simpa using hp)
    rw [h1] at hsnd
    simp only [if_neg hok]
    rw [hsnd]
    refine ⟨h1, rfl, ⟨EngineEvent.errorMessages pre, ?_⟩, rfl, rfl, rfl, ?_⟩
    · simp only [Bool.false_eq_true, if_false, EngineEvent_errorMessages_append]
      simp [EngineEvent.errorMessages]
    · simp only [Bool.false_eq_true, if_false, EngineEvent_engagedComponents_append, h3]
      simp [EngineEvent.engagedComponents]

/-- What `releaseLockdown` does to the engine, in full. -/
theorem LockdownEngine_releaseLockdown_eq (e : LockdownEngine) (p : Platform)
    (exitPassword : String) :
    e.releaseLockdown p exitPassword =
      if QString.isEmpty e.m_config.m_examConfig.exitPassword = false ∧
          exitPassword ≠ e.m_config.m_examConfig.exitPassword then
        (false, { e with trace := e.trace ++ [EngineEvent.errorOccurred "Incorrect exit password"] })
      else
        (true,
          { m_state := LockdownState.Idle
            m_config := e.m_config
            m_kiosk := (e.m_kiosk.release p.platformKioskRelease).2
            m_processGuard := e.m_processGuard.stopMonitoring
            m_inputLockdown := e.m_inputLockdown.release.2
            m_integrity := e.m_integrity
            trace := e.trace ++
              [EngineEvent.stateChanged LockdownState.ShuttingDown,
               EngineEvent.releaseCalled Component.processGuard,
               EngineEvent.releaseCalled Component.inputLockdown,
               EngineEvent.releaseCalled Component.kiosk,
               EngineEvent.stateChanged LockdownState.Idle, EngineEvent.lockdownReleased] }) := by
  cases h1 : QString.isEmpty e.m_config.m_examConfig.exitPassword <;>
  by_cases h2 : exitPassword = e.m_config.m_examConfig.exitPassword <;>
  simp [LockdownEngine.releaseLockdown, LockdownEngine.record, h1, h2]

/-- C13: when the configured exit password is not empty and the secret differs
from it, `releaseLockdown` returns false, emits the error `Incorrect exit password`
and nothing else, and leaves the state and the three sub-components as they were;
otherwise it returns true, announces `ShuttingDown` and then `Idle`, and ends in
`Idle`. -/
theorem C13_release_requires_exit_password (e : LockdownEngine) (p : Platform)
    (exitPassword : String) :
    let r := e.releaseLockdown p exitPassword
    if QString.isEmpty e.m_config.m_examConfig.exitPassword = false ∧
        exitPassword ≠ e.m_config.m_examConfig.exitPassword then
      r.1 = false ∧
      r.2.trace = e.trace ++ [EngineEvent.errorOccurred "Incorrect exit password"] ∧
      r.2.m_state = e.m_state ∧ r.2.m_processGuard = e.m_processGuard ∧
      r.2.m_inputLockdown = e.m_inputLockdown ∧ r.2.m_kiosk = e.m_kiosk
    else
      r.1 = true ∧ r.2.m_state = LockdownState.Idle ∧
      EngineEvent.stateChanges r.2.trace =
        EngineEvent.stateChanges e.trace ++ [LockdownState.ShuttingDown, LockdownState.Idle] := by
  by_cases h : QString.isEmpty e.m_config.m_examConfig.exitPassword = false ∧
      exitPassword ≠ e.m_config.m_examConfig.exitPassword
  · dsimp only
    rw [if_pos h, LockdownEngine_releaseLockdown_eq, if_pos h]
    exact ⟨rfl, rfl, rfl, rfl, rfl, rfl⟩
  · dsimp only
    rw [if_neg h, LockdownEngine_releaseLockdown_eq, if_neg h]
    refine ⟨rfl, rfl, ?_⟩
    simp [EngineEvent.stateChanges, List.filterMap_append]

set_option maxRecDepth 100000 in
/-- C14, counterexample: on the sample workstation a successful engage calls the
kiosk, the process guard and the input lockdown in this order, and the successful
release after it calls the process guard, the input lockdown and the kiosk, which is
not the reverse of the engage order. -/
theorem C14_release_order_is_not_reverse_of_engage_order :
    EngineEvent.engagedComponents
      ((LockdownEngine.sample.engageLockdown Posix.sampleQuiet QRegularExpression.hasMatch
          Platform.sample ()).2.releaseLockdown Platform.sample "").2.trace =
      [Component.kiosk, Component.processGuard, Component.inputLockdown] ∧
    EngineEvent.releasedComponents
      ((LockdownEngine.sample.engageLockdown Posix.sampleQuiet QRegularExpression.hasMatch
          Platform.sample ()).2.releaseLockdown Platform.sample "").2.trace =
      [Component.processGuard, Component.inputLockdown, Component.kiosk] ∧
    [Component.processGuard, Component.inputLockdown, Component.kiosk] ≠
      [Component.kiosk, Component.processGuard, Component.inputLockdown].reverse := by
  decide

/-- C14, amended: a successful `engageLockdown` calls the kiosk, then the process
guard, then the input lockdown; a successful `releaseLockdown` calls the process
guard, then the input lockdown, then the kiosk. -/
theorem C14_release_order_guard_input_kiosk {σ : Type} (e : LockdownEngine) (sys : Posix σ)
    (pcre : QRegularExpression → String → Bool) (p : Platform) (os : σ) (exitPassword : String)
    (hEngaged : (e.engageLockdown sys pcre p os).1 = true)
    (hReleased : (e.releaseLockdown p exitPassword).1 = true) :
    EngineEvent.engagedComponents (e.engageLockdown sys pcre p os).2.trace =
      EngineEvent.engagedComponents e.trace ++
        [Component.kiosk, Component.processGuard, Component.inputLockdown] ∧
    EngineEvent.releasedComponents (e.releaseLockdown p exitPassword).2.trace =
      EngineEvent.releasedComponents e.trace ++
        [Component.processGuard, Component.inputLockdown, Component.kiosk] := by
  constructor
  · obtain ⟨_, pre, h3, _, _, _, hsnd⟩ := LockdownEngine_engageLockdown_frame e sys pcre p os
    rw [hsnd, if_pos hEngaged]
    simp only [EngineEvent_engagedComponents_append, h3]
    simp [EngineEvent.engagedComponents]
  · rw [LockdownEngine_releaseLockdown_eq] at hReleased ⊢
    split_ifs at hReleased ⊢ with h
    simp [EngineEvent.releasedComponents, List.filterMap_append]

set_option maxRecDepth 100000 in
/-- C14, amended, on the sample workstation, where both calls succeed. -/
theorem C14_release_order_guard_input_kiosk_witness :
    EngineEvent.engagedComponents
      (LockdownEngine.sample.engageLockdown Posix.sampleQuiet QRegularExpression.hasMatch
        Platform.sample ()).2.trace =
      EngineEvent.engagedComponents LockdownEngine.sample.trace ++
        [Component.kiosk, Component.processGuard, Component.inputLockdown] ∧
    EngineEvent.releasedComponents (LockdownEngine.sample.releaseLockdown Platform.sample "").2.trace =
      EngineEvent.releasedComponents LockdownEngine.sample.trace ++
        [Component.processGuard, Component.inputLockdown, Component.kiosk] :=
  C14_release_order_guard_input_kiosk LockdownEngine.sample Posix.sampleQuiet
    QRegularExpression.hasMatch Platform.sample () "" (by decide) (by decide)

theorem LockdownEngine_init_state (e : LockdownEngine) (p : Platform) (configPath : String) :
    (e.init p configPath).2.m_state =
      if (e.init p configPath).1 = true then LockdownState.Idle else LockdownState.Error := by
  simp only [LockdownEngine.init, LockdownEngine.record]
  split_ifs <;> simp_all

/-- The state after one call: after a call that returns true it is `Locked` for
`engageLockdown` and `Idle` for the two others; after a call that returns false it
is `Error` for `initialize` and `engageLockdown` and the state before for
`releaseLockdown`. -/
theorem LockdownEngine_call_state {σ : Type} (sys : Posix σ)
    (pcre : QRegularExpression → String → Bool) (e : LockdownEngine)
    (c : EngineCall × Platform × σ) :
    (e.call sys pcre c).2.m_state =
      if (e.call sys pcre c).1 = true then
        (match c.1 with
         | EngineCall.engageLockdown => LockdownState.Locked
         | _ => LockdownState.Idle)
      else
        (match c.1 with
         | EngineCall.releaseLockdown _ => e.m_state
         | _ => LockdownState.Error) := by
  obtain ⟨call, platform, os⟩ := c
  cases call with
  | init configPath =>
    simp only [LockdownEngine.call]
    rw [LockdownEngine_init_state]
  | engageLockdown =>
    simp only [LockdownEngine.call]
    obtain ⟨_, pre, _, _, _, _, hsnd⟩ := LockdownEngine_engageLockdown_frame e sys pcre platform os
    rw [hsnd]
    split_ifs <;> rfl
  | releaseLockdown exitPassword =>
    simp only [LockdownEngine.call]
    rw [LockdownEngine_releaseLockdown_eq]
    split_ifs <;> simp_all

set_option maxRecDepth 100000 in
/-- C15, counterexample: the sample engine after a failed engage attempt is in
`Error`; one `releaseLockdown` (no exit password is configured) or one `initialize`
on the sample workstation takes it to `Idle`, and one `engageLockdown` there takes
it to `Locked`. -/
theorem C15_error_state_is_left_by_successful_calls :
    LockdownEngine.sampleFailed.m_state = LockdownState.Error ∧
    (LockdownEngine.sampleFailed.callAll Posix.sampleQuiet QRegularExpression.hasMatch
      [(EngineCall.releaseLockdown "", Platform.sample, ())]).2.m_state = LockdownState.Idle ∧
    (LockdownEngine.sampleFailed.callAll Posix.sampleQuiet QRegularExpression.hasMatch
      [(EngineCall.init "", Platform.sample, ())]).2.m_state = LockdownState.Idle ∧
    (LockdownEngine.sampleFailed.callAll Posix.sampleQuiet QRegularExpression.hasMatch
      [(EngineCall.engageLockdown, Platform.sample, ())]).2.m_state = LockdownState.Locked := by
  decide

/-- C15, amended: from `Error`, every sequence of `initialize`, `engageLockdown`
and `releaseLockdown` calls that all return false ends in `Error`; a call that
returns true goes to `Locked` (`engageLockdown`) or `Idle` (the two others). -/
theorem C15_error_persists_through_failed_calls {σ : Type} (sys : Posix σ)
    (pcre : QRegularExpression → String → Bool) (e : LockdownEngine)
    (calls : List (EngineCall × Platform × σ))
    (hError : e.m_state = LockdownState.Error)
    (hFailed : ∀ b ∈ (e.callAll sys pcre calls).1, b = false) :
    (e.callAll sys pcre calls).2.m_state = LockdownState.Error ∧
    ∀ c : EngineCall × Platform × σ, (e.call sys pcre c).1 = true →
      (e.call sys pcre c).2.m_state =
        (match c.1 with
         | EngineCall.engageLockdown => LockdownState.Locked
         | _ => LockdownState.Idle) := by
  constructor
  · induction calls generalizing e with
    | nil => exact hError
    | cons c rest ih =>
      simp only [LockdownEngine.callAll, List.mem_cons, forall_eq_or_imp] at hFailed ⊢
      apply ih _ _ hFailed.2
      rw [LockdownEngine_call_state, if_neg (by simp [hFailed.1])]
      cases c.1 <;> simp [hError]
  · intro c hc
    rw [LockdownEngine_call_state, if_pos hc]

set_option maxRecDepth 100000 in
/-- C15, amended, on an engine in `Error` with an exit password: a rejected release,
an engage attempt in a virtual machine and an `initialize` whose browser fails. -/
theorem C15_error_persists_through_failed_calls_witness :
    (LockdownEngine.callAll Posix.sampleQuiet QRegularExpression.hasMatch
      { LockdownEngine.sampleFailed with
        m_config := { m_examConfig := { exitPassword := "letmeout" } } }
      [(EngineCall.releaseLockdown "guess", Platform.sample, ()),
       (EngineCall.engageLockdown, Platform.sampleInVMUnderDebugger, ()),
       (EngineCall.init "exam.openlock", { Platform.sample with browserInit := false }, ())]).1 =
      [false, false, false] ∧
    (LockdownEngine.callAll Posix.sampleQuiet QRegularExpression.hasMatch
      { LockdownEngine.sampleFailed with
        m_config := { m_examConfig := { exitPassword := "letmeout" } } }
      [(EngineCall.releaseLockdown "guess", Platform.sample, ()),
       (EngineCall.engageLockdown, Platform.sampleInVMUnderDebugger, ()),
       (EngineCall.init "exam.openlock", { Platform.sample with browserInit := false }, ())]).2.m_state =
      LockdownState.Error :=
  ⟨by decide,
   (C15_error_persists_through_failed_calls Posix.sampleQuiet QRegularExpression.hasMatch
      { LockdownEngine.sampleFailed with
        m_config := { m_examConfig := { exitPassword := "letmeout" } } }
      [(EngineCall.releaseLockdown "guess", Platform.sample, ()),
       (EngineCall.engageLockdown, Platform.sampleInVMUnderDebugger, ()),
       (EngineCall.init "exam.openlock", { Platform.sample with browserInit := false }, ())]
      (by decide) (by decide)).1⟩

set_option maxRecDepth 100000 in
/-- C19, the failing input: `main` behaves the same with and without
`--no-vm-check`; started with the flag in a KVM guest, with a configuration whose
`detectVM` is false, it exits with 1 after the engage attempt failed on the error
`Virtual machine detected`. -/
theorem C19_no_vm_check_is_not_applied {σ : Type} (sys : Posix σ)
    (pcre : QRegularExpression → String → Bool) (p : Platform) (os : σ) (cmd : CommandLine)
    (execResult : Int) :
    main sys pcre p os { cmd with noVmCheck := true } execResult =
      main sys pcre p os { cmd with noVmCheck := false } execResult ∧
    (main Posix.sampleQuiet QRegularExpression.hasMatch Platform.sampleInVM ()
      { config := "exam.openlock", noVmCheck := true } 0).1 = 1 ∧
    (main Posix.sampleQuiet QRegularExpression.hasMatch Platform.sampleInVM ()
      { config := "exam.openlock", noVmCheck := true } 0).2.m_config.m_examConfig.detectVM = false ∧
    (main Posix.sampleQuiet QRegularExpression.hasMatch Platform.sampleInVM ()
      { config := "exam.openlock", noVmCheck := true } 0).2.m_state = LockdownState.Error ∧
    EngineEvent.errorMessages
      (main Posix.sampleQuiet QRegularExpression.hasMatch Platform.sampleInVM ()
        { config := "exam.openlock", noVmCheck := true } 0).2.trace =
      ["Virtual machine detected: kvm. Exams cannot be taken in a virtual machine.",
       "Pre-checks failed"] := by
  refine ⟨rfl, ?_, ?_, ?_, ?_⟩ <;> decide

set_option maxRecDepth 100000 in
/-- C20, counterexample: one engage attempt in a virtual machine under a debugger
emits three errors. -/
theorem C20_three_errors_in_one_engage_attempt :
    EngineEvent.errorMessages
      (LockdownEngine.sample.engageLockdown Posix.sampleQuiet QRegularExpression.hasMatch
        Platform.sampleInVMUnderDebugger ()).2.trace =
      ["Virtual machine detected: kvm. Exams cannot be taken in a virtual machine.",
       "Debugger detected: gdb. Please detach all debuggers.",
       "Pre-checks failed"] := by
  decide

/-- C20, amended: one engage attempt emits one error for each blocking flag of a
report that did not pass, or one for the blocked processes of the pre-scan, and
then `Pre-checks failed`; so a failed attempt emits at least two errors and a
successful one none. -/
theorem C20_one_error_per_finding_then_summary {σ : Type} (e : LockdownEngine)
    (sys : Posix σ) (pcre : QRegularExpression → String → Bool) (p : Platform) (os : σ) :
    let report := e.m_integrity.performFullCheck p.build p.integrity
    let blocked := e.m_processGuard.scanForBlockedProcesses sys pcre os
    let r := e.engageLockdown sys pcre p os
    (EngineEvent.errorMessages r.2.trace).length =
      (EngineEvent.errorMessages e.trace).length +
        (if report.passed = true then (if blocked = [] then 0 else 1 + 1)
         else report.vmDetected.toNat + report.debuggerDetected.toNat +
              report.binaryTampered.toNat + report.ldPreloadDetected.toNat + 1) ∧
    (r.1 = true ∨
      (EngineEvent.errorMessages e.trace).length + 2 ≤ (EngineEvent.errorMessages r.2.trace).length) := by
  obtain ⟨hfst, pre, _, _, _, hcount, hsnd⟩ := LockdownEngine_engageLockdown_frame e sys pcre p os
  have hflag := SystemIntegrity_flag_of_not_passed p.build e.m_integrity p.integrity
  have hPreCheck : EngineEvent.errorMessages [EngineEvent.stateChanged LockdownState.PreCheck] = [] :=
    rfl
  have hEngaged : EngineEvent.errorMessages
      [EngineEvent.engageCalled Component.kiosk, EngineEvent.engageCalled Component.processGuard,
       EngineEvent.engageCalled Component.inputLockdown,
       EngineEvent.stateChanged LockdownState.Locked, EngineEvent.lockdownEngaged] = [] := rfl
  have hFailed : EngineEvent.errorMessages [EngineEvent.errorOccurred "Pre-checks failed"] =
      ["Pre-checks failed"] := rfl
  dsimp only
  rw [hsnd, hfst]
  revert hcount hflag
  generalize e.m_integrity.performFullCheck p.build p.integrity = report
  generalize e.m_processGuard.scanForBlockedProcesses sys pcre os = blocked
  intro hcount hflag
  cases hp : report.passed
  · have hf := hflag hp
    simp only [hp, Bool.false_eq_true, if_false] at hcount
    simp only [Bool.false_and, Bool.false_eq_true, if_false, EngineEvent_errorMessages_append,
      hPreCheck, hFailed, List.length_append, List.length_nil, List.length_singleton, hcount]
    omega
  · cases blocked with
    | nil =>
      simp only [hp, if_true] at hcount
      simp only [Bool.true_and, decide_True, if_true, EngineEvent_errorMessages_append,
        hPreCheck, hEngaged, List.length_append, List.length_nil, hcount]
      simp
    | cons proc rest =>
      simp only [hp, if_true, reduceCtorEq, if_false] at hcount
      simp only [Bool.true_and, reduceCtorEq, decide_False, Bool.false_eq_true, if_false, if_true,
        EngineEvent_errorMessages_append, hPreCheck, hFailed, List.length_append, List.length_nil,
        List.length_singleton, hcount]
      exact ⟨trivial, Or.inr (by omega)⟩

/-! ### Shortcut blocker, built-in blocklist, VM query -/

theorem ShortcutBlocker_chain_step (c : Prop) [Decidable c] (n : String)
    (rest : Bool × List String) :
    (∃ name, (if c then (true, [n]) else rest) = (true, [name])) ↔
      c ∨ ∃ name, rest = (true, [name]) := by
  by_cases h : c
  · simp [h]
  · simp [h]

/-- C16: while the blocker is active, every `KeyPress` or `ShortcutOverride` event
that is one of the listed shortcuts is filtered out and exactly one name is emitted
with `blocked`; a blocker that is not active filters out no event and emits
nothing. -/
theorem C16_listed_shortcuts_suppressed (b : ShortcutBlocker) (event : QEvent)
    (hActive : b.m_active = true)
    (hType : event.type = QEventType.KeyPress ∨ event.type = QEventType.ShortcutOverride)
    (hListed : ShortcutBlocker.isListedShortcut event.modifiers event.key = true) :
    (∃ name, b.eventFilter event = (true, [name])) ∧
    ∀ (idle : ShortcutBlocker) (other : QEvent), idle.m_active = false →
      idle.eventFilter other = (false, []) := by
  constructor
  · simp only [ShortcutBlocker.isListedShortcut, Bool.or_eq_true, Bool.and_eq_true, beq_iff_eq,
      decide_eq_true_eq] at hListed
    unfold ShortcutBlocker.eventFilter
    rw [if_neg (by simp [hActive]), if_pos hType]
    generalize event.modifiers = mods at hListed ⊢
    generalize event.key = key at hListed ⊢
    generalize QString.number (key - Qt.Key_F1 + 1) = number
    simp only [ShortcutBlocker_chain_step, ge_iff_le]
    generalize Qt.testModifier mods Qt.AltModifier = alt at hListed ⊢
    generalize Qt.testModifier mods Qt.ControlModifier = ctrl at hListed ⊢
    generalize Qt.testModifier mods Qt.ShiftModifier = shift at hListed ⊢
    generalize Qt.Key_Tab = kTab, Qt.Key_F4 = kF4, Qt.Key_Super_L = kSuperL,
      Qt.Key_Super_R = kSuperR, Qt.Key_Meta = kMeta, Qt.Key_Print = kPrint,
      Qt.Key_SysReq = kSysReq, Qt.Key_Delete = kDelete, Qt.Key_F1 = kF1, Qt.Key_F12 = kF12,
      Qt.Key_Backspace = kBackspace, Qt.Key_I = kI, Qt.Key_J = kJ, Qt.Key_U = kU,
      Qt.Key_S = kS, Qt.Key_P = kP, Qt.Key_W = kW, Qt.Key_N = kN, Qt.Key_T = kT at hListed ⊢
    simp only [or_assoc] at hListed
    rcases hListed with h | h | h | h | h | h | h | h | h | h | h | h | h | h | h | h | h <;>
      simp [h]
  · intro idle other hidle
    unfold ShortcutBlocker.eventFilter
    rw [if_pos (by simp [hidle])]

/-- C16 on a key press of F4 with Ctrl and Alt held. -/
theorem C16_listed_shortcuts_suppressed_witness :
    ∃ name, ShortcutBlocker.eventFilter { m_active := true }
      { type := QEventType.KeyPress, modifiers := Qt.ControlModifier ||| Qt.AltModifier,
        key := Qt.Key_F4 } = (true, [name]) :=
  (C16_listed_shortcuts_suppressed { m_active := true }
    { type := QEventType.KeyPress, modifiers := Qt.ControlModifier ||| Qt.AltModifier,
      key := Qt.Key_F4 } rfl (Or.inl rfl) (by decide)).1

example : ShortcutBlocker.eventFilter { m_active := true }
      { type := QEventType.ShortcutOverride, modifiers := Qt.ControlModifier ||| Qt.AltModifier,
        key := Qt.Key_F1 + 6 } = (true, ["Ctrl+Alt+F7"]) := by decide

set_option maxRecDepth 100000 in
/-- C17, the failing input: `loadDefaults` stores `VBoxManage` as it is written in
the list of virtual machines, so after it `isBlocked` is false for that built-in
name in every letter case (the lookup lowercases the name it is given, with and
without a path of the executable), whatever the pattern matcher. -/
theorem C17_VBoxManage_not_blocked_after_loadDefaults (pcre : QRegularExpression → String → Bool) :
    "VBoxManage" ∈ ProcessBlocklist.defaultVirtualMachines ∧
    "VBoxManage" ∈ (ProcessBlocklist.loadDefaults {}).m_blockedNames ∧
    ProcessBlocklist.isBlocked pcre (ProcessBlocklist.loadDefaults {}) "VBoxManage" "" "" = false ∧
    ProcessBlocklist.isBlocked pcre (ProcessBlocklist.loadDefaults {}) "vboxmanage" "" "" = false ∧
    ProcessBlocklist.isBlocked pcre (ProcessBlocklist.loadDefaults {}) "VBOXMANAGE" ""
      "/usr/bin/VBoxManage" = false := by
  have hnames : (ProcessBlocklist.loadDefaults {}).m_patterns = [] := by decide
  refine ⟨by decide, by decide, ?_, ?_, ?_⟩ <;>
  · simp only [ProcessBlocklist.isBlocked, hnames, List.any_nil]
    decide

set_option maxRecDepth 100000 in
/-- C18, the failing input: when `systemd-detect-virt` has not finished within the
timeout and has written nothing, `checkSystemdDetectVirt` returns true, and
`detect` reports a virtual machine with an empty name and a score of 14 on a
machine on which the six other probes find nothing (with the query answering `none`
the same machine gives no detection). -/
theorem C18_timed_out_query_counts_as_positive :
    (VMDetector.checkSystemdDetectVirt VMSurface.sampleQueryTimedOut {}).1 = true ∧
    VMDetector.detect VMSurface.sampleQueryTimedOut =
      { detected := true, hypervisorName := "", confidenceScore := 14 } ∧
    VMDetector.detect VMSurface.sampleBareMetal =
      { detected := false, hypervisorName := "", confidenceScore := 0 } := by
  decide

theorem Config_readElementText_length : ∀ tokens : List XmlToken,
    (Config.readElementText tokens).2.1.length ≤ tokens.length
  | [] => by simp [Config.readElementText]
  | XmlToken.Characters _ :: rest => by
      have := Config_readElementText_length rest
      simp only [Config.readElementText, List.length_cons]
      omega
  | XmlToken.EntityReference _ :: rest => by
      have := Config_readElementText_length rest
      simp only [Config.readElementText, List.length_cons]
      omega
  | XmlToken.EndElement _ :: rest => by simp [Config.readElementText]
  | XmlToken.ProcessingInstruction :: rest => by
      have := Config_readElementText_length rest
      simp only [Config.readElementText, List.length_cons]
      omega
  | XmlToken.Comment :: rest => by
      have := Config_readElementText_length rest
      simp only [Config.readElementText, List.length_cons]
      omega
  | XmlToken.StartElement _ :: _ => by simp [Config.readElementText]
  | XmlToken.Other :: _ => by simp [Config.readElementText]

/-- The second loop of `parseSebConfig` never uses up a fuel of the number of tokens:
with any fuel that large the result is the same. -/
theorem Config_parseDict_fuel (qt : QtLibrary) : ∀ (fuel fuel2 : Nat) (tokens : List XmlToken)
    (currentKey : String) (cfg : ExamConfig), tokens.length ≤ fuel → tokens.length ≤ fuel2 →
    Config.parseDict qt fuel currentKey cfg tokens =
      Config.parseDict qt fuel2 currentKey cfg tokens := by
  intro fuel
  induction fuel with
  | zero =>
    intro fuel2 tokens currentKey cfg h1 _
    have ht : tokens = [] := List.eq_nil_of_length_eq_zero (by omega)
    subst ht
    cases fuel2 <;> simp [Config.parseDict]
  | succ n ih =>
    intro fuel2 tokens currentKey cfg h1 h2
    cases tokens with
    | nil => cases fuel2 <;> simp [Config.parseDict]
    | cons tok rest =>
      cases fuel2 with
      | zero => simp at h2
      | succ m =>
        simp only [List.length_cons] at h1 h2
        have hr := Config_readElementText_length rest
        cases tok with
        | StartElement name =>
          simp only [Config.parseDict]
          split_ifs <;> first
            | rfl
            | exact ih m _ _ _ (by omega) (by omega)
        | EndElement name => simp only [Config.parseDict]; exact ih m _ _ _ (by omega) (by omega)
        | Characters text => simp only [Config.parseDict]; exact ih m _ _ _ (by omega) (by omega)
        | EntityReference text =>
          simp only [Config.parseDict]; exact ih m _ _ _ (by omega) (by omega)
        | Comment => simp only [Config.parseDict]; exact ih m _ _ _ (by omega) (by omega)
        | ProcessingInstruction =>
          simp only [Config.parseDict]; exact ih m _ _ _ (by omega) (by omega)
        | Other => simp only [Config.parseDict]; exact ih m _ _ _ (by omega) (by omega)

/-! ### Loading a configuration -/

theorem Config_parsePlist_rawData (qt : QtLibrary) (c : Config) (xmlData : QByteArray) :
    (Config.parsePlist qt c xmlData).2.m_rawData = c.m_rawData := by
  simp only [Config.parsePlist]
  split_ifs <;> rfl

theorem Config_parseSebConfig_rawData (qt : QtLibrary) (c : Config) (data : QByteArray) :
    (Config.parseSebConfig qt c data).2.m_rawData = c.m_rawData := by
  simp only [Config.parseSebConfig]
  split_ifs <;> simp [Config_parsePlist_rawData]

set_option maxRecDepth 100000 in
/-- C21, the failing input: `loadFromSebData` and `loadFromFile` on a `.seb` path
store the octets they are given and nothing replaces them afterwards, so after the
successful load of a file with the `plnd` marker, in SEB mode, `rawConfigData()` is
the file as read, marker and compressed stream, and not the decompressed property
list that was parsed. -/
theorem C21_rawConfigData_keeps_compressed_octets (qt : QtLibrary) (c : Config)
    (data : QByteArray) (password : String) :
    (Config.loadFromSebData qt c data password).2.rawConfigData = data ∧
    (Config.loadFromSebData QtLibrary.sample {} samplePlndFile "").1 = true ∧
    (Config.loadFromSebData QtLibrary.sample {} samplePlndFile "").2.m_examConfig.sebMode = true ∧
    (Config.loadFromSebData QtLibrary.sample {} samplePlndFile "").2.m_examConfig.startUrl =
      { scheme := "https", host := "exam.example.org" } ∧
    QtLibrary.sample.qUncompress (samplePlndFile.drop 4) = samplePlist ∧
    (Config.loadFromSebData QtLibrary.sample {} samplePlndFile "").2.rawConfigData =
      samplePlndFile ∧
    (Config.loadFromFile QtLibrary.sample {} "exam.seb").1 = true ∧
    (Config.loadFromFile QtLibrary.sample {} "exam.seb").2.rawConfigData = samplePlndFile ∧
    samplePlndFile ≠ samplePlist := by
  refine ⟨?_, by decide, by decide, by decide, by decide, by decide, by decide, by decide,
    by decide⟩
  simp only [Config.loadFromSebData, Config.rawConfigData]
  split_ifs <;> simp [Config_parseSebConfig_rawData]

/-- C25: an octet sequence that begins with the four octets of `<?xm` comes back
from `decryptSebFile` as it is, whatever the password, the OpenSSL primitives and
`qUncompress` are: the first octet is not the gzip magic, and the marker is none of
`pswd`, `pwcc` and `plnd`. -/
theorem C25_plain_xml_returned_unchanged (ssl : OpenSSL) (qt : QtLibrary) (data : QByteArray)
    (password : String) (hStart : data.take 4 = QByteArray.fromLatin1 "<?xm") :
    SEBConfigParser.decryptSebFile ssl qt data password = data := by
  have hxm : QByteArray.fromLatin1 "<?xm" = [60, 63, 120, 109] := by decide
  rw [hxm] at hStart
  match data, hStart with
  | a :: b :: c :: d :: rest, h =>
    simp only [List.take_succ_cons, List.take_zero, List.cons.injEq, and_true] at h
    obtain ⟨rfl, rfl, rfl, rfl⟩ := h
    have h1 : SEBConfigParser.tryGzipDecompress qt (60 :: 63 :: 120 :: 109 :: rest) = [] := by
      simp [SEBConfigParser.tryGzipDecompress]
    have hpswd : QByteArray.fromLatin1 "pswd" = [112, 115, 119, 100] := by decide
    have hpwcc : QByteArray.fromLatin1 "pwcc" = [112, 119, 99, 99] := by decide
    have hplnd : QByteArray.fromLatin1 "plnd" = [112, 108, 110, 100] := by decide
    simp [SEBConfigParser.decryptSebFile, h1, hxm, hpswd, hpwcc, hplnd]

/-- C25 on the sample property list, with a password. -/
theorem C25_plain_xml_returned_unchanged_witness :
    SEBConfigParser.decryptSebFile OpenSSL.standIn QtLibrary.sample samplePlist "secret" =
      samplePlist :=
  C25_plain_xml_returned_unchanged OpenSSL.standIn QtLibrary.sample samplePlist "secret"
    (by decide)

/-- C30: `loadFromSebData` returns false for every data and every password that is
not empty, and `parseSebConfig` returns false for every data of more than four
octets that begins with `pswd` or `phsk`, whether a password is configured or not:
`decryptSebConfig` gives the empty array for every input. -/
theorem C30_password_encrypted_configuration_never_loads (qt : QtLibrary) (c : Config)
    (data : QByteArray) (password : String) (encrypted : QByteArray)
    (hPassword : QString.isEmpty password = false)
    (hLength : encrypted.length > 4)
    (hMarker : encrypted.take 4 = QByteArray.fromLatin1 "pswd" ∨
      encrypted.take 4 = QByteArray.fromLatin1 "phsk") :
    (Config.loadFromSebData qt c data password).1 = false ∧
    (Config.parseSebConfig qt c encrypted).1 = false := by
  constructor
  · simp [Config.loadFromSebData, hPassword, Config.decryptSebConfig]
  · simp only [Config.parseSebConfig, if_pos hLength, if_pos hMarker, Config.decryptSebConfig,
      List.isEmpty_nil, if_true]
    split_ifs <;> rfl

set_option maxRecDepth 100000 in
/-- C30 on the sample data: a load with the password `secret`, and a configuration
with a password configured that parses data with the `pswd` marker. -/
theorem C30_password_encrypted_configuration_never_loads_witness :
    (Config.loadFromSebData QtLibrary.sample {} samplePlist "secret").1 = false ∧
    (Config.parseSebConfig QtLibrary.sample
      { m_examConfig := { sebConfigPassword := "secret" } }
      (QByteArray.fromLatin1 "pswd" ++ samplePlistCompressed)).1 = false :=
  C30_password_encrypted_configuration_never_loads QtLibrary.sample {} samplePlist "secret"
    (QByteArray.fromLatin1 "pswd" ++ samplePlistCompressed) (by decide) (by decide)
    (Or.inl (by decide))

/-! ### File names -/

/-- `endsWith` without regard to case: the text splits into a stem and an ending
that is the suffix up to letter case. -/
theorem QString_endsWith_iff (s suffix : String) :
    QString.endsWith s suffix false = true ↔
      ∃ stem ending : List Char, s.data = stem ++ ending ∧
        ending.map Char.toLower = suffix.data.map Char.toLower := by
  unfold QString.endsWith
  simp only [Bool.false_eq_true, if_false]
  constructor
  · intro h
    by_cases hlen : s.data.length < suffix.data.length
    · rw [if_pos hlen] at h
      exact absurd h (by decide)
    · rw [if_neg hlen] at h
      exact ⟨s.data.take (s.data.length - suffix.data.length),
        s.data.drop (s.data.length - suffix.data.length), (List.take_append_drop _ _).symm,
        beq_iff_eq.mp h⟩
  · rintro ⟨stem, ending, hs, he⟩
    have hl : ending.length = suffix.data.length := by
      have := congrArg List.length he
      rwa [List.length_map, List.length_map] at this
    have hlen : ¬ s.data.length < suffix.data.length := by
      rw [hs, List.length_append]; omega
    rw [if_neg hlen]
    have hdrop : s.data.drop (s.data.length - suffix.data.length) = ending := by
      rw [hs, List.length_append, ← hl, Nat.add_sub_cancel, List.drop_left]
    show (List.map Char.toLower (s.data.drop (s.data.length - suffix.data.length)) ==
      List.map Char.toLower suffix.data) = true
    rw [hdrop]
    exact beq_iff_eq.mpr he

/-- C27: `isSebFile` holds exactly of the paths that end with `.seb` up to letter
case, `isOpenLockFile` exactly of those that end with `.openlock` up to letter case,
and no path is both. -/
theorem C27_file_type_by_extension (path : String) :
    (Config.isSebFile path = true ↔
      ∃ stem ending : List Char, path.data = stem ++ ending ∧
        ending.map Char.toLower = ".seb".data) ∧
    (Config.isOpenLockFile path = true ↔
      ∃ stem ending : List Char, path.data = stem ++ ending ∧
        ending.map Char.toLower = ".openlock".data) ∧
    ¬ (Config.isSebFile path = true ∧ Config.isOpenLockFile path = true) := by
  have hseb : ".seb".data.map Char.toLower = ".seb".data := by decide
  have hopen : ".openlock".data.map Char.toLower = ".openlock".data := by decide
  have h1 := QString_endsWith_iff path ".seb"
  have h2 := QString_endsWith_iff path ".openlock"
  rw [hseb] at h1
  rw [hopen] at h2
  refine ⟨h1, h2, ?_⟩
  rintro ⟨ha, hb⟩
  obtain ⟨s1, e1, hp1, he1⟩ := h1.mp ha
  obtain ⟨s2, e2, hp2, he2⟩ := h2.mp hb
  have hl1 : (path.data.map Char.toLower).getLast? = some 'b' := by
    rw [hp1, List.map_append, he1]
    simp
  have hl2 : (path.data.map Char.toLower).getLast? = some 'k' := by
    rw [hp2, List.map_append, he2]
    simp
  rw [hl1] at hl2
  exact absurd hl2 (by decide)

/-! ### Adding to and removing from the blocklist -/

/-- C26: after `add(n)`, `isBlocked` is true of every name equal to `n` up to letter
case, with any command line and executable path; after a following `remove(n)`, on
a blocklist without patterns, `isBlocked(n)` with empty command line and executable
path is false. -/
theorem C26_add_then_remove (pcre : QRegularExpression → String → Bool) (b : ProcessBlocklist)
    (n m cmdline exe : String) (hNoPatterns : b.m_patterns = [])
    (hCase : QString.toLower m = QString.toLower n) :
    ProcessBlocklist.isBlocked pcre (b.add n) m cmdline exe = true ∧
    ProcessBlocklist.isBlocked pcre ((b.add n).remove n) n "" "" = false := by
  constructor
  · have hmem : (b.add n).m_blockedNames.contains (QString.toLower n) = true := by
      simp only [ProcessBlocklist.add]
      split_ifs with h
      · exact h
      · simp
    simp only [ProcessBlocklist.isBlocked, hCase, hmem, if_true]
  · have hpat : ((b.add n).remove n).m_patterns = [] := by
      simp only [ProcessBlocklist.remove, ProcessBlocklist.add]
      split_ifs <;> simp [hNoPatterns]
    have hnames : ((b.add n).remove n).m_blockedNames.contains (QString.toLower n) = false := by
      simp [ProcessBlocklist.remove]
    simp only [ProcessBlocklist.isBlocked, hpat, hnames, List.any_nil]
    rfl

set_option maxRecDepth 100000 in
/-- C26 on the built-in blocklist: `MyRecorder` is added, `MYRECORDER` is then
blocked, and after the removal `MyRecorder` is not. -/
theorem C26_add_then_remove_witness :
    ProcessBlocklist.isBlocked QRegularExpression.hasMatch
      ((ProcessBlocklist.loadDefaults {}).add "MyRecorder") "MYRECORDER"
      "/opt/rec/myrecorder --start" "/opt/rec/myrecorder" = true ∧
    ProcessBlocklist.isBlocked QRegularExpression.hasMatch
      (((ProcessBlocklist.loadDefaults {}).add "MyRecorder").remove "MyRecorder")
      "MyRecorder" "" "" = false :=
  C26_add_then_remove QRegularExpression.hasMatch (ProcessBlocklist.loadDefaults {})
    "MyRecorder" "MYRECORDER" "/opt/rec/myrecorder --start" "/opt/rec/myrecorder"
    (by decide) (by decide)

/-! ### Name of the hypervisor -/

set_option maxRecDepth 100000 in
/-- C28, the failing input: when the only positive probe is the `hypervisor` flag
in `/proc/cpuinfo`, `detect` returns `detected = true` with an empty
`hypervisorName`; the same happens when the only positive probe is the hypervisor
bit of CPUID and the hypervisor leaf names no vendor. -/
theorem C28_detected_without_hypervisor_name :
    (VMDetector.checkProcCpuinfo VMSurface.sampleCpuinfoFlag {}).1 = true ∧
    VMDetector.detect VMSurface.sampleCpuinfoFlag =
      { detected := true, hypervisorName := "", confidenceScore := 14 } ∧
    (VMDetector.checkCPUID VMSurface.sampleBlankVendor {}).1 = true ∧
    VMDetector.detect VMSurface.sampleBlankVendor =
      { detected := true, hypervisorName := "", confidenceScore := 14 } := by
  decide

/-! ### The SEB-JSON text and its tree -/

theorem QMap_value_map {α β : Type} (f : α → β) (d : α) (key : String) :
    ∀ m : List (String × α),
      QMap.value (m.map (fun e => (e.1, f e.2))) key (f d) = f (QMap.value m key d)
  | [] => rfl
  | (k, v) :: rest => by
      by_cases h : k = key
      · simp [QMap.value, h]
      · simp [QMap.value, h, QMap_value_map f d key rest]

theorem SebJson_renderEntries_keys (trees : List (String × SebJson)) (d : SebJson)
    (hd : SebJson.render d = "\"\"") :
    ∀ (first : Bool) (keys : List String),
      SebJson.renderEntries first (keys.map (fun key => (key, QMap.value trees key d))) =
        ConfigKeyGenerator.emitEntries (trees.map (fun e => (e.1, SebJson.render e.2))) first keys
  | _, [] => by simp [SebJson.renderEntries, ConfigKeyGenerator.emitEntries]
  | first, key :: rest => by
      have hv := QMap_value_map SebJson.render d key trees
      rw [hd] at hv
      simp only [List.map_cons, SebJson.renderEntries, ConfigKeyGenerator.emitEntries, hv,
        SebJson_renderEntries_keys trees d hd false rest]

mutual
theorem ConfigKeyGenerator_render_variantToTree (sort : List String → List String) :
    ∀ v : QVariant,
      SebJson.render (ConfigKeyGenerator.variantToTree sort v) =
        ConfigKeyGenerator.variantToJson sort v
  | .map m => by
      simp only [ConfigKeyGenerator.variantToTree, SebJson.render,
        ConfigKeyGenerator.variantToJson, ConfigKeyGenerator.sebJsonObject]
      rw [SebJson_renderEntries_keys (ConfigKeyGenerator.valuesToTree sort m)
        (SebJson.atom "\"\"") (by simp only [SebJson.render]),
        ConfigKeyGenerator_render_valuesToTree sort m]
  | .list l => by
      simp only [ConfigKeyGenerator.variantToTree, SebJson.render,
        ConfigKeyGenerator.variantToJson]
      rw [ConfigKeyGenerator_render_listToTree sort true l]
  | .bool _ => rfl
  | .int _ => rfl
  | .double _ => rfl
  | .string _ => rfl
  | .byteArray _ => rfl
  | .dateTime _ => rfl
  | .other _ => rfl
theorem ConfigKeyGenerator_render_valuesToTree (sort : List String → List String) :
    ∀ m : List (String × QVariant),
      (ConfigKeyGenerator.valuesToTree sort m).map (fun e => (e.1, SebJson.render e.2)) =
        ConfigKeyGenerator.valuesToJson sort m
  | [] => rfl
  | (k, v) :: rest => by
      simp only [ConfigKeyGenerator.valuesToTree, List.map_cons,
        ConfigKeyGenerator.valuesToJson, ConfigKeyGenerator_render_variantToTree sort v,
        ConfigKeyGenerator_render_valuesToTree sort rest]
theorem ConfigKeyGenerator_render_listToTree (sort : List String → List String) :
    ∀ (first : Bool) (l : List QVariant),
      SebJson.renderItems first (ConfigKeyGenerator.listToTree sort l) =
        ConfigKeyGenerator.listToJson sort first l
  | _, [] => rfl
  | first, v :: rest => by
      simp only [ConfigKeyGenerator.listToTree, SebJson.renderItems,
        ConfigKeyGenerator.listToJson, ConfigKeyGenerator_render_variantToTree sort v,
        ConfigKeyGenerator_render_listToTree sort false rest]
end

theorem SebJson_keysSorted_value (d : SebJson) (hd : SebJson.keysSorted d) (key : String) :
    ∀ trees : List (String × SebJson), SebJson.keysSortedEntries trees →
      SebJson.keysSorted (QMap.value trees key d)
  | [], _ => hd
  | (k, t) :: rest, h => by
      simp only [QMap.value]
      split_ifs
      · exact h.1
      · exact SebJson_keysSorted_value d hd key rest h.2

theorem SebJson_keysSortedEntries_keys (value : String → SebJson)
    (h : ∀ key, SebJson.keysSorted (value key)) :
    ∀ keys : List String,
      SebJson.keysSortedEntries (keys.map (fun key => (key, value key)))
  | [] => trivial
  | key :: rest => ⟨h key, SebJson_keysSortedEntries_keys value h rest⟩

mutual
theorem ConfigKeyGenerator_variantToTree_keysSorted (sort : List String → List String)
    (hsort : IsStdSort sort) :
    ∀ v : QVariant, SebJson.keysSorted (ConfigKeyGenerator.variantToTree sort v)
  | .map m => by
      simp only [ConfigKeyGenerator.variantToTree, SebJson.keysSorted]
      constructor
      · rw [List.map_map]
        have : (Prod.fst ∘ fun key => (key, QMap.value (ConfigKeyGenerator.valuesToTree sort m)
            key (SebJson.atom "\"\""))) = id := rfl
        rw [this, List.map_id]
        exact hsort.2 _
      · exact SebJson_keysSortedEntries_keys _
          (fun key => SebJson_keysSorted_value (SebJson.atom "\"\"")
            (by simp only [SebJson.keysSorted]) key _
            (ConfigKeyGenerator_valuesToTree_keysSorted sort hsort m)) _
  | .list l => by
      simp only [ConfigKeyGenerator.variantToTree, SebJson.keysSorted]
      exact ConfigKeyGenerator_listToTree_keysSorted sort hsort l
  | .bool _ => trivial
  | .int _ => trivial
  | .double _ => trivial
  | .string _ => trivial
  | .byteArray _ => trivial
  | .dateTime _ => trivial
  | .other _ => trivial
theorem ConfigKeyGenerator_valuesToTree_keysSorted (sort : List String → List String)
    (hsort : IsStdSort sort) :
    ∀ m : List (String × QVariant),
      SebJson.keysSortedEntries (ConfigKeyGenerator.valuesToTree sort m)
  | [] => trivial
  | (_, v) :: rest =>
      ⟨ConfigKeyGenerator_variantToTree_keysSorted sort hsort v,
       ConfigKeyGenerator_valuesToTree_keysSorted sort hsort rest⟩
theorem ConfigKeyGenerator_listToTree_keysSorted (sort : List String → List String)
    (hsort : IsStdSort sort) :
    ∀ l : List QVariant, SebJson.keysSortedItems (ConfigKeyGenerator.listToTree sort l)
  | [] => trivial
  | v :: rest =>
      ⟨ConfigKeyGenerator_variantToTree_keysSorted sort hsort v,
       ConfigKeyGenerator_listToTree_keysSorted sort hsort rest⟩
end

/-- C24: the text `settingsToSebJson` produces is the rendering of a tree in which
the keys of every mapping, at every depth and inside sequences, stand in
non-decreasing order under the comparison without regard to case, and in which the
keys of the outermost mapping are a rearrangement of the keys of the settings
mapping: each key is emitted as often as the mapping holds it, which is once.  The
nested mappings are emitted by the same function. -/
theorem C24_keys_sorted_at_every_depth (sort : List String → List String)
    (hsort : IsStdSort sort) (settings : QVariantMap) :
    SebJson.render (ConfigKeyGenerator.variantToTree sort (.map settings)) =
      ConfigKeyGenerator.settingsToSebJson sort settings ∧
    SebJson.keysSorted (ConfigKeyGenerator.variantToTree sort (.map settings)) ∧
    ∃ entries, ConfigKeyGenerator.variantToTree sort (.map settings) = SebJson.object entries ∧
      (entries.map Prod.fst).Perm (QMap.keys settings) := by
  refine ⟨ConfigKeyGenerator_render_variantToTree sort (.map settings),
    ConfigKeyGenerator_variantToTree_keysSorted sort hsort (.map settings), ?_⟩
  refine ⟨(sort (QMap.keys settings)).map
    (fun key => (key, QMap.value (ConfigKeyGenerator.valuesToTree sort settings) key
      (SebJson.atom "\"\""))), by simp only [ConfigKeyGenerator.variantToTree], ?_⟩
  rw [List.map_map]
  have : (Prod.fst ∘ fun key => (key, QMap.value (ConfigKeyGenerator.valuesToTree sort settings)
      key (SebJson.atom "\"\""))) = id := rfl
  rw [this, List.map_id]
  exact hsort.1 _

/-- C24 on a mapping with a nested mapping and a sequence of mappings, sorted by
insertion. -/
theorem C24_keys_sorted_at_every_depth_witness :
    SebJson.render (ConfigKeyGenerator.variantToTree insertionSortKeys
        (.map [("startURL", .string "https://exam.example.org"),
               ("browser", .map [("Zoom", .int 1), ("allowQuit", .bool true)]),
               ("URLFilterRules",
                 .list [.map [("expression", .string "*"), ("Action", .int 1)]])])) =
      ConfigKeyGenerator.settingsToSebJson insertionSortKeys
        [("startURL", .string "https://exam.example.org"),
         ("browser", .map [("Zoom", .int 1), ("allowQuit", .bool true)]),
         ("URLFilterRules", .list [.map [("expression", .string "*"), ("Action", .int 1)]])] ∧
    SebJson.keysSorted (ConfigKeyGenerator.variantToTree insertionSortKeys
        (.map [("startURL", .string "https://exam.example.org"),
               ("browser", .map [("Zoom", .int 1), ("allowQuit", .bool true)]),
               ("URLFilterRules",
                 .list [.map [("expression", .string "*"), ("Action", .int 1)]])])) ∧
    ∃ entries, ConfigKeyGenerator.variantToTree insertionSortKeys
        (.map [("startURL", .string "https://exam.example.org"),
               ("browser", .map [("Zoom", .int 1), ("allowQuit", .bool true)]),
               ("URLFilterRules",
                 .list [.map [("expression", .string "*"), ("Action", .int 1)]])]) =
        SebJson.object entries ∧
      (entries.map Prod.fst).Perm
        (QMap.keys [("startURL", QVariant.string "https://exam.example.org"),
          ("browser", .map [("Zoom", .int 1), ("allowQuit", .bool true)]),
          ("URLFilterRules",
            .list [.map [("expression", .string "*"), ("Action", .int 1)]])]) :=
  C24_keys_sorted_at_every_depth insertionSortKeys insertionSortKeys_isStdSort
    [("startURL", .string "https://exam.example.org"),
     ("browser", .map [("Zoom", .int 1), ("allowQuit", .bool true)]),
     ("URLFilterRules", .list [.map [("expression", .string "*"), ("Action", .int 1)]])]

/-! ### Telling mappings apart by their text -/

theorem List_append_quote_cancel : ∀ (a b x y : List Char), '"' ∉ a → '"' ∉ b →
    a ++ '"' :: x = b ++ '"' :: y → a = b ∧ x = y
  | [], [], x, y, _, _, h => by simpa using h
  | [], c :: b, x, y, _, hb, h => by
      simp only [List.nil_append, List.cons_append, List.cons.injEq] at h
      exact absurd (List.mem_cons.mpr (Or.inl h.1)) hb
  | c :: a, [], x, y, ha, _, h => by
      simp only [List.nil_append, List.cons_append, List.cons.injEq] at h
      exact absurd (List.mem_cons.mpr (Or.inl h.1.symm)) ha
  | c :: a, d :: b, x, y, ha, hb, h => by
      simp only [List.cons_append, List.cons.injEq] at h
      have ih := List_append_quote_cancel a b x y
        (fun hm => ha (List.mem_cons_of_mem _ hm)) (fun hm => hb (List.mem_cons_of_mem _ hm)) h.2
      exact ⟨by rw [h.1, ih.1], ih.2⟩

/-- The text of a sequence of entries with string values tells the entries, when no
key and no value holds a double quote. -/
theorem SebJson_renderEntries_injective : ∀ (first : Bool) (E1 E2 : List (String × String)),
    (∀ e ∈ E1, '"' ∉ e.1.data ∧ '"' ∉ e.2.data) →
    (∀ e ∈ E2, '"' ∉ e.1.data ∧ '"' ∉ e.2.data) →
    SebJson.renderEntries first
        (E1.map (fun e => (e.1, SebJson.atom ("\"" ++ e.2 ++ "\"")))) =
      SebJson.renderEntries first
        (E2.map (fun e => (e.1, SebJson.atom ("\"" ++ e.2 ++ "\"")))) →
    E1 = E2
  | _, [], [], _, _, _ => rfl
  | first, [], (k, s) :: rest, _, _, h => by
      have hd := congrArg String.data h
      simp only [List.map_nil, List.map_cons, SebJson.renderEntries, SebJson.render,
        String.data_append] at hd
      have hl := congrArg List.length hd
      cases first <;> simp at hl
  | first, (k, s) :: rest, [], _, _, h => by
      have hd := congrArg String.data h
      simp only [List.map_nil, List.map_cons, SebJson.renderEntries, SebJson.render,
        String.data_append] at hd
      have hl := congrArg List.length hd
      cases first <;> simp at hl
  | first, (k1, s1) :: rest1, (k2, s2) :: rest2, h1, h2, h => by
      have hd := congrArg String.data h
      simp only [List.map_cons, SebJson.renderEntries, SebJson.render, String.data_append,
        List.append_assoc] at hd
      have hsep := List.append_cancel_left hd
      simp only [List.singleton_append, List.cons_append, List.nil_append, List.cons.injEq,
        true_and] at hsep
      have hk := List_append_quote_cancel k1.data k2.data _ _
        (h1 _ (List.mem_cons_self _ _)).1 (h2 _ (List.mem_cons_self _ _)).1 hsep
      have hrest := hk.2
      simp only [List.cons.injEq, true_and] at hrest
      have hs := List_append_quote_cancel s1.data s2.data _ _
        (h1 _ (List.mem_cons_self _ _)).2 (h2 _ (List.mem_cons_self _ _)).2 hrest
      have hkk : k1 = k2 := String.ext hk.1
      have hss : s1 = s2 := String.ext hs.1
      have htail : SebJson.renderEntries false
          (rest1.map (fun e => (e.1, SebJson.atom ("\"" ++ e.2 ++ "\"")))) =
          SebJson.renderEntries false
          (rest2.map (fun e => (e.1, SebJson.atom ("\"" ++ e.2 ++ "\"")))) := String.ext hs.2
      have ih := SebJson_renderEntries_injective false rest1 rest2
        (fun e he => h1 e (List.mem_cons_of_mem _ he))
        (fun e he => h2 e (List.mem_cons_of_mem _ he)) htail
      rw [hkk, hss, ih]

theorem QVariantMap_string_pairs : ∀ M : QVariantMap,
    (∀ e ∈ M, ∃ s : String, e.2 = QVariant.string s ∧ '"' ∉ e.1.data ∧ '"' ∉ s.data) →
    ∃ P : List (String × String), M = P.map (fun p => (p.1, QVariant.string p.2)) ∧
      ∀ p ∈ P, '"' ∉ p.1.data ∧ '"' ∉ p.2.data
  | [], _ => ⟨[], rfl, by simp⟩
  | (k, v) :: rest, h => by
      obtain ⟨s, hv, hk, hs⟩ := h (k, v) (List.mem_cons_self _ _)
      obtain ⟨P, hP, hq⟩ := QVariantMap_string_pairs rest
        (fun e he => h e (List.mem_cons_of_mem _ he))
      refine ⟨(k, s) :: P, ?_, ?_⟩
      · simp only [List.map_cons, ← hP]
        simp only at hv
        rw [hv]
      · intro p hp
        rcases List.mem_cons.mp hp with rfl | hp
        · exact ⟨hk, hs⟩
        · exact hq p hp

theorem ConfigKeyGenerator_valuesToTree_strings (sort : List String → List String) :
    ∀ P : List (String × String),
      ConfigKeyGenerator.valuesToTree sort (P.map (fun p => (p.1, QVariant.string p.2))) =
        P.map (fun p => (p.1, SebJson.atom ("\"" ++ p.2 ++ "\"")))
  | [] => rfl
  | (k, s) :: rest => by
      simp only [List.map_cons, ConfigKeyGenerator.valuesToTree,
        ConfigKeyGenerator.variantToTree, ConfigKeyGenerator.variantToJson,
        ConfigKeyGenerator_valuesToTree_strings sort rest]

theorem QMap_value_default_or_mem {β : Type} (key : String) (d : β) :
    ∀ m : List (String × β), QMap.value m key d = d ∨ (key, QMap.value m key d) ∈ m
  | [] => Or.inl rfl
  | (k, v) :: rest => by
      by_cases h : k = key
      · subst h
        simp [QMap.value]
      · rcases QMap_value_default_or_mem key d rest with hd | hm
        · left
          simp [QMap.value, h, hd]
        · right
          simp only [QMap.value, h, if_false]
          exact List.mem_cons_of_mem _ hm

theorem QMap_value_of_mem {β : Type} (d : β) :
    ∀ m : List (String × β), (m.map Prod.fst).Nodup → ∀ e ∈ m, QMap.value m e.1 d = e.2
  | [], _, e, he => by simp at he
  | (k, v) :: rest, hnd, e, he => by
      simp only [List.map_cons, List.nodup_cons] at hnd
      rcases List.mem_cons.mp he with rfl | he
      · simp [QMap.value]
      · have hne : k ≠ e.1 := by
          intro hk
          exact hnd.1 (hk ▸ List.mem_map_of_mem Prod.fst he)
        simp only [QMap.value, hne, if_false]
        exact QMap_value_of_mem d rest hnd.2 e he

/-- The text of a mapping with string values, as the rendering of its entries in the
order emitted. -/
theorem ConfigKeyGenerator_settingsToSebJson_strings (sort : List String → List String)
    (P : List (String × String)) :
    ConfigKeyGenerator.settingsToSebJson sort (P.map (fun p => (p.1, QVariant.string p.2))) =
      "\x7b" ++ SebJson.renderEntries true
        (((sort (P.map Prod.fst)).map (fun key => (key, QMap.value P key ""))).map
          (fun e => (e.1, SebJson.atom ("\"" ++ e.2 ++ "\"")))) ++ "\x7d" := by
  have h := ConfigKeyGenerator_render_variantToTree sort
    (.map (P.map (fun p => (p.1, QVariant.string p.2))))
  simp only [ConfigKeyGenerator.variantToJson] at h
  have hs : ConfigKeyGenerator.settingsToSebJson sort
      (P.map (fun p => (p.1, QVariant.string p.2))) =
      ConfigKeyGenerator.sebJsonObject sort
        (QMap.keys (P.map (fun p => (p.1, QVariant.string p.2))))
        (ConfigKeyGenerator.valuesToJson sort (P.map (fun p => (p.1, QVariant.string p.2)))) :=
    rfl
  rw [hs, ← h]
  simp only [ConfigKeyGenerator.variantToTree, SebJson.render,
    ConfigKeyGenerator_valuesToTree_strings]
  have hkeys : QMap.keys (P.map (fun p => (p.1, QVariant.string p.2))) = P.map Prod.fst := by
    simp [QMap.keys, Function.comp_def]
  have hval : ∀ key, QMap.value (P.map (fun p => (p.1, SebJson.atom ("\"" ++ p.2 ++ "\""))))
      key (SebJson.atom "\"\"") = SebJson.atom ("\"" ++ QMap.value P key "" ++ "\"") :=
    fun key => QMap_value_map (fun s => SebJson.atom ("\"" ++ s ++ "\"")) "" key P
  simp only [hkeys, hval, List.map_map, Function.comp_def]

/-- Two well-formed maps with string values, without double quotes in keys and
values, that have the same text are the same map. -/
theorem ConfigKeyGenerator_strings_injective (sort : List String → List String)
    (hsort : IsStdSort sort) (P1 P2 : List (String × String))
    (hq1 : ∀ p ∈ P1, '"' ∉ p.1.data ∧ '"' ∉ p.2.data)
    (hq2 : ∀ p ∈ P2, '"' ∉ p.1.data ∧ '"' ∉ p.2.data)
    (hw1 : (P1.map Prod.fst).Pairwise (fun a b => QString.less a b = true))
    (hw2 : (P2.map Prod.fst).Pairwise (fun a b => QString.less a b = true))
    (hText : ConfigKeyGenerator.settingsToSebJson sort
        (P1.map (fun p => (p.1, QVariant.string p.2))) =
      ConfigKeyGenerator.settingsToSebJson sort
        (P2.map (fun p => (p.1, QVariant.string p.2)))) :
    P1 = P2 := by
  rw [ConfigKeyGenerator_settingsToSebJson_strings, ConfigKeyGenerator_settingsToSebJson_strings]
    at hText
  have hd := congrArg String.data hText
  simp only [String.data_append] at hd
  have hbody := List.append_cancel_left (List.append_cancel_right hd)
  have hnd : ∀ P : List (String × String),
      (P.map Prod.fst).Pairwise (fun a b => QString.less a b = true) →
      (P.map Prod.fst).Nodup := by
    intro P hw
    refine hw.imp ?_
    intro a b hab hEq
    rw [hEq, QString_less_irrefl] at hab
    exact absurd hab (by decide)
  have hquotes : ∀ P : List (String × String),
      (∀ p ∈ P, '"' ∉ p.1.data ∧ '"' ∉ p.2.data) →
      ∀ e ∈ (sort (P.map Prod.fst)).map (fun key => (key, QMap.value P key "")),
        '"' ∉ e.1.data ∧ '"' ∉ e.2.data := by
    intro P hq e he
    obtain ⟨key, hkey, rfl⟩ := List.mem_map.mp he
    have hmem : key ∈ P.map Prod.fst := ((hsort.1 _).mem_iff).mp hkey
    obtain ⟨p, hp, rfl⟩ := List.mem_map.mp hmem
    refine ⟨(hq p hp).1, ?_⟩
    rcases QMap_value_default_or_mem p.1 "" P with hdflt | hin
    · simp only [hdflt]
      decide
    · exact (hq _ hin).2
  have hE := SebJson_renderEntries_injective true _ _ (hquotes P1 hq1) (hquotes P2 hq2)
    (String.ext hbody)
  have hperm : ∀ P : List (String × String), (P.map Prod.fst).Nodup →
      ((sort (P.map Prod.fst)).map (fun key => (key, QMap.value P key ""))).Perm P := by
    intro P hn
    have h1 := (hsort.1 (P.map Prod.fst)).map (fun key => (key, QMap.value P key ""))
    refine h1.trans ?_
    rw [List.map_map]
    have : P.map ((fun key => (key, QMap.value P key "")) ∘ Prod.fst) = P.map id := by
      apply List.map_congr_left
      intro e he
      simp only [Function.comp, id]
      rw [QMap_value_of_mem "" P hn e he]
    rw [this, List.map_id]
  have hP : P1.Perm P2 := by
    have h1 := hperm P1 (hnd P1 hw1)
    have h2 := hperm P2 (hnd P2 hw2)
    rw [hE] at h1
    exact h1.symm.trans h2
  have hs1 : P1.Pairwise (fun a b => QString.less a.1 b.1 = true) := List.pairwise_map.mp hw1
  have hs2 : P2.Pairwise (fun a b => QString.less a.1 b.1 = true) := List.pairwise_map.mp hw2
  haveI : IsAntisymm (String × String) (fun a b => QString.less a.1 b.1 = true) :=
    ⟨fun a b hab hba => by
      rw [QString_less_asymm _ _ hab] at hba
      exact absurd hba (by decide)⟩
  exact List.eq_of_perm_of_sorted hP hs1 hs2

set_option maxRecDepth 100000 in
/-- C29, counterexample: the mapping with the one entry `a` whose value is the text
`x","b":"y` and the mapping with the two entries `a = x` and `b = y` have the same
text, therefore the same Config Key; string values are written out as they are. -/
theorem C29_two_mappings_with_the_same_text :
    ConfigKeyGenerator.settingsToSebJson insertionSortKeys
        [("a", QVariant.string "x\",\"b\":\"y")] =
      ConfigKeyGenerator.settingsToSebJson insertionSortKeys
        [("a", QVariant.string "x"), ("b", QVariant.string "y")] ∧
    ConfigKeyGenerator.settingsToSebJson insertionSortKeys
        [("a", QVariant.string "x"), ("b", QVariant.string "y")] =
      "\x7b\"a\":\"x\",\"b\":\"y\"\x7d" ∧
    ([("a", QVariant.string "x\",\"b\":\"y")] : QVariantMap) ≠
      [("a", QVariant.string "x"), ("b", QVariant.string "y")] ∧
    ConfigKeyGenerator.computeRawKey insertionSortKeys
        ⟨[], [("a", QVariant.string "x\",\"b\":\"y")]⟩ =
      ConfigKeyGenerator.computeRawKey insertionSortKeys
        ⟨[], [("a", QVariant.string "x"), ("b", QVariant.string "y")]⟩ := by
  have h1 : ConfigKeyGenerator.settingsToSebJson insertionSortKeys
        [("a", QVariant.string "x\",\"b\":\"y")] =
      ConfigKeyGenerator.settingsToSebJson insertionSortKeys
        [("a", QVariant.string "x"), ("b", QVariant.string "y")] := by decide
  refine ⟨h1, by decide, by simp, ?_⟩
  have hr1 : QMap.remove "originatorVersion" [("a", QVariant.string "x\",\"b\":\"y")] =
      [("a", QVariant.string "x\",\"b\":\"y")] := by
    simp [QMap.remove]
  have hr2 : QMap.remove "originatorVersion"
      [("a", QVariant.string "x"), ("b", QVariant.string "y")] =
      [("a", QVariant.string "x"), ("b", QVariant.string "y")] := by
    simp [QMap.remove]
  simp only [ConfigKeyGenerator.computeRawKey, List.isEmpty_cons, Bool.false_eq_true, if_false,
    hr1, hr2, h1]

/-- C29, amended: two different settings mappings whose values are strings, with no
double quote in any key or value, never have the same text, whatever way
`std::sort` arranges keys that differ in letter case only. -/
theorem C29_injective_on_strings_without_quotes (sort : List String → List String)
    (hsort : IsStdSort sort) (M1 M2 : QVariantMap)
    (hMap1 : QMap.WellFormed M1) (hMap2 : QMap.WellFormed M2)
    (hStrings1 : ∀ e ∈ M1, ∃ s : String,
      e.2 = QVariant.string s ∧ '"' ∉ e.1.data ∧ '"' ∉ s.data)
    (hStrings2 : ∀ e ∈ M2, ∃ s : String,
      e.2 = QVariant.string s ∧ '"' ∉ e.1.data ∧ '"' ∉ s.data)
    (hDifferent : M1 ≠ M2) :
    ConfigKeyGenerator.settingsToSebJson sort M1 ≠
      ConfigKeyGenerator.settingsToSebJson sort M2 := by
  obtain ⟨P1, rfl, hq1⟩ := QVariantMap_string_pairs M1 hStrings1
  obtain ⟨P2, rfl, hq2⟩ := QVariantMap_string_pairs M2 hStrings2
  intro hText
  apply hDifferent
  have hk : ∀ P : List (String × String),
      (P.map (fun p => (p.1, QVariant.string p.2))).map Prod.fst = P.map Prod.fst := by
    intro P
    simp [Function.comp_def]
  have hw1 : (P1.map Prod.fst).Pairwise (fun a b => QString.less a b = true) := by
    have := hMap1
    rwa [QMap.WellFormed, hk] at this
  have hw2 : (P2.map Prod.fst).Pairwise (fun a b => QString.less a b = true) := by
    have := hMap2
    rwa [QMap.WellFormed, hk] at this
  rw [ConfigKeyGenerator_strings_injective sort hsort P1 P2 hq1 hq2 hw1 hw2 hText]

/-- C29, amended, on two mappings that differ in one value. -/
theorem C29_injective_on_strings_without_quotes_witness :
    ConfigKeyGenerator.settingsToSebJson insertionSortKeys
        [("allowQuit", QVariant.string "yes"), ("startURL", QVariant.string "https://a.org")] ≠
      ConfigKeyGenerator.settingsToSebJson insertionSortKeys
        [("allowQuit", QVariant.string "yes"), ("startURL", QVariant.string "https://b.org")] :=
  C29_injective_on_strings_without_quotes insertionSortKeys insertionSortKeys_isStdSort
    [("allowQuit", QVariant.string "yes"), ("startURL", QVariant.string "https://a.org")]
    [("allowQuit", QVariant.string "yes"), ("startURL", QVariant.string "https://b.org")]
    (by unfold QMap.WellFormed; decide) (by unfold QMap.WellFormed; decide)
    (by
      intro e he
      simp only [List.mem_cons, List.mem_singleton, List.not_mem_nil, or_false] at he
      rcases he with rfl | rfl
      · exact ⟨"yes", rfl, by decide, by decide⟩
      · exact ⟨"https://a.org", rfl, by decide, by decide⟩)
    (by
      intro e he
      simp only [List.mem_cons, List.mem_singleton, List.not_mem_nil, or_false] at he
      rcases he with rfl | rfl
      · exact ⟨"yes", rfl, by decide, by decide⟩
      · exact ⟨"https://b.org", rfl, by decide, by decide⟩)
    (by simp)

/-! ### Globs and the regular expressions made of them -/

theorem Glob_matchesWhole_star (fold : Bool) (ps s : List Char) :
    Glob.matchesWhole fold ('*' :: ps) s = s.tails.any (Glob.matchesWhole fold ps) := by
  simp only [Glob.matchesWhole, if_true]

/-- A character that is no letter of the ASCII range is the lower case of itself
only. -/
theorem Char_toLower_eq_iff (c d : Char)
    (hd : ¬ (d.toNat ≥ 65 ∧ d.toNat ≤ 90) ∧ ¬ (d.toNat ≥ 97 ∧ d.toNat ≤ 122)) :
    c.toLower = d ↔ c = d := by
  by_cases h : c.toNat ≥ 65 ∧ c.toNat ≤ 90
  · have h1 := Char_toLower_of_upper c h
    have h2 : c.toLower.toNat = c.toNat + 32 := by
      rw [h1]; exact Char_toNat_ofNat_of_lt _ (by omega)
    constructor
    · intro he
      rw [he] at h2
      omega
    · intro he
      rw [he] at h
      exact absurd h hd.1
  · rw [Char_toLower_of_not_upper c h]

theorem QString_toLower_append (a b : String) :
    QString.toLower (a ++ b) = QString.toLower a ++ QString.toLower b := by
  apply String.ext
  simp [QString.toLower, String.data_append]

theorem List_tails_map {α β : Type} (f : α → β) :
    ∀ l : List α, (l.map f).tails = l.tails.map (List.map f)
  | [] => rfl
  | x :: xs => by simp [List_tails_map f xs]

theorem starTails_map_toLower : ∀ s : List Char,
    starTails (s.map Char.toLower) = (starTails s).map (List.map Char.toLower)
  | [] => rfl
  | x :: xs => by
      have hx : x.toLower = '\n' ↔ x = '\n' := Char_toLower_eq_iff x '\n' (by decide)
      by_cases h : x = '\n'
      · simp [starTails, h]
      · have h2 : ¬ x.toLower = '\n' := fun he => h (hx.mp he)
        simp [starTails, h, h2, starTails_map_toLower xs]

/-- Without regard to case, matching looks at the subject up to letter case only. -/
theorem matchHere_map_toLower : ∀ (toks : List RxTok) (s : List Char),
    matchHere true toks (s.map Char.toLower) = matchHere true toks s
  | [], _ => by simp [matchHere]
  | .lit c :: ts, [] => by simp [matchHere]
  | .lit c :: ts, x :: xs => by
      simp [matchHere, Char_toLower_toLower, matchHere_map_toLower ts xs]
  | .dot :: ts, [] => by simp [matchHere]
  | .dot :: ts, x :: xs => by
      have hx : x.toLower = '\n' ↔ x = '\n' := Char_toLower_eq_iff x '\n' (by decide)
      have hb : (x.toLower != '\n') = (x != '\n') := by
        rw [Bool.eq_iff_iff]
        simp only [bne_iff_ne, ne_eq, hx]
      simp only [List.map_cons, matchHere, hb, matchHere_map_toLower ts xs]
  | .dotStar :: ts, s => by
      rw [matchHere, matchHere, starTails_map_toLower, List.any_map]
      congr 1
      funext t
      exact matchHere_map_toLower ts t

theorem QRegularExpression_hasMatch_toLower (pattern subject : String) :
    QRegularExpression.hasMatch ⟨pattern, true⟩ (QString.toLower subject) =
      QRegularExpression.hasMatch ⟨pattern, true⟩ subject := by
  simp only [QRegularExpression.hasMatch, QString.toLower]
  cases compile pattern.data with
  | none => rfl
  | some toks =>
    simp only [List_tails_map, List.any_map]
    congr 1
    funext t
    exact matchHere_map_toLower toks t

theorem NavigationFilter_foldl_addBlockedPattern (patterns : List String) :
    ∀ f : NavigationFilter,
      (patterns.foldl NavigationFilter.addBlockedPattern f).m_blockedPatterns =
        f.m_blockedPatterns ++
          patterns.map (fun p => ⟨NavigationFilter.globToUrlRegex p, true⟩) ∧
      (patterns.foldl NavigationFilter.addBlockedPattern f).m_allowedPatterns =
        f.m_allowedPatterns := by
  induction patterns with
  | nil => intro f; simp
  | cons p rest ih =>
    intro f
    obtain ⟨h1, h2⟩ := ih (f.addBlockedPattern p)
    rw [List.foldl_cons, h1, h2]
    simp [NavigationFilter.addBlockedPattern]

theorem NavigationFilter_foldl_addAllowedPattern (patterns : List String) :
    ∀ f : NavigationFilter,
      (patterns.foldl NavigationFilter.addAllowedPattern f).m_allowedPatterns =
        f.m_allowedPatterns ++
          patterns.map (fun p => ⟨NavigationFilter.globToUrlRegex p, true⟩) ∧
      (patterns.foldl NavigationFilter.addAllowedPattern f).m_blockedPatterns =
        f.m_blockedPatterns := by
  induction patterns with
  | nil => intro f; simp
  | cons p rest ih =>
    intro f
    obtain ⟨h1, h2⟩ := ih (f.addAllowedPattern p)
    rw [List.foldl_cons, h1, h2]
    simp [NavigationFilter.addAllowedPattern]

/-- Patterns made of globs match two URLs alike when the string forms of the URLs
are the same up to letter case. -/
theorem NavigationFilter_matchesPattern_toLower (globs : List String) (u v : QUrl)
    (h : QString.toLower u.toString = QString.toLower v.toString) :
    NavigationFilter.matchesPattern u
        (globs.map (fun p => ⟨NavigationFilter.globToUrlRegex p, true⟩)) =
      NavigationFilter.matchesPattern v
        (globs.map (fun p => ⟨NavigationFilter.globToUrlRegex p, true⟩)) := by
  induction globs with
  | nil => rfl
  | cons p rest ih =>
    simp only [NavigationFilter.matchesPattern] at ih ⊢
    rw [List.map_cons, List.any_cons, List.any_cons, ih,
      ← QRegularExpression_hasMatch_toLower _ u.toString,
      ← QRegularExpression_hasMatch_toLower _ v.toString, h]

theorem QString_toLower_eq_empty_iff (a b : String)
    (h : QString.toLower a = QString.toLower b) : a = "" ↔ b = "" := by
  have hd : a.data.map Char.toLower = b.data.map Char.toLower := by
    simpa [QString.toLower] using congrArg String.data h
  have hl : a.data.length = b.data.length := by
    simpa using congrArg List.length hd
  constructor
  · intro ha
    apply String.ext
    subst ha
    exact List.eq_nil_of_length_eq_zero (by simpa using hl.symm)
  · intro hb
    apply String.ext
    subst hb
    exact List.eq_nil_of_length_eq_zero (by simpa using hl)

/-- The string form of a URL after a change of letter case in host and path is the
string form before, up to letter case. -/
theorem QUrl_toString_toLower (url : QUrl) (host path : String)
    (hHost : QString.toLower host = QString.toLower url.host)
    (hPath : QString.toLower path = QString.toLower url.path) :
    QString.toLower (QUrl.toString { url with host := host, path := path }) =
      QString.toLower url.toString := by
  have hAuth : QString.toLower (QUrl.authority { url with host := host, path := path }) =
      QString.toLower url.authority := by
    simp only [QUrl.authority, QString_toLower_append, hHost]
  have hAuthEmpty : QUrl.authority { url with host := host, path := path } = "" ↔
      url.authority = "" := QString_toLower_eq_empty_iff _ _ hAuth
  have hSlash : ("/".data.isPrefixOf path.data) = ("/".data.isPrefixOf url.path.data) := by
    have hd : path.data.map Char.toLower = url.path.data.map Char.toLower := by
      simpa [QString.toLower] using congrArg String.data hPath
    have hs : ("/" : String).data = ['/'] := rfl
    rw [hs]
    cases hp : path.data with
    | nil =>
      cases hq : url.path.data with
      | nil => rfl
      | cons y ys => rw [hp, hq] at hd; simp at hd
    | cons x xs =>
      cases hq : url.path.data with
      | nil => rw [hp, hq] at hd; simp at hd
      | cons y ys =>
        rw [hp, hq] at hd
        simp only [List.map_cons, List.cons.injEq] at hd
        have hx : x.toLower = '/' ↔ x = '/' := Char_toLower_eq_iff x '/' (by decide)
        have hy : y.toLower = '/' ↔ y = '/' := Char_toLower_eq_iff y '/' (by decide)
        have hxy : x = '/' ↔ y = '/' := by
          rw [← hx, ← hy, hd.1]
        by_cases h : x = '/'
        · have h2 := hxy.mp h
          subst h; subst h2
          simp [List.isPrefixOf]
        · have h2 : ¬ y = '/' := fun he => h (hxy.mpr he)
          simp [List.isPrefixOf, h, h2, Ne.symm h, Ne.symm h2]
  simp only [QUrl.toString, QString_toLower_append, hPath, hSlash]
  by_cases hA : url.authority = ""
  · have hA2 := hAuthEmpty.mpr hA
    simp only [hA, hA2, if_true]
  · have hA2 : ¬ QUrl.authority { url with host := host, path := path } = "" :=
      fun he => hA (hAuthEmpty.mp he)
    simp only [hA, hA2, if_false, QString_toLower_append, hAuth]

set_option maxRecDepth 100000 in
/-- C23, counterexample: the block pattern `*/Admin/*` matches
`https://x.org/admin/p`, whose path differs from the pattern in letter case only,
and a filter with that block pattern classifies the URL as Blocked. -/
theorem C23_path_is_matched_without_regard_to_case :
    NavigationFilter.matchesPattern
      { scheme := "https", host := "x.org", path := "/admin/p" }
      (NavigationFilter.new.addBlockedPattern "*/Admin/*").m_blockedPatterns = true ∧
    NavigationFilter.checkUrl (NavigationFilter.new.addBlockedPattern "*/Admin/*")
      { scheme := "https", host := "x.org", path := "/admin/p" } = FilterResult.Blocked := by
  decide

/-- C23, amended: the patterns of a filter are matched without regard to letter
case on the whole URL: changing the letter case of the host, of the path, or of
both, never changes whether the block patterns match nor whether the allow patterns
match. -/
theorem C23_matching_ignores_case_of_host_and_path (f : NavigationFilter)
    (allowed blocked : List String) (url : QUrl) (host path : String)
    (hHost : QString.toLower host = QString.toLower url.host)
    (hPath : QString.toLower path = QString.toLower url.path) :
    NavigationFilter.matchesPattern { url with host := host, path := path }
        ((f.setAllowedPatterns allowed).setBlockedPatterns blocked).m_blockedPatterns =
      NavigationFilter.matchesPattern url
        ((f.setAllowedPatterns allowed).setBlockedPatterns blocked).m_blockedPatterns ∧
    NavigationFilter.matchesPattern { url with host := host, path := path }
        ((f.setAllowedPatterns allowed).setBlockedPatterns blocked).m_allowedPatterns =
      NavigationFilter.matchesPattern url
        ((f.setAllowedPatterns allowed).setBlockedPatterns blocked).m_allowedPatterns := by
  have hb := NavigationFilter_foldl_addBlockedPattern blocked
    { (f.setAllowedPatterns allowed) with m_blockedPatterns := [] }
  have ha := NavigationFilter_foldl_addAllowedPattern allowed
    { f with m_allowedPatterns := [] }
  have hs := QUrl_toString_toLower url host path hHost hPath
  simp only [NavigationFilter.setBlockedPatterns, hb.1, hb.2, List.nil_append]
  simp only [NavigationFilter.setAllowedPatterns, ha.1, List.nil_append]
  exact ⟨NavigationFilter_matchesPattern_toLower blocked _ _ hs,
    NavigationFilter_matchesPattern_toLower allowed _ _ hs⟩

set_option maxRecDepth 100000 in
/-- C23, amended, on `https://Exam.Example.ORG/Quiz/Start` and its lower-case
spelling. -/
theorem C23_matching_ignores_case_of_host_and_path_witness :
    NavigationFilter.matchesPattern
        { scheme := "https", host := "Exam.Example.ORG", path := "/Quiz/Start" }
        ((NavigationFilter.new.setAllowedPatterns ["*.example.org/*"]).setBlockedPatterns
          ["*/quiz/*"]).m_blockedPatterns =
      NavigationFilter.matchesPattern
        { scheme := "https", host := "exam.example.org", path := "/quiz/start" }
        ((NavigationFilter.new.setAllowedPatterns ["*.example.org/*"]).setBlockedPatterns
          ["*/quiz/*"]).m_blockedPatterns :=
  (C23_matching_ignores_case_of_host_and_path NavigationFilter.new ["*.example.org/*"]
    ["*/quiz/*"] { scheme := "https", host := "exam.example.org", path := "/quiz/start" }
    "Exam.Example.ORG" "/Quiz/Start" (by decide) (by decide)).1

end openlock
